import Mathlib

/-!
# v4l4j: the legacy (V4L1) capture backend and the native methods of the frame grabber

A shallow embedding of `libvideo/v4l1-input.c` and of the native methods of
`src/v4l4j_FrameGrabber.c`, which reach the backend through its operation table and are
therefore given the backend operations as arguments.  A capture device is a record that the
operations pass along explicitly; the driver is represented, for one call of an operation,
by the answers it gives to the requests of that call; every operation also returns the list
of requests it issued, in order.

Unsigned machine integers are natural numbers, with an explicit reduction modulo `2 ^ 32`
(or `2 ^ 16`) where the source multiplies or casts; the sizes a driver reports are taken to
be non-negative.  The constants, tables and result codes
that the source takes from headers which are not among the sources are the fields of
`Headers`, a parameter of every operation.
-/

namespace V4l4j

/-! ## Machine integers -/

/-- The cast `(u16) x`. -/
def u16 (x : Int) : Nat := (x % 65536).toNat

/-- The cast `(int) x` of an `unsigned int`. -/
def to_int (x : Nat) : Int :=
  if x % 2 ^ 32 < 2 ^ 31 then ((x % 2 ^ 32 : Nat) : Int) else ((x % 2 ^ 32 : Nat) : Int) - 2 ^ 32

/-- The cast `(unsigned int) p` of a pointer-sized value. -/
def to_uint (p : Nat) : Nat := p % 2 ^ 32

/-! ## Declarations taken from headers -/

/-- The two fields of an entry of the table `libvideo_palettes` that the backend reads. -/
structure libvideo_palette where
  v4l1_palette : Int
  depth : Int
deriving DecidableEq

/-- The constants, the palette table and the result codes that `v4l1-input.c` uses and that
are declared in `libvideo.h`, `videodev.h`, `libvideo-palettes.h`, `libvideo-err.h` and
`sys/mman.h`. -/
structure Headers where
  MAX_WIDTH : Nat
  MAX_HEIGHT : Nat
  NTSC : Nat
  PAL : Nat
  SECAM : Nat
  VIDEO_MODE_NTSC : Nat
  VIDEO_MODE_PAL : Nat
  VIDEO_MODE_SECAM : Nat
  VIDEO_MODE_AUTO : Nat
  VIDEO_PALETTE_YUV420P : Nat
  VIDEO_PALETTE_YUV422 : Nat
  VIDEO_PALETTE_YUV411P : Nat
  VIDEO_PALETTE_UNDEFINED_V4L1 : Nat
  YUV420 : Nat
  YUYV : Nat
  YUV411 : Nat
  YUV420P : Nat
  YUV422 : Nat
  YUV411P : Nat
  libvideo_palettes : Int → libvideo_palette
  LIBVIDEO_ERR_SUCCESS : Int
  LIBVIDEO_ERR_NOCAPS : Int
  LIBVIDEO_ERR_CHAN_SETUP : Int
  LIBVIDEO_ERR_IOCTL : Int
  LIBVIDEO_ERR_FORMAT : Int
  LIBVIDEO_ERR_DIMENSIONS : Int
  LIBVIDEO_ERR_REQ_MMAP : Int
  LIBVIDEO_ERR_INVALID_BUF_NB : Int
  LIBVIDEO_ERR_MMAP_BUF : Int
  MAP_FAILED : Int
  RGB24 : Nat
  BGR24 : Nat
  YVU420 : Nat
  LIBVIDEO_ERR_STD : Int
  LIBVIDEO_ERR_CHANNEL : Int
  VIDEO_PALETTE_GREY : Nat
  VIDEO_PALETTE_HI240 : Nat
  VIDEO_PALETTE_RGB565 : Nat
  VIDEO_PALETTE_RGB555 : Nat
  VIDEO_PALETTE_RGB24 : Nat
  VIDEO_PALETTE_RGB32 : Nat
  VIDEO_PALETTE_YUYV : Nat
  VIDEO_PALETTE_UYVY : Nat
  VIDEO_PALETTE_YUV420 : Nat
  VIDEO_PALETTE_YUV411 : Nat
  VIDEO_PALETTE_RAW : Nat
  VIDEO_PALETTE_YUV422P : Nat
  VIDEO_PALETTE_YUV410P : Nat

/-- The failure codes that `set_cap_param_v4l1` can return all differ from its success value 0. -/
def Headers.cap_errors_nonzero (K : Headers) : Prop :=
  K.LIBVIDEO_ERR_NOCAPS ≠ 0 ∧ K.LIBVIDEO_ERR_CHAN_SETUP ≠ 0 ∧ K.LIBVIDEO_ERR_IOCTL ≠ 0 ∧
  K.LIBVIDEO_ERR_FORMAT ≠ 0 ∧ K.LIBVIDEO_ERR_DIMENSIONS ≠ 0

/-! ## Data model -/

/-- One buffer of the pool, `struct mmap_buffer`. -/
structure mmap_buffer where
  start : Int
  length : Int
deriving DecidableEq

/-- The buffer pool, `struct mmap`; `tmp` holds the index of the current frame. -/
structure mmap where
  buffer_nr : Nat
  buffers : List mmap_buffer
  v4l1_mmap_size : Int
  tmp : Nat
deriving DecidableEq

/-- The capture device, `struct capture_device` (the fields the legacy backend uses). -/
structure capture_device where
  mmap : mmap
  palette : Nat
  width : Nat
  height : Nat
  std : Nat
  channel : Nat
  imagesize : Nat
  tuner_nb : Int
  needs_conversion : Bool
  real_v4l1_palette : Int
  is_native : Bool
deriving DecidableEq

/-- The size limits of `struct video_capability`. -/
structure video_capability where
  maxwidth : Nat
  maxheight : Nat
  minwidth : Nat
  minheight : Nat
deriving DecidableEq

/-- The fields of `struct video_channel` that the backend uses. -/
structure video_channel where
  channel : Nat
  tuners : Int
  norm : Nat
deriving DecidableEq

/-- The driver's picture settings, `struct video_picture`. -/
structure video_picture where
  brightness : Nat
  hue : Nat
  colour : Nat
  contrast : Nat
  whiteness : Nat
  depth : Nat
  palette : Nat
deriving DecidableEq

/-- The capture window, `struct video_window`. -/
structure video_window where
  x : Nat
  y : Nat
  width : Nat
  height : Nat
  chromakey : Nat
  flags : Nat
  clips : Nat
  clipcount : Nat
deriving DecidableEq

/-- The argument of VIDIOCMCAPTURE, `struct video_mmap`. -/
structure video_mmap where
  frame : Nat
  width : Nat
  height : Nat
  format : Int
deriving DecidableEq

/-- The requests the backend issues on the device handle, with their arguments. -/
inductive Request where
  | VIDIOCGCAP
  | VIDIOCSCHAN (chan : video_channel)
  | VIDIOCGCHAN (chan : video_channel)
  | VIDIOCGPICT
  | VIDIOCSPICT (pict : video_picture)
  | VIDIOCSWIN (win : video_window)
  | VIDIOCGWIN
  | VIDIOCGMBUF
  | MMAP (size : Int)
  | VIDIOCMCAPTURE (mm : video_mmap)
  | VIDIOCSYNC (frame : Nat)
  | MUNMAP (start : Int) (size : Int)
deriving DecidableEq

/-- What an operation hands back: its return value, the device as it leaves it, and the
requests it issued, oldest first. -/
structure Outcome where
  ret : Int
  c : capture_device
  trace : List Request
deriving DecidableEq

/-! ## `list_cap_v4l1` -/

/-- The driver's answers during one call of `list_cap_v4l1` that decide which requests
follow: the value of the VIDIOCGCAP of `list_cap_v4l1` itself, the value of the VIDIOCGCAP
of `query_capture_intf_v4l1` and the number of inputs `vc.channels` it reports, the value of
the VIDIOCGCHAN for each input (0 for an input past the end of the list), and the value of
the VIDIOCGPICT of `enum_image_fmt_v4l1`.  The other answers are only printed. -/
structure ListDriver where
  gcap_ret : Int
  intf_gcap_ret : Int
  channels : Nat
  gchan_rets : List Int
  gpict_ret : Int
deriving DecidableEq

/-- The loop of `query_capture_intf_v4l1` (lines 684-709) over the inputs still to be
queried: one VIDIOCGCHAN for each input, until one fails. -/
def query_inputs_v4l1 (gchan_rets : List Int) : List Nat → List Request
  | [] => []
  | i :: rest =>
    Request.VIDIOCGCHAN { channel := i, tuners := 0, norm := 0 } ::
      (if gchan_rets.getD i 0 = -1 then [] else query_inputs_v4l1 gchan_rets rest)

/-- The requests of `query_capture_intf_v4l1` (lines 672-711). -/
def query_capture_intf_v4l1 (L : ListDriver) : List Request :=
  Request.VIDIOCGCAP ::
    (if L.intf_gcap_ret = -1 then []
     else query_inputs_v4l1 L.gchan_rets (List.range L.channels))

/-- The picture of `PRINT_PALETTE_SUPPORT`: cleared, with the palette set. -/
def palette_probe (palette : Nat) : video_picture :=
  { brightness := 0, hue := 0, colour := 0, contrast := 0, whiteness := 0, depth := 0,
    palette := palette }

/-- The requests of `enum_image_fmt_v4l1` (lines 611-655): the current picture, and when
that is given a palette-setting request for each of the sixteen legacy palettes. -/
def enum_image_fmt_v4l1 (K : Headers) (L : ListDriver) : List Request :=
  Request.VIDIOCGPICT ::
    (if L.gpict_ret < 0 then []
     else
      [K.VIDEO_PALETTE_GREY, K.VIDEO_PALETTE_HI240, K.VIDEO_PALETTE_RGB565,
       K.VIDEO_PALETTE_RGB555, K.VIDEO_PALETTE_RGB24, K.VIDEO_PALETTE_RGB32,
       K.VIDEO_PALETTE_YUV422, K.VIDEO_PALETTE_YUYV, K.VIDEO_PALETTE_UYVY,
       K.VIDEO_PALETTE_YUV420, K.VIDEO_PALETTE_YUV411, K.VIDEO_PALETTE_RAW,
       K.VIDEO_PALETTE_YUV422P, K.VIDEO_PALETTE_YUV411P, K.VIDEO_PALETTE_YUV420P,
       K.VIDEO_PALETTE_YUV410P].map (fun p => Request.VIDIOCSPICT (palette_probe p)))

/-- The request of `query_current_image_fmt_v4l1` (lines 657-670). -/
def query_current_image_fmt_v4l1 : List Request := [Request.VIDIOCGWIN]

/-- The request of `query_frame_sizes_v4l1` (lines 713-727). -/
def query_frame_sizes_v4l1 : List Request := [Request.VIDIOCGCAP]

/-- The requests of `list_cap_v4l1(fd)` (lines 731-763), which prints what the driver
reports and touches no field of the capture device. -/
def list_cap_v4l1 (K : Headers) (L : ListDriver) : List Request :=
  Request.VIDIOCGCAP ::
    (if L.gcap_ret = -1 then []
     else query_capture_intf_v4l1 L ++ enum_image_fmt_v4l1 K L ++
       query_current_image_fmt_v4l1 ++ query_frame_sizes_v4l1)

/-! ## `set_cap_param_v4l1` -/

/-- The driver's answers during one call of `set_cap_param_v4l1`: the value each `ioctl`
returns and what the driver writes into the structure passed to it; `list` holds the
answers to `list_cap_v4l1`, which is called when the channel selection is rejected. -/
structure CapDriver where
  gcap_ret : Int
  vc : video_capability
  schan_ret : Int
  gchan_ret : Int
  gchan_tuners : Int
  gpict_ret : Int
  pict : video_picture
  spict_ret : Int
  swin_ret : Int
  gwin_ret : Int
  win : video_window
  list : ListDriver
deriving DecidableEq

/-- The test `check_v4l1`: `ioctl(fd, VIDIOCGCAP, vc) >= 0`. -/
def check_v4l1 (gcap_ret : Int) : Bool := decide (gcap_ret ≥ 0)

/-- Lines 85-96: the requested size brought into the range the driver reports. -/
def clamp_size (K : Headers) (vc : video_capability) (c : capture_device) : capture_device :=
  let c := if c.width = K.MAX_WIDTH ∨ c.width > vc.maxwidth then { c with width := vc.maxwidth } else c
  let c := if c.height = K.MAX_HEIGHT ∨ c.height > vc.maxheight then { c with height := vc.maxheight } else c
  let c := if c.width < vc.minwidth then { c with width := vc.minwidth } else c
  if c.height < vc.minheight then { c with height := vc.minheight } else c

/-- Lines 102-115: the `switch` on the standard. -/
def chan_norm (K : Headers) (std : Nat) : Nat :=
  if std = K.NTSC then K.VIDEO_MODE_NTSC
  else if std = K.PAL then K.VIDEO_MODE_PAL
  else if std = K.SECAM then K.VIDEO_MODE_SECAM
  else K.VIDEO_MODE_AUTO

/-- Lines 129-137: the tuner index kept for the input. -/
def tuner_index (tuners : Int) : Int :=
  if tuners > 1 then -1 else if tuners = 1 then 0 else -1

/-- The image size expression `c->width * c->height * pict.depth / 8` on unsigned integers. -/
def image_bytes (width height depth : Nat) : Nat := (width * height * depth) % 2 ^ 32 / 8

/-- Lines 155-215, the part before the request: the picture handed to VIDIOCSPICT for
`palette`, starting from the picture `pict` the driver reported. -/
def spict_arg (K : Headers) (palette : Nat) (pict : video_picture) : video_picture :=
  let pict := { pict with palette := u16 (K.libvideo_palettes palette).v4l1_palette,
                          depth := u16 (K.libvideo_palettes palette).depth }
  if palette = K.YUV420 then
    { pict with palette := K.VIDEO_PALETTE_YUV420P, depth := u16 (K.libvideo_palettes palette).depth }
  else if palette = K.YUYV then
    { pict with palette := K.VIDEO_PALETTE_YUV422, depth := u16 (K.libvideo_palettes palette).depth }
  else if palette = K.YUV411 then
    { pict with palette := K.VIDEO_PALETTE_YUV411P, depth := u16 (K.libvideo_palettes palette).depth }
  else pict

/-- Lines 155-215, the part after an accepted request: the palette, the real legacy palette
and the image size recorded in the device. -/
def accept_palette (K : Headers) (palette : Nat) (depth : Nat) (c : capture_device) : capture_device :=
  if palette = K.YUV420 then
    { c with palette := K.YUV420, real_v4l1_palette := K.YUV420P,
             imagesize := image_bytes c.width c.height depth }
  else if palette = K.YUYV then
    { c with palette := K.YUYV, real_v4l1_palette := K.YUV422,
             imagesize := image_bytes c.width c.height depth }
  else if palette = K.YUV411 then
    { c with palette := K.YUV411, real_v4l1_palette := K.YUV411P,
             imagesize := image_bytes c.width c.height depth }
  else
    { c with palette := palette, real_v4l1_palette := to_int palette,
             imagesize := image_bytes c.width c.height depth }

/-- Lines 219-228: the window handed to VIDIOCSWIN. -/
def swin_arg (c : capture_device) : video_window :=
  { x := 0, y := 0, width := c.width, height := c.height, chromakey := 0, flags := 0,
    clips := 0, clipcount := 0 }

/-- Lines 243-247: the size the driver reports replaces the one in the device. -/
def adopt_window (win : video_window) (c : capture_device) : capture_device :=
  if win.width ≠ c.width ∨ win.height ≠ c.height then
    { c with width := win.width, height := win.height }
  else c

/-- The operation `set_cap_param_v4l1(vdev, src_palette, palette)` on the capture device `c`
of `vdev`, against a driver answering `drv`. -/
def set_cap_param_v4l1 (K : Headers) (c : capture_device) (src_palette palette : Nat)
    (drv : CapDriver) : Outcome :=
  let _ := src_palette
  let tr := [Request.VIDIOCGCAP]
  if check_v4l1 drv.gcap_ret = false then ⟨K.LIBVIDEO_ERR_NOCAPS, c, tr⟩ else
  let c := clamp_size K drv.vc c
  let chan : video_channel := { channel := c.channel, tuners := 0, norm := chan_norm K c.std }
  let tr := tr ++ [Request.VIDIOCSCHAN chan]
  if drv.schan_ret = -1 then
    ⟨K.LIBVIDEO_ERR_CHAN_SETUP, c, tr ++ list_cap_v4l1 K drv.list⟩ else
  let chan := { chan with channel := c.channel }
  let tr := tr ++ [Request.VIDIOCGCHAN chan]
  if drv.gchan_ret = -1 then ⟨K.LIBVIDEO_ERR_CHAN_SETUP, c, tr⟩ else
  let c := { c with tuner_nb := tuner_index drv.gchan_tuners }
  let tr := tr ++ [Request.VIDIOCGPICT]
  if drv.gpict_ret = -1 then ⟨K.LIBVIDEO_ERR_IOCTL, c, tr⟩ else
  if palette = K.VIDEO_PALETTE_UNDEFINED_V4L1 then ⟨K.LIBVIDEO_ERR_FORMAT, c, tr⟩ else
  let pict := spict_arg K palette drv.pict
  let tr := tr ++ [Request.VIDIOCSPICT pict]
  if drv.spict_ret ≠ 0 then ⟨K.LIBVIDEO_ERR_FORMAT, c, tr⟩ else
  let c := accept_palette K palette pict.depth c
  let c := { c with needs_conversion := false }
  let tr := tr ++ [Request.VIDIOCSWIN (swin_arg c)]
  if drv.swin_ret = -1 then ⟨K.LIBVIDEO_ERR_DIMENSIONS, c, tr⟩ else
  let tr := tr ++ [Request.VIDIOCGWIN]
  if drv.gwin_ret = -1 then ⟨K.LIBVIDEO_ERR_DIMENSIONS, c, tr⟩ else
  ⟨0, adopt_window drv.win c, tr⟩

/-- The case distinction of the specification for a requested size `w`: the maximum when
the request is the sentinel or exceeds the maximum, the minimum when it is below the
minimum, the request otherwise. -/
def clamped (sentinel lo hi w : Nat) : Nat :=
  if w = sentinel ∨ w > hi then hi else if w < lo then lo else w

/-- The driver lets a call of `set_cap_param_v4l1` for `palette` through: every request
succeeds and the palette passes the test of line 150. -/
def CapDriver.accepts (K : Headers) (palette : Nat) (drv : CapDriver) : Prop :=
  check_v4l1 drv.gcap_ret = true ∧ drv.schan_ret ≠ -1 ∧ drv.gchan_ret ≠ -1 ∧
  drv.gpict_ret ≠ -1 ∧ palette ≠ K.VIDEO_PALETTE_UNDEFINED_V4L1 ∧ drv.spict_ret = 0 ∧
  drv.swin_ret ≠ -1 ∧ drv.gwin_ret ≠ -1

/-- The value `set_cap_param_v4l1` returns, read off the `return` statements in order: it is
decided by the driver's answers and the palette alone. -/
def cap_ret (K : Headers) (palette : Nat) (drv : CapDriver) : Int :=
  if check_v4l1 drv.gcap_ret = false then K.LIBVIDEO_ERR_NOCAPS
  else if drv.schan_ret = -1 then K.LIBVIDEO_ERR_CHAN_SETUP
  else if drv.gchan_ret = -1 then K.LIBVIDEO_ERR_CHAN_SETUP
  else if drv.gpict_ret = -1 then K.LIBVIDEO_ERR_IOCTL
  else if palette = K.VIDEO_PALETTE_UNDEFINED_V4L1 then K.LIBVIDEO_ERR_FORMAT
  else if drv.spict_ret ≠ 0 then K.LIBVIDEO_ERR_FORMAT
  else if drv.swin_ret = -1 then K.LIBVIDEO_ERR_DIMENSIONS
  else if drv.gwin_ret = -1 then K.LIBVIDEO_ERR_DIMENSIONS
  else 0

/-- The real legacy palette that lines 163-215 record for `palette`. -/
def real_palette (K : Headers) (palette : Nat) : Int :=
  if palette = K.YUV420 then K.YUV420P
  else if palette = K.YUYV then K.YUV422
  else if palette = K.YUV411 then K.YUV411P
  else to_int palette

/-- The requests of a call of `set_cap_param_v4l1` that runs to the end. -/
def full_trace (K : Headers) (c : capture_device) (palette : Nat) (drv : CapDriver) :
    List Request :=
  [Request.VIDIOCGCAP,
   Request.VIDIOCSCHAN { channel := c.channel, tuners := 0, norm := chan_norm K c.std },
   Request.VIDIOCGCHAN { channel := c.channel, tuners := 0, norm := chan_norm K c.std },
   Request.VIDIOCGPICT,
   Request.VIDIOCSPICT (spict_arg K palette drv.pict),
   Request.VIDIOCSWIN { x := 0, y := 0, width := (clamp_size K drv.vc c).width,
                        height := (clamp_size K drv.vc c).height, chromakey := 0, flags := 0,
                        clips := 0, clipcount := 0 },
   Request.VIDIOCGWIN]

/-! ## `init_capture_v4l1` -/

/-- The driver's report on its buffers, `struct video_mbuf`. -/
structure video_mbuf where
  size : Int
  frames : Int
  offsets : List Int
deriving DecidableEq

/-- The answers during one call of `init_capture_v4l1`: the value VIDIOCGMBUF returns, the
report it writes, and the address `mmap` returns (`MAP_FAILED` on failure). -/
structure InitDriver where
  gmbuf_ret : Int
  vm : video_mbuf
  mmap_ret : Int
deriving DecidableEq

/-- The array entry `vm.offsets[i]`; the array starts zeroed (`vm = {0}`). -/
def video_mbuf.offset (vm : video_mbuf) (i : Nat) : Int := vm.offsets.getD i 0

/-- The operation `init_capture_v4l1(vdev)` on the capture device `c` of `vdev`.  `XMALLOC`
is taken to return a zeroed array of `buffer_nr` entries. -/
def init_capture_v4l1 (K : Headers) (c : capture_device) (drv : InitDriver) : Outcome :=
  let tr := [Request.VIDIOCGMBUF]
  if drv.gmbuf_ret = -1 then ⟨K.LIBVIDEO_ERR_REQ_MMAP, c, tr⟩ else
  let vm := drv.vm
  if ¬ (vm.frames > 2) ∧ vm.frames < 2 then ⟨K.LIBVIDEO_ERR_INVALID_BUF_NB, c, tr⟩ else
  let m := { c.mmap with buffer_nr := 2 }
  let m := { m with buffers := List.replicate m.buffer_nr ⟨0, 0⟩ }
  let tr := tr ++ [Request.MMAP vm.size]
  let m := { m with buffers := m.buffers.modify (fun b => { b with start := drv.mmap_ret }) 0 }
  if K.MAP_FAILED = drv.mmap_ret then ⟨K.LIBVIDEO_ERR_MMAP_BUF, { c with mmap := m }, tr⟩ else
  let m := { m with v4l1_mmap_size := vm.size }
  let m := { m with buffers := m.buffers.modify (fun b => { b with start := drv.mmap_ret + vm.offset 1 }) 1 }
  let m := { m with buffers := m.buffers.modify (fun b => { b with length := vm.size - 1 }) 1 }
  let m := { m with buffers := m.buffers.modify (fun b => { b with length := vm.size - 1 }) 0 }
  let m := { m with tmp := 0 }
  ⟨0, { c with mmap := m }, tr⟩

/-! ## `start_capture_v4l1` and `dequeue_buffer_v4l1` -/

/-- The answer during one call of `start_capture_v4l1`: the value VIDIOCMCAPTURE returns. -/
structure StartDriver where
  mcapture_ret : Int
deriving DecidableEq

/-- The operation `start_capture_v4l1(vdev)`. -/
def start_capture_v4l1 (K : Headers) (c : capture_device) (drv : StartDriver) : Outcome :=
  let mm : video_mmap := { frame := 0, width := c.width, height := c.height,
                           format := (K.libvideo_palettes c.real_v4l1_palette).v4l1_palette }
  let tr := [Request.VIDIOCMCAPTURE mm]
  if drv.mcapture_ret = -1 then ⟨K.LIBVIDEO_ERR_IOCTL, c, tr⟩ else
  ⟨K.LIBVIDEO_ERR_SUCCESS, { c with mmap := { c.mmap with tmp := 0 } }, tr⟩

/-- A time of day, `struct timeval`. -/
structure timeval where
  tv_sec : Int
  tv_usec : Int
deriving DecidableEq

/-- The environment during one call of `dequeue_buffer_v4l1`: the values VIDIOCMCAPTURE and
VIDIOCSYNC return and the time `gettimeofday` reports. -/
structure DequeueDriver where
  mcapture_ret : Int
  sync_ret : Int
  now : timeval
deriving DecidableEq

/-- What `dequeue_buffer_v4l1` hands back: the returned address (`some 0` is `NULL`; `none`
when the function reads `buffers[curr_frame]` outside the pool, which C leaves undefined),
the value left in each output parameter (`none` when the function does not write it), the
device and the requests issued. -/
structure Dequeued where
  ret : Option Int
  len : Nat
  index : Option Nat
  capture_time : Option timeval
  sequence : Option Nat
  c : capture_device
  trace : List Request
deriving DecidableEq

/-- The operation `dequeue_buffer_v4l1(vdev, len, index, capture_time, sequence)`;
`want_time` and `want_sequence` say whether `capture_time` and `sequence` are non-null. -/
def dequeue_buffer_v4l1 (K : Headers) (c : capture_device) (want_time want_sequence : Bool)
    (drv : DequeueDriver) : Dequeued :=
  let curr_frame := to_uint c.mmap.tmp
  let next_frame := curr_frame ^^^ 1
  let len := c.imagesize
  let capture_time := if want_time then some drv.now else none
  let mm : video_mmap := { frame := next_frame, width := c.width, height := c.height,
                           format := (K.libvideo_palettes c.real_v4l1_palette).v4l1_palette }
  let tr := [Request.VIDIOCMCAPTURE mm]
  if drv.mcapture_ret = -1 then
    { ret := some 0, len := 0, index := none, capture_time := capture_time, sequence := none,
      c := c, trace := tr }
  else
  let tr := tr ++ [Request.VIDIOCSYNC curr_frame]
  if drv.sync_ret = -1 then
    { ret := some 0, len := 0, index := none, capture_time := capture_time, sequence := none,
      c := c, trace := tr }
  else
  let c := { c with mmap := { c.mmap with tmp := next_frame } }
  let sequence := if want_sequence then some 0 else none
  { ret := (c.mmap.buffers[curr_frame]?).map mmap_buffer.start, len := len, index := none,
    capture_time := capture_time, sequence := sequence, c := c, trace := tr }

/-! ## The remaining operations of the legacy backend -/

/-- What an operation with two output parameters hands back: the returned value, the value
left in each output parameter (`none` when the function does not write it), the device and
the requests issued. -/
structure Fetched where
  ret : Int
  out1 : Option Nat
  out2 : Option Nat
  c : capture_device
  trace : List Request
deriving DecidableEq

/-- What a `void` operation with two output parameters hands back: as `Fetched`, without a
returned value. -/
structure Written where
  out1 : Option Nat
  out2 : Option Nat
  c : capture_device
  trace : List Request
deriving DecidableEq

/-- The operation `set_frame_intv_v4l1(vdev, num, denom)`. -/
def set_frame_intv_v4l1 (K : Headers) (c : capture_device) (num denom : Nat) : Outcome :=
  let _ := num
  let _ := denom
  ⟨K.LIBVIDEO_ERR_IOCTL, c, []⟩

/-- The operation `get_frame_intv_v4l1(vdev, num, denom)`. -/
def get_frame_intv_v4l1 (K : Headers) (c : capture_device) : Fetched :=
  { ret := K.LIBVIDEO_ERR_IOCTL, out1 := none, out2 := none, c := c, trace := [] }

/-- The operation `set_video_input_std_v4l1(vdev, input_num, std)`. -/
def set_video_input_std_v4l1 (K : Headers) (c : capture_device) (input_num std : Nat) :
    Outcome :=
  let _ := input_num
  let _ := std
  ⟨K.LIBVIDEO_ERR_IOCTL, c, []⟩

/-- The operation `get_video_input_std_v4l1(vdev, input_num, std)`, a `void` function. -/
def get_video_input_std_v4l1 (c : capture_device) : Written :=
  { out1 := none, out2 := none, c := c, trace := [] }

/-- The operation `enqueue_buffer_v4l1(device, i)`: the device afterwards and the requests
issued. -/
def enqueue_buffer_v4l1 (c : capture_device) (i : Nat) : capture_device × List Request :=
  let _ := i
  (c, [])

/-- The operation `stop_capture_v4l1(vdev)`. -/
def stop_capture_v4l1 (c : capture_device) : Outcome := ⟨0, c, []⟩

/-- The operation `free_capture_v4l1(vdev)`: the device afterwards and the requests issued;
`munmap_ret`, the value `munmap` returns, is only logged.  The result is `none` when there
is no `buffers[0]` to read.  `XFREE` leaves the array pointer null, here the empty list. -/
def free_capture_v4l1 (c : capture_device) (munmap_ret : Int) :
    Option (capture_device × List Request) :=
  let _ := munmap_ret
  match c.mmap.buffers[0]? with
  | none => none
  | some b =>
    some ({ c with mmap := { c.mmap with buffers := [] } },
          [Request.MUNMAP b.start c.mmap.v4l1_mmap_size])

/-- The failure codes that `init_capture_v4l1` can return all differ from its success
value 0. -/
def Headers.init_errors_nonzero (K : Headers) : Prop :=
  K.LIBVIDEO_ERR_REQ_MMAP ≠ 0 ∧ K.LIBVIDEO_ERR_INVALID_BUF_NB ≠ 0 ∧ K.LIBVIDEO_ERR_MMAP_BUF ≠ 0

/-- Both requests of a call of `dequeue_buffer_v4l1` succeed. -/
def DequeueDriver.succeeds (drv : DequeueDriver) : Prop :=
  drv.mcapture_ret ≠ -1 ∧ drv.sync_ret ≠ -1

/-- The device after consecutive calls of `dequeue_buffer_v4l1`, one for each entry of the
list of driver answers. -/
def dequeue_run (K : Headers) (want_time want_sequence : Bool) :
    capture_device → List DequeueDriver → capture_device
  | c, [] => c
  | c, drv :: rest =>
    dequeue_run K want_time want_sequence
      (dequeue_buffer_v4l1 K c want_time want_sequence drv).c rest

/-! ## The native methods of `v4l4j_FrameGrabber.c` -/

/-- The conversion of an `int` to `unsigned int`. -/
def to_u32 (x : Int) : Nat := (x % 2 ^ 32).toNat

/-- The conversion to `jlong`, a signed 64-bit integer. -/
def to_int64 (x : Int) : Int := (x + 2 ^ 63) % 2 ^ 64 - 2 ^ 63

/-- The output formats of `enum output_format`, declared in `common.h`. -/
structure Common where
  OUTPUT_RAW : Int
  OUTPUT_JPG : Int
  OUTPUT_RGB24 : Int
  OUTPUT_BGR24 : Int
  OUTPUT_YUV420 : Int
  OUTPUT_YVU420 : Int

/-- The output formats are pairwise distinct, as the labels of one `switch` are. -/
def Common.outputs_distinct (J : Common) : Prop :=
  [J.OUTPUT_RAW, J.OUTPUT_JPG, J.OUTPUT_RGB24, J.OUTPUT_BGR24, J.OUTPUT_YUV420,
   J.OUTPUT_YVU420].Nodup

/-- The Java exception classes that `THROW_EXCEPTION` is used with. -/
inductive Excp where
  | JNI_EXCP
  | INIT_EXCP
  | DIM_EXCP
  | CHANNEL_EXCP
  | FORMAT_EXCP
  | STD_EXCP
  | GENERIC_EXCP
  | INVALID_VAL_EXCP
  | UNSUPPORTED_METH_EXCP
deriving DecidableEq

/-- The device of the binding layer, `struct v4l4j_device`: `vdev` is the capture device
`d->vdev->capture`; buffers are the lists of their bytes. -/
structure v4l4j_device where
  vdev : capture_device
  output_fmt : Int
  need_conv : Bool
  capture_len : Nat
  double_conversion_buffer : List Nat
deriving DecidableEq

/-- The function `get_buffer_length`, an `int` computed from `unsigned int` fields. -/
def get_buffer_length (J : Common) (d : v4l4j_device) : Int :=
  if d.output_fmt = J.OUTPUT_RAW ∨ d.output_fmt = J.OUTPUT_JPG then to_int d.vdev.imagesize
  else if d.output_fmt = J.OUTPUT_RGB24 then to_int (d.vdev.width * d.vdev.height * 3)
  else if d.output_fmt = J.OUTPUT_BGR24 then to_int (d.vdev.width * d.vdev.height * 3)
  else if d.output_fmt = J.OUTPUT_YUV420 then
    to_int (d.vdev.width * d.vdev.height * 3 % 2 ^ 32 / 2)
  else if d.output_fmt = J.OUTPUT_YVU420 then
    to_int (d.vdev.width * d.vdev.height * 3 % 2 ^ 32 / 2)
  else 0

/-- What a native method hands back to the Java side: the value returned (`none` for a
`void` method), the exception raised if any, the capture device and the requests issued. -/
structure Native where
  ret : Option Int
  raised : Option Excp
  c : capture_device
  trace : List Request
deriving DecidableEq

/-- The native method `doSetFrameIntv`, over the backend's `set_frame_interval`. -/
def Java_au_edu_jcu_v4l4j_AbstractGrabber_doSetFrameIntv (K : Headers)
    (set_frame_interval : capture_device → Nat → Nat → Outcome) (c : capture_device)
    (num denom : Int) : Native :=
  let r := set_frame_interval c (to_u32 num) (to_u32 denom)
  if r.ret = K.LIBVIDEO_ERR_FORMAT then
    { ret := none, raised := some Excp.INVALID_VAL_EXCP, c := r.c, trace := r.trace }
  else if r.ret = K.LIBVIDEO_ERR_IOCTL then
    { ret := none, raised := some Excp.UNSUPPORTED_METH_EXCP, c := r.c, trace := r.trace }
  else { ret := none, raised := none, c := r.c, trace := r.trace }

/-- The native method `doGetFrameIntv`, over the backend's `get_frame_interval`; `num` and
`denom` are the indeterminate initial contents of the two local variables. -/
def Java_au_edu_jcu_v4l4j_AbstractGrabber_doGetFrameIntv
    (get_frame_interval : capture_device → Fetched) (c : capture_device) (what : Int)
    (num denom : Nat) : Native :=
  let r := get_frame_interval c
  let num := r.out1.getD num
  let denom := r.out2.getD denom
  if r.ret ≠ 0 then
    { ret := some 0, raised := some Excp.UNSUPPORTED_METH_EXCP, c := r.c, trace := r.trace }
  else if what = 0 then { ret := some (to_int num), raised := none, c := r.c, trace := r.trace }
  else { ret := some (to_int denom), raised := none, c := r.c, trace := r.trace }

/-- The native method `doGetVideoInput`, over the backend's `get_video_input_std`;
`input_num` and `standard` are the indeterminate initial contents of the two local
variables. -/
def Java_au_edu_jcu_v4l4j_AbstractGrabber_doGetVideoInput
    (get_video_input_std : capture_device → Written) (c : capture_device)
    (input_num standard : Nat) : Native :=
  let r := get_video_input_std c
  let input_num := r.out1.getD input_num
  let _ := r.out2.getD standard
  { ret := some (to_int input_num), raised := none, c := r.c, trace := r.trace }

/-- The native method `doGetVideoStandard`, over the backend's `get_video_input_std`. -/
def Java_au_edu_jcu_v4l4j_AbstractGrabber_doGetVideoStandard
    (get_video_input_std : capture_device → Written) (c : capture_device)
    (input_num standard : Nat) : Native :=
  let r := get_video_input_std c
  let _ := r.out1.getD input_num
  let standard := r.out2.getD standard
  { ret := some (to_int standard), raised := none, c := r.c, trace := r.trace }

/-- The native method `stop`, over the backend's `stop_capture`: a negative result is only
logged. -/
def Java_au_edu_jcu_v4l4j_AbstractGrabber_stop (stop_capture : capture_device → Outcome)
    (c : capture_device) : Native :=
  let r := stop_capture c
  if r.ret < 0 then { ret := none, raised := none, c := r.c, trace := r.trace }
  else { ret := none, raised := none, c := r.c, trace := r.trace }

/-- A native method reports that the operation is not supported. -/
def Native.not_supported (n : Native) : Prop := n.raised = some Excp.UNSUPPORTED_METH_EXCP

/-- The call `memcpy(dst, src, n)` on the bytes at `dst` and at `src`: the bytes at `dst`
afterwards, `none` when `n` exceeds what either region holds. -/
def memcpy (dst src : List Nat) (n : Nat) : Option (List Nat) :=
  if n ≤ src.length ∧ n ≤ dst.length then some (src.take n ++ dst.drop n) else none

/-- The surroundings of one call of `fillBuffer`: the indeterminate initial contents of the
local variables `buffer_index`, `captureTime` and `sequence`, the bytes at the address
that the dequeue returns, the bytes of the destination that `getBufferPointer` returns
(`none` when it returns `NULL`), and the two conversion routines, each giving the output
length and the bytes it leaves at its destination. -/
structure FillEnv where
  buffer_index : Nat
  captureTime : timeval
  sequence : Nat
  frame : List Nat
  array : Option (List Nat)
  convert_buffer : capture_device → Nat → Nat → List Nat → Nat × List Nat
  convert : v4l4j_device → List Nat → List Nat → Nat × List Nat

/-- What `fillBuffer` hands back: the value returned, the exception raised if any, the
bytes of the destination when it was obtained, the buffer indices passed to the backend's
`enqueue_buffer`, the three members of the Java object when they were set, the device and
the requests issued. -/
structure Filled where
  ret : Int
  raised : Option Excp
  array : Option (List Nat)
  enqueued : List Nat
  lastCapturedFrameSequence : Option Int
  lastCapturedFrameTimeuSec : Option Int
  lastCapturedFrameBufferIndex : Option Int
  d : v4l4j_device
  trace : List Request
deriving DecidableEq

/-- Lines 545-571 of `fillBuffer`: the conversion into the destination `array`; the output
length, the bytes of the destination and the device afterwards. -/
def fill_convert (d : v4l4j_device) (env : FillEnv) (buffer_index : Nat) (array : List Nat) :
    Option (Nat × List Nat × v4l4j_device) :=
  if ¬ d.vdev.is_native then
    if ¬ d.need_conv then
      let r := env.convert_buffer d.vdev buffer_index d.capture_len array
      some (r.1, r.2, d)
    else
      let r1 := env.convert_buffer d.vdev buffer_index d.capture_len d.double_conversion_buffer
      let d := { d with double_conversion_buffer := r1.2 }
      let r2 := env.convert d d.double_conversion_buffer array
      some (r2.1, r2.2, d)
  else
    if ¬ d.need_conv then
      (memcpy array env.frame d.capture_len).map (fun a => (d.capture_len, a, d))
    else
      let r := env.convert d env.frame array
      some (r.1, r.2, d)

/-- Line 580 of `fillBuffer`: the capture time in microseconds,
`(jlong) tv_usec + (jlong) (tv_sec * UINT64_C(1000000))`. -/
def capture_usec (t : timeval) : Int :=
  to_int64 (to_int64 t.tv_usec + to_int64 (t.tv_sec * 1000000))

/-- The native method `fillBuffer`, over the backend's `dequeue_buffer` and
`enqueue_buffer`.  The result is `none` when the dequeue or the copy is undefined. -/
def Java_au_edu_jcu_v4l4j_AbstractGrabber_fillBuffer (d : v4l4j_device)
    (dequeue_buffer : capture_device → Dequeued)
    (enqueue_buffer : capture_device → Nat → capture_device × List Request)
    (env : FillEnv) : Option Filled :=
  let dq := dequeue_buffer d.vdev
  let d := { d with vdev := dq.c, capture_len := dq.len }
  let buffer_index := dq.index.getD env.buffer_index
  let captureTime := dq.capture_time.getD env.captureTime
  let sequence := dq.sequence.getD env.sequence
  match dq.ret with
  | none => none
  | some frame =>
    if frame = 0 then
      some { ret := 0, raised := some Excp.GENERIC_EXCP, array := none, enqueued := [],
             lastCapturedFrameSequence := none, lastCapturedFrameTimeuSec := none,
             lastCapturedFrameBufferIndex := none, d := d, trace := dq.trace }
    else
      match env.array with
      | none =>
        let q := enqueue_buffer d.vdev buffer_index
        some { ret := 0, raised := some Excp.GENERIC_EXCP, array := none,
               enqueued := [buffer_index], lastCapturedFrameSequence := none,
               lastCapturedFrameTimeuSec := none, lastCapturedFrameBufferIndex := none,
               d := { d with vdev := q.1 }, trace := dq.trace ++ q.2 }
      | some array =>
        (fill_convert d env buffer_index array).map fun r =>
          { ret := to_int r.1, raised := none, array := some r.2.1, enqueued := [],
            lastCapturedFrameSequence := some (to_int64 sequence),
            lastCapturedFrameTimeuSec := some (capture_usec captureTime),
            lastCapturedFrameBufferIndex := some (to_int buffer_index),
            d := r.2.2, trace := dq.trace }

/-! ## Initialisation through the native method `doInit` -/

/-- What `init_capture_format` hands back: the value returned, the device, and the contents
of `*src_fmt` and `*dest_fmt`. -/
structure FormatChoice where
  ret : Int
  d : v4l4j_device
  src_fmt : Int
  dest_fmt : Int
deriving DecidableEq

/-- The function `init_capture_format(d, fg_out_fmt, src_fmt, dest_fmt)`; `src_fmt` and
`dest_fmt` are the contents of the two variables on entry. -/
def init_capture_format (K : Headers) (J : Common) (d : v4l4j_device)
    (fg_out_fmt src_fmt dest_fmt : Int) : FormatChoice :=
  if fg_out_fmt = J.OUTPUT_JPG then ⟨0, { d with need_conv := true }, -1, src_fmt⟩
  else if fg_out_fmt = J.OUTPUT_RGB24 then ⟨0, { d with need_conv := false }, src_fmt, K.RGB24⟩
  else if fg_out_fmt = J.OUTPUT_RAW then ⟨0, { d with need_conv := false }, -1, src_fmt⟩
  else if fg_out_fmt = J.OUTPUT_BGR24 then ⟨0, { d with need_conv := false }, src_fmt, K.BGR24⟩
  else if fg_out_fmt = J.OUTPUT_YUV420 then
    ⟨0, { d with need_conv := false }, src_fmt, K.YUV420⟩
  else if fg_out_fmt = J.OUTPUT_YVU420 then
    ⟨0, { d with need_conv := false }, src_fmt, K.YVU420⟩
  else ⟨-1, d, src_fmt, dest_fmt⟩

/-- The function `init_format_converter(d)`; `init_jpeg_compressor` is the value that the
call `init_jpeg_compressor(d, 80)` returns.  `XMALLOC` gives a zeroed buffer. -/
def init_format_converter (J : Common) (d : v4l4j_device) (init_jpeg_compressor : Int) :
    Int × v4l4j_device :=
  if d.need_conv then
    let ret := if d.output_fmt = J.OUTPUT_JPG then init_jpeg_compressor else 0
    let d := if ¬ d.vdev.is_native then
        { d with double_conversion_buffer := List.replicate d.vdev.imagesize 0 }
      else d
    (ret, d)
  else (0, d)

/-- The surroundings of one call of `doInit`: whether the static field ids are already
known, whether `get_lastFrame_field_ids` finds them, the capture device that
`init_capture_device` returns (`none` for `NULL`), the indeterminate initial content of
the local variable `dest_fmt`, the value `init_jpeg_compressor` returns, and whether a
lookup in `update_width_height` fails. -/
structure InitEnv where
  field_ids_known : Bool
  field_ids_found : Bool
  init_capture_device : Int → Int → Int → Int → Int → Option capture_device
  dest_fmt : Int
  init_jpeg_compressor : Int
  update_fails : Bool

/-- What `doInit` hands back: the value returned, the exception raised if any, whether
`free_capture_device` was called, the device and the requests issued. -/
structure Inited where
  ret : Int
  raised : Option Excp
  freed : Bool
  d : v4l4j_device
  trace : List Request
deriving DecidableEq

/-- Lines 331-340 of `doInit`: the exception raised for a code `i` of `set_cap_param`. -/
def cap_param_excp (K : Headers) (i : Int) : Excp :=
  if i = K.LIBVIDEO_ERR_DIMENSIONS then Excp.DIM_EXCP
  else if i = K.LIBVIDEO_ERR_CHAN_SETUP then Excp.CHANNEL_EXCP
  else if i = K.LIBVIDEO_ERR_FORMAT then Excp.FORMAT_EXCP
  else if i = K.LIBVIDEO_ERR_STD then Excp.STD_EXCP
  else Excp.GENERIC_EXCP

/-- The native method `doInit`, over the backend's `set_cap_param`, `init_capture` and
`free_capture`. -/
def Java_au_edu_jcu_v4l4j_AbstractGrabber_doInit (K : Headers) (J : Common)
    (d : v4l4j_device)
    (set_cap_param : capture_device → Int → Int → Outcome)
    (init_capture : capture_device → Outcome)
    (free_capture : capture_device → capture_device × List Request)
    (env : InitEnv) (num_buffers w h ch std in_fmt fg_out_fmt : Int) : Inited :=
  if env.field_ids_known = false ∧ env.field_ids_found = false then
    { ret := 0, raised := some Excp.JNI_EXCP, freed := false, d := d, trace := [] }
  else
  match env.init_capture_device w h ch std num_buffers with
  | none => { ret := 0, raised := some Excp.INIT_EXCP, freed := false, d := d, trace := [] }
  | some c =>
    let d := { d with vdev := c, output_fmt := fg_out_fmt }
    let f := init_capture_format K J d fg_out_fmt in_fmt env.dest_fmt
    if f.ret = -1 then
      { ret := 0, raised := some Excp.INIT_EXCP, freed := true, d := f.d, trace := [] }
    else
    let d := f.d
    let r := set_cap_param d.vdev f.src_fmt f.dest_fmt
    let d := { d with vdev := r.c }
    if r.ret ≠ 0 then
      { ret := 0, raised := some (cap_param_excp K r.ret), freed := true, d := d,
        trace := r.trace }
    else
    let r2 := init_capture d.vdev
    let d := { d with vdev := r2.c }
    if r2.ret < 0 then
      { ret := 0, raised := some Excp.GENERIC_EXCP, freed := true, d := d,
        trace := r.trace ++ r2.trace }
    else
    let fc := init_format_converter J d env.init_jpeg_compressor
    let d := fc.2
    if fc.1 ≠ 0 then
      let q := free_capture d.vdev
      { ret := 0, raised := some Excp.GENERIC_EXCP, freed := true, d := { d with vdev := q.1 },
        trace := r.trace ++ r2.trace ++ q.2 }
    else
      { ret := to_int d.vdev.mmap.buffer_nr,
        raised := if env.update_fails then some Excp.JNI_EXCP else none,
        freed := false, d := d, trace := r.trace ++ r2.trace }

/-- The choice of formats that `doInit` makes once `init_capture_device` has returned the
capture device `c`. -/
def doInit_format (K : Headers) (J : Common) (d : v4l4j_device) (env : InitEnv)
    (in_fmt fg_out_fmt : Int) (c : capture_device) : FormatChoice :=
  init_capture_format K J { d with vdev := c, output_fmt := fg_out_fmt } fg_out_fmt in_fmt
    env.dest_fmt

/-- The outcome of the call of `set_cap_param` that `doInit` makes for the capture
device `c`. -/
def doInit_set_cap_param (K : Headers) (J : Common) (d : v4l4j_device)
    (set_cap_param : capture_device → Int → Int → Outcome) (env : InitEnv)
    (in_fmt fg_out_fmt : Int) (c : capture_device) : Outcome :=
  set_cap_param (doInit_format K J d env in_fmt fg_out_fmt c).d.vdev
    (doInit_format K J d env in_fmt fg_out_fmt c).src_fmt
    (doInit_format K J d env in_fmt fg_out_fmt c).dest_fmt

/-- Every step of a call of `doInit` passes: the field ids are available, the capture
device is created, the output format is known, `set_cap_param` returns 0, `init_capture`
returns no negative code, and the format converter is set up. -/
def init_steps_pass (K : Headers) (J : Common) (d : v4l4j_device)
    (set_cap_param : capture_device → Int → Int → Outcome)
    (init_capture : capture_device → Outcome) (env : InitEnv)
    (num_buffers w h ch std in_fmt fg_out_fmt : Int) : Prop :=
  (env.field_ids_known = true ∨ env.field_ids_found = true) ∧
  ∃ c, env.init_capture_device w h ch std num_buffers = some c ∧
    (doInit_format K J d env in_fmt fg_out_fmt c).ret ≠ -1 ∧
    (doInit_set_cap_param K J d set_cap_param env in_fmt fg_out_fmt c).ret = 0 ∧
    ¬ (init_capture (doInit_set_cap_param K J d set_cap_param env in_fmt fg_out_fmt c).c).ret
        < 0 ∧
    (init_format_converter J
      { (doInit_format K J d env in_fmt fg_out_fmt c).d with
        vdev := (init_capture
          (doInit_set_cap_param K J d set_cap_param env in_fmt fg_out_fmt c).c).c }
      env.init_jpeg_compressor).1 = 0

/-- The native method `doSetVideoInputNStandard`, over the backend's
`set_video_input_std`. -/
def Java_au_edu_jcu_v4l4j_AbstractGrabber_doSetVideoInputNStandard (K : Headers)
    (set_video_input_std : capture_device → Nat → Nat → Outcome) (c : capture_device)
    (input_num standard : Int) : Native :=
  let r := set_video_input_std c (to_u32 input_num) (to_u32 standard)
  if r.ret = K.LIBVIDEO_ERR_CHANNEL then
    { ret := none, raised := some Excp.CHANNEL_EXCP, c := r.c, trace := r.trace }
  else if r.ret = K.LIBVIDEO_ERR_STD then
    { ret := none, raised := some Excp.STD_EXCP, c := r.c, trace := r.trace }
  else { ret := none, raised := none, c := r.c, trace := r.trace }

/-! ## `v4l2-query.c`: the palettes a device supports -/

/-- The declarations of `palettes.h` and `libvideo-err.h` that `v4l2-query.c` uses: the
field `v4l2_palette` of each entry of the table `libv4l_palettes`, and three constants. -/
structure QueryHeaders where
  libv4l_palettes : List Int
  UNSUPPORTED_PALETTE : Int
  LIBV4L_ERR_IOCTL : Int
  LIBV4L_ERR_NOCAPS : Int

/-- The loop of `find_v4l2_palette`, on the part of the table from index `i` on: the first
index at or after `i` whose entry has code `v4l2_fmt`, `none` when the end of the table is
reached. -/
def find_v4l2_palette_from (v4l2_fmt : Int) : List Int → Nat → Option Nat
  | [], _ => none
  | e :: rest, i => if e = v4l2_fmt then some i else find_v4l2_palette_from v4l2_fmt rest (i + 1)

/-- The function `find_v4l2_palette(v4l2_fmt)`. -/
def find_v4l2_palette (Q : QueryHeaders) (v4l2_fmt : Int) : Int :=
  match find_v4l2_palette_from v4l2_fmt Q.libv4l_palettes 0 with
  | some i => (i : Int)
  | none => Q.UNSUPPORTED_PALETTE

/-- An entry of the palette list of a device, `struct palette_info`. -/
structure palette_info where
  index : Int
  raw_palette : Int
deriving DecidableEq

/-- The palette part of `struct device_info`. -/
structure device_info where
  nb_palettes : Int
  palettes : List palette_info
deriving DecidableEq

/-- The answers of the conversion library for a palette index: the value
`v4lconvert_try_format` returns with the source pixel format it reports, and the value
`v4lconvert_needs_conversion` returns. -/
structure QueryEnv where
  try_format : Int → Int × Int
  needs_conversion : Int → Int

/-- The array after `XREALLOC` to `n` entries; entries that are new are taken as zeroed. -/
def xrealloc (l : List palette_info) (n : Nat) : List palette_info :=
  l.take n ++ List.replicate (n - l.length) ⟨0, 0⟩

/-- The function `add_supported_palette(di, fmt, conv)`: the value returned and the device
information; `none` when `nb_palettes - 1` is no index of the array. -/
def add_supported_palette (Q : QueryHeaders) (env : QueryEnv) (di : device_info) (fmt : Int) :
    Option (Int × device_info) :=
  let di := { di with nb_palettes := di.nb_palettes + 1 }
  let di := { di with palettes := xrealloc di.palettes di.nb_palettes.toNat }
  if di.nb_palettes - 1 < 0 ∨ di.palettes.length ≤ (di.nb_palettes - 1).toNat then none else
  let last := (di.nb_palettes - 1).toNat
  let di := { di with palettes := di.palettes.modify (fun e => { e with index := fmt }) last }
  if (env.try_format fmt).1 ≠ 0 then some (Q.LIBV4L_ERR_IOCTL, di) else
  let raw :=
    if env.needs_conversion fmt = 1 then find_v4l2_palette Q (env.try_format fmt).2
    else Q.UNSUPPORTED_PALETTE
  some (0, { di with palettes := di.palettes.modify (fun e => { e with raw_palette := raw }) last })

/-- The loop of `check_palettes_v4l2` over the pixel formats that the enumeration still
yields, `index` being `fmtd.index`. -/
def check_palettes_loop (Q : QueryHeaders) (env : QueryEnv) :
    List Int → Nat → device_info → Option (Int × device_info)
  | [], index, di => some (to_int index, di)
  | pixelformat :: rest, index, di =>
    let p := find_v4l2_palette Q pixelformat
    if p = Q.UNSUPPORTED_PALETTE then check_palettes_loop Q env rest (index + 1) di
    else
      match add_supported_palette Q env di p with
      | none => none
      | some (r, di) =>
        if r ≠ 0 then some (Q.LIBV4L_ERR_IOCTL, { di with palettes := [] })
        else check_palettes_loop Q env rest (index + 1) di

/-- The function `check_palettes_v4l2(vdev)` on the device information of `vdev`, for a
driver whose enumeration yields the pixel formats `formats` and then fails. -/
def check_palettes_v4l2 (Q : QueryHeaders) (env : QueryEnv) (di : device_info)
    (formats : List Int) : Option (Int × device_info) :=
  check_palettes_loop Q env formats 0 { di with palettes := [] }

/-- The function `query_device_v4l2(vdev)`; the values that `check_v4l2` and
`check_inputs_v4l2` return are taken as given. -/
def query_device_v4l2 (Q : QueryHeaders) (env : QueryEnv) (di : device_info)
    (check_v4l2 check_inputs_v4l2 : Int) (formats : List Int) : Option (Int × device_info) :=
  if check_v4l2 = -1 then some (Q.LIBV4L_ERR_NOCAPS, di)
  else if check_inputs_v4l2 = -1 then some (Q.LIBV4L_ERR_NOCAPS, di)
  else
    match check_palettes_v4l2 Q env di formats with
    | none => none
    | some (n, di) =>
      let di := { di with nb_palettes := n }
      if n = Q.LIBV4L_ERR_IOCTL then some (Q.LIBV4L_ERR_NOCAPS, di) else some (0, di)

/-! ## The controls of the legacy backend -/

/-- The description of a control, `struct v4l2_queryctrl`. -/
structure v4l2_queryctrl where
  id : Nat
  type : Nat
  name : String
  minimum : Int
  maximum : Int
  step : Int
  default_value : Int
  flags : Nat
deriving DecidableEq

/-- The control identifiers and the control type of `videodev2.h` that the backend uses. -/
structure ControlHeaders where
  V4L2_CID_BRIGHTNESS : Nat
  V4L2_CID_HUE : Nat
  V4L2_CID_SATURATION : Nat
  V4L2_CID_CONTRAST : Nat
  V4L2_CTRL_TYPE_INTEGER : Nat

/-- The function `count_v4l1_controls(vdev)`. -/
def count_v4l1_controls : Nat := 4

/-- The fields that `create_v4l1_controls` writes for the control `id` named `name`. -/
def fake_control (V : ControlHeaders) (id : Nat) (name : String) : v4l2_queryctrl :=
  { id := id, type := V.V4L2_CTRL_TYPE_INTEGER, name := name, minimum := 0, maximum := 65535,
    step := 1, default_value := 32768, flags := 0 }

/-- The write of a control description through `controls[i].v4l2_ctrl`; `none` when `i` is
no index of the array. -/
def write_control (controls : List v4l2_queryctrl) (i : Nat) (v : v4l2_queryctrl) :
    Option (List v4l2_queryctrl) :=
  if i < controls.length then some (controls.set i v) else none

/-- The function `create_v4l1_controls(vdev, controls, max)`: the count returned and the
control descriptions afterwards. -/
def create_v4l1_controls (V : ControlHeaders) (controls : List v4l2_queryctrl) (max : Nat) :
    Option (Nat × List v4l2_queryctrl) :=
  if max ≤ 0 then some (0, controls) else
  match write_control controls 0 (fake_control V V.V4L2_CID_BRIGHTNESS "Brightness") with
  | none => none
  | some controls =>
  if max ≤ 1 then some (1, controls) else
  match write_control controls 1 (fake_control V V.V4L2_CID_HUE "Hue") with
  | none => none
  | some controls =>
  if max ≤ 2 then some (2, controls) else
  match write_control controls 2 (fake_control V V.V4L2_CID_SATURATION "Saturation") with
  | none => none
  | some controls =>
  if max ≤ 3 then some (3, controls) else
  match write_control controls 3 (fake_control V V.V4L2_CID_CONTRAST "Contrast") with
  | none => none
  | some controls => some (4, controls)

/-! ## `rgbyuv.h`: clipping and the conversion from RGB to YUV -/

/-- The cast `(u8) x`. -/
def u8 (x : Int) : Nat := (x % 256).toNat

/-- The macro `CLIP256(color)`, `color` being the value of the `int` it is stored in. -/
def CLIP256 (color : Int) : Nat :=
  u8 (if color > 0xFF then 0xFF else if color < 0 then 0 else color)

/-- Lines 26-34: the conversion quality in effect, for the value the build gives
`CONVERSION_QUALITY` (`none` when the build does not define it): a value outside 0..3 is
dropped, and without a value the quality is 3. -/
def conversion_quality (defined : Option Int) : Int :=
  match defined with
  | some q => if q < 0 ∨ q > 3 then 3 else q
  | none => 3

/-- The power 2^e as a rational, for an integer e. -/
def pow2 (e : Int) : ℚ := if 0 ≤ e then (2 : ℚ) ^ e.toNat else 1 / (2 : ℚ) ^ (-e).toNat

/-- The exponent e with 2^e ≤ x < 2^(e+1), for a positive rational x. -/
def binary_exponent (x : ℚ) : Int :=
  let e : Int := (Nat.log2 x.num.natAbs : Int) - (Nat.log2 x.den : Int)
  if pow2 e ≤ x then e else e - 1

/-- The integer nearest to x, the even one of the two when x lies halfway. -/
def round_half_even (x : ℚ) : Int :=
  if x - ⌊x⌋ < 1 / 2 then ⌊x⌋
  else if 1 / 2 < x - ⌊x⌋ then ⌊x⌋ + 1
  else if ⌊x⌋ % 2 = 0 then ⌊x⌋ else ⌊x⌋ + 1

/-- The value of type `float` nearest to x: single precision with 24 significant bits and
exponents from -126 on, rounded to nearest with ties to even, for x within the range of
`float`.  Every constant with suffix `f`, every cast `(float)` and every operation on
`float` operands yields such a value. -/
def to_float (x : ℚ) : ℚ :=
  if x = 0 then 0
  else
    (round_half_even (x / pow2 (max (binary_exponent |x|) (-126) - 23)) : ℚ) *
      pow2 (max (binary_exponent |x|) (-126) - 23)

/-- The cast `(int) x` of a `float` within the range of `int`: the fraction is dropped. -/
def float_to_int (x : ℚ) : Int := if 0 ≤ x then ⌊x⌋ else ⌈x⌉

/-- Lines 46 and 67: the integer macro `RGB2Y(r, g, b)` on `int` operands. -/
def RGB2Y_integer (r g b : Int) : Nat :=
  u8 ((8453 * r + 16594 * g + 3223 * b + 524288) >>> (15 : Nat))

/-- Lines 47 and 68: the integer macro `RGB2U(r, g, b)` on `int` operands. -/
def RGB2U_integer (r g b : Int) : Nat :=
  u8 ((-4878 * r - 9578 * g + 14456 * b + 4210688) >>> (15 : Nat))

/-- Lines 48 and 69: the integer macro `RGB2V(r, g, b)` on `int` operands. -/
def RGB2V_integer (r g b : Int) : Nat :=
  u8 ((14456 * r - 12105 * g - 2351 * b + 4210688) >>> (15 : Nat))

/-- Line 94: the macro `RGB2Y(r, g, b)` of quality 3,
`(int) (0.29900f * (float) (r) + 0.58700f * (float) (g) + 0.1140f * (float) (b))`. -/
def RGB2Y_float (r g b : Int) : Int :=
  float_to_int (to_float (to_float (to_float (to_float (299 / 1000) * to_float r) +
    to_float (to_float (587 / 1000) * to_float g)) +
    to_float (to_float (114 / 1000) * to_float b)))

/-- Line 95: the macro `RGB2U(r, g, b)` of quality 3,
`(int) (-.14713f * (float) (r) - 0.28886f * (float) (g) + 0.4360f * (float) (b))`. -/
def RGB2U_float (r g b : Int) : Int :=
  float_to_int (to_float (to_float (to_float (-to_float (14713 / 100000) * to_float r) -
    to_float (to_float (28886 / 100000) * to_float g)) +
    to_float (to_float (436 / 1000) * to_float b)))

/-- Line 96: the macro `RGB2V(r, g, b)` of quality 3,
`(int) (0.61500f * (float) (r) - 0.51499f * (float) (g) - 0.1001f * (float) (b))`. -/
def RGB2V_float (r g b : Int) : Int :=
  float_to_int (to_float (to_float (to_float (to_float (615 / 1000) * to_float r) -
    to_float (to_float (51499 / 100000) * to_float g)) -
    to_float (to_float (1001 / 10000) * to_float b)))

/-- The macro `RGB2Y(r, g, b)` as the header leaves it defined for the value the build
gives `CONVERSION_QUALITY`: the qualities 0 and 2 keep the integer macro of line 46,
quality 1 defines it again with the same text at line 67, and quality 3 replaces it by the
`float` expression of line 94. -/
def RGB2Y (defined : Option Int) (r g b : Int) : Int :=
  if conversion_quality defined = 3 then RGB2Y_float r g b else (RGB2Y_integer r g b : Int)

/-- The macro `RGB2U(r, g, b)` as the header leaves it defined for the value the build
gives `CONVERSION_QUALITY` (lines 47, 68 and 95). -/
def RGB2U (defined : Option Int) (r g b : Int) : Int :=
  if conversion_quality defined = 3 then RGB2U_float r g b else (RGB2U_integer r g b : Int)

/-- The macro `RGB2V(r, g, b)` as the header leaves it defined for the value the build
gives `CONVERSION_QUALITY` (lines 48, 69 and 96). -/
def RGB2V (defined : Option Int) (r g b : Int) : Int :=
  if conversion_quality defined = 3 then RGB2V_float r g b else (RGB2V_integer r g b : Int)

/-! ## Sequences of streaming calls on the legacy backend -/

/-- A call of one of the four streaming operations of the legacy backend, with the
driver's answers during the call. -/
inductive Call where
  | start (drv : StartDriver)
  | dequeue (want_time want_sequence : Bool) (drv : DequeueDriver)
  | enqueue (i : Nat)
  | stop
deriving DecidableEq

/-- The device after one streaming call. -/
def Call.apply (K : Headers) (c : capture_device) : Call → capture_device
  | Call.start drv => (start_capture_v4l1 K c drv).c
  | Call.dequeue want_time want_sequence drv =>
    (dequeue_buffer_v4l1 K c want_time want_sequence drv).c
  | Call.enqueue i => (enqueue_buffer_v4l1 c i).1
  | Call.stop => (stop_capture_v4l1 c).c

/-- The device after a sequence of streaming calls. -/
def run_calls (K : Headers) (c : capture_device) (calls : List Call) : capture_device :=
  calls.foldl (Call.apply K) c

/-! ## Sample values -/

/-- A sample palette table: entry 3 a 12-bit planar format, entries 4 and 5 16-bit and
12-bit packed formats, entry 6 a 24-bit format, with legacy codes 15, 7, 16, 4. -/
def demo_palettes (i : Int) : libvideo_palette :=
  if i = 3 then ⟨15, 12⟩ else if i = 4 then ⟨7, 16⟩ else if i = 5 then ⟨16, 12⟩
  else if i = 6 then ⟨4, 24⟩ else if i = 13 then ⟨15, 12⟩ else if i = 14 then ⟨7, 16⟩
  else if i = 15 then ⟨16, 12⟩ else ⟨0, 0⟩

/-- Sample values for the header constants. -/
def demo_headers : Headers :=
  { MAX_WIDTH := 0, MAX_HEIGHT := 0, NTSC := 3, PAL := 1, SECAM := 2,
    VIDEO_MODE_NTSC := 1, VIDEO_MODE_PAL := 0, VIDEO_MODE_SECAM := 2, VIDEO_MODE_AUTO := 3,
    VIDEO_PALETTE_YUV420P := 15, VIDEO_PALETTE_YUV422 := 7, VIDEO_PALETTE_YUV411P := 16,
    VIDEO_PALETTE_UNDEFINED_V4L1 := 0,
    YUV420 := 3, YUYV := 4, YUV411 := 5, YUV420P := 13, YUV422 := 14, YUV411P := 15,
    libvideo_palettes := demo_palettes,
    LIBVIDEO_ERR_SUCCESS := 0, LIBVIDEO_ERR_NOCAPS := 1, LIBVIDEO_ERR_CHAN_SETUP := 2,
    LIBVIDEO_ERR_IOCTL := 3, LIBVIDEO_ERR_FORMAT := 4, LIBVIDEO_ERR_DIMENSIONS := 5,
    LIBVIDEO_ERR_REQ_MMAP := 6, LIBVIDEO_ERR_INVALID_BUF_NB := 7, LIBVIDEO_ERR_MMAP_BUF := 8,
    MAP_FAILED := -1,
    RGB24 := 6, BGR24 := 7, YVU420 := 8, LIBVIDEO_ERR_STD := 9, LIBVIDEO_ERR_CHANNEL := 10,
    VIDEO_PALETTE_GREY := 1, VIDEO_PALETTE_HI240 := 2, VIDEO_PALETTE_RGB565 := 3,
    VIDEO_PALETTE_RGB555 := 6, VIDEO_PALETTE_RGB24 := 4, VIDEO_PALETTE_RGB32 := 5,
    VIDEO_PALETTE_YUYV := 8, VIDEO_PALETTE_UYVY := 9, VIDEO_PALETTE_YUV420 := 10,
    VIDEO_PALETTE_YUV411 := 11, VIDEO_PALETTE_RAW := 12, VIDEO_PALETTE_YUV422P := 13,
    VIDEO_PALETTE_YUV410P := 14 }

/-- A buffer pool before `init_capture_v4l1`. -/
def demo_pool : mmap := { buffer_nr := 0, buffers := [], v4l1_mmap_size := 0, tmp := 0 }

/-- A device asking for 640 x 480 on channel 0 with no standard. -/
def demo_device : capture_device :=
  { mmap := demo_pool, palette := 0, width := 640, height := 480, std := 0, channel := 0,
    imagesize := 0, tuner_nb := -1, needs_conversion := false, real_v4l1_palette := 0,
    is_native := true }

/-- A device asking for 5000 x 10, outside the range of `demo_driver` on both sides. -/
def demo_device_out_of_range : capture_device := { demo_device with width := 5000, height := 10 }

/-- A device after buffer initialisation, negotiated at 640 x 480 with palette 4, whose
current frame is `tmp`. -/
def demo_streaming (tmp : Nat) : capture_device :=
  { demo_device with
    mmap := { buffer_nr := 2, buffers := [⟨4096, 999⟩, ⟨4596, 999⟩], v4l1_mmap_size := 1000,
              tmp := tmp },
    palette := 4, imagesize := 614400, real_v4l1_palette := 14 }

/-- Answers to `list_cap_v4l1` of a driver with two inputs that answers every request. -/
def demo_list_driver : ListDriver :=
  { gcap_ret := 0, intf_gcap_ret := 0, channels := 2, gchan_rets := [0, 0], gpict_ret := 0 }

/-- A driver that accepts every request, allows 160 x 120 up to 1024 x 768 and reports the
window `w` x `h` after the set-window request. -/
def demo_driver (w h : Nat) : CapDriver :=
  { gcap_ret := 0, vc := { maxwidth := 1024, maxheight := 768, minwidth := 160, minheight := 120 },
    schan_ret := 0, gchan_ret := 0, gchan_tuners := 0, gpict_ret := 0,
    pict := { brightness := 0, hue := 0, colour := 0, contrast := 0, whiteness := 0,
              depth := 0, palette := 0 },
    spict_ret := 0, swin_ret := 0, gwin_ret := 0,
    win := { x := 0, y := 0, width := w, height := h, chromakey := 0, flags := 0, clips := 0,
             clipcount := 0 },
    list := demo_list_driver }

/-- Sample values for the output formats. -/
def demo_common : Common :=
  { OUTPUT_RAW := 0, OUTPUT_JPG := 1, OUTPUT_RGB24 := 2, OUTPUT_BGR24 := 3,
    OUTPUT_YUV420 := 4, OUTPUT_YVU420 := 5 }

/-- A binding-layer device of `w` x `h` pixels with output format `fmt`, capturing natively
without conversion. -/
def demo_v4l4j (w h : Nat) (fmt : Int) : v4l4j_device :=
  { vdev := { demo_streaming 0 with width := w, height := h }, output_fmt := fmt,
    need_conv := false, capture_len := 0, double_conversion_buffer := [] }

/-- Surroundings of `fillBuffer` with a frame of four bytes and, when `array` is given, a
destination of six bytes; the conversion routines leave their destination as it is. -/
def demo_env (array : Option (List Nat)) : FillEnv :=
  { buffer_index := 77, captureTime := ⟨0, 0⟩, sequence := 0, frame := [1, 2, 3, 4],
    array := array, convert_buffer := fun _ _ _ a => (0, a), convert := fun _ _ a => (0, a) }

/-- A sample palette table of three entries, with the constants next to it. -/
def demo_query : QueryHeaders :=
  { libv4l_palettes := [100, 200, 300], UNSUPPORTED_PALETTE := -1, LIBV4L_ERR_IOCTL := -7,
    LIBV4L_ERR_NOCAPS := -2 }

/-- A conversion library that accepts every palette and converts none. -/
def demo_query_env : QueryEnv :=
  { try_format := fun _ => (0, 0), needs_conversion := fun _ => 0 }

/-- Sample values for the control identifiers and the integer control type. -/
def demo_control_headers : ControlHeaders :=
  { V4L2_CID_BRIGHTNESS := 9963776, V4L2_CID_HUE := 9963779, V4L2_CID_SATURATION := 9963778,
    V4L2_CID_CONTRAST := 9963777, V4L2_CTRL_TYPE_INTEGER := 1 }

/-- A control description with every field zero. -/
def demo_blank_control : v4l2_queryctrl :=
  { id := 0, type := 0, name := "", minimum := 0, maximum := 0, step := 0, default_value := 0,
    flags := 0 }

/-- Surroundings of `doInit` in which every step of the binding layer itself passes and
`init_capture_device` returns the sample device. -/
def demo_init_env : InitEnv :=
  { field_ids_known := true, field_ids_found := true,
    init_capture_device := fun _ _ _ _ _ => some demo_device, dest_fmt := 0,
    init_jpeg_compressor := 0, update_fails := false }

/-- A dequeue of some backend that hands out buffer 1 at address 4596 with four bytes. -/
def demo_dequeue (c : capture_device) : Dequeued :=
  { ret := some 4596, len := 4, index := some 1, capture_time := some ⟨10, 20⟩,
    sequence := some 5, c := c, trace := [] }

end V4l4j

/-! # Theorems -/

namespace V4l4j

/-! ## Facts about the embedding shared by the results below -/

theorem clamp_size_channel (K : Headers) (vc : video_capability) (c : capture_device) :
    (clamp_size K vc c).channel = c.channel ∧ (clamp_size K vc c).std = c.std := by
  unfold clamp_size
  constructor <;> (simp only []; split_ifs <;> rfl)

theorem clamp_size_width (K : Headers) (vc : video_capability) (c : capture_device)
    (h : vc.minwidth ≤ vc.maxwidth) :
    (clamp_size K vc c).width = clamped K.MAX_WIDTH vc.minwidth vc.maxwidth c.width := by
  unfold clamp_size clamped
  simp only []
  split_ifs <;> simp_all <;> omega

theorem clamp_size_height (K : Headers) (vc : video_capability) (c : capture_device)
    (h : vc.minheight ≤ vc.maxheight) :
    (clamp_size K vc c).height = clamped K.MAX_HEIGHT vc.minheight vc.maxheight c.height := by
  unfold clamp_size clamped
  simp only []
  split_ifs <;> simp_all <;> omega

theorem accept_palette_size (K : Headers) (palette depth : Nat) (c : capture_device) :
    (accept_palette K palette depth c).width = c.width ∧
    (accept_palette K palette depth c).height = c.height ∧
    (accept_palette K palette depth c).palette = palette ∧
    (accept_palette K palette depth c).imagesize = image_bytes c.width c.height depth := by
  unfold accept_palette
  split_ifs <;> simp_all

theorem set_cap_param_v4l1_of_accepts (K : Headers) (c : capture_device)
    (src_palette palette : Nat) (drv : CapDriver) (h : drv.accepts K palette) :
    set_cap_param_v4l1 K c src_palette palette drv =
      ⟨0, adopt_window drv.win
            { accept_palette K palette (spict_arg K palette drv.pict).depth
                { clamp_size K drv.vc c with tuner_nb := tuner_index drv.gchan_tuners } with
              needs_conversion := false },
       full_trace K c palette drv⟩ := by
  obtain ⟨h1, h2, h3, h4, h5, h6, h7, h8⟩ := h
  have hc := clamp_size_channel K drv.vc c
  simp [set_cap_param_v4l1, full_trace, swin_arg, h1, h2, h3, h4, h5, h6, h7, h8, hc]
  exact ⟨(accept_palette_size K _ _ _).1, (accept_palette_size K _ _ _).2.1⟩

theorem accepts_of_ret_zero (K : Headers) (hK : K.cap_errors_nonzero) (c : capture_device)
    (src_palette palette : Nat) (drv : CapDriver)
    (h : (set_cap_param_v4l1 K c src_palette palette drv).ret = 0) : drv.accepts K palette := by
  obtain ⟨k1, k2, k3, k4, k5⟩ := hK
  unfold set_cap_param_v4l1 at h
  simp only [] at h
  unfold CapDriver.accepts
  split_ifs at h <;> simp_all

theorem query_inputs_v4l1_no_swin (gchan_rets : List Int) (win : video_window) :
    ∀ inputs, Request.VIDIOCSWIN win ∉ query_inputs_v4l1 gchan_rets inputs := by
  intro inputs
  induction inputs with
  | nil => simp [query_inputs_v4l1]
  | cons i rest ih =>
    unfold query_inputs_v4l1
    split_ifs <;> simp [ih]

theorem list_cap_v4l1_no_swin (K : Headers) (L : ListDriver) (win : video_window) :
    Request.VIDIOCSWIN win ∉ list_cap_v4l1 K L := by
  have hq := query_inputs_v4l1_no_swin L.gchan_rets win (List.range L.channels)
  unfold list_cap_v4l1 query_capture_intf_v4l1 enum_image_fmt_v4l1
    query_current_image_fmt_v4l1 query_frame_sizes_v4l1
  split_ifs <;> simp [hq]

theorem swin_of_mem_trace (K : Headers) (c : capture_device) (src_palette palette : Nat)
    (drv : CapDriver) (win : video_window)
    (h : Request.VIDIOCSWIN win ∈ (set_cap_param_v4l1 K c src_palette palette drv).trace) :
    win.width = (clamp_size K drv.vc c).width ∧ win.height = (clamp_size K drv.vc c).height ∧
    check_v4l1 drv.gcap_ret = true ∧ drv.schan_ret ≠ -1 ∧ drv.gchan_ret ≠ -1 ∧
    drv.gpict_ret ≠ -1 ∧ palette ≠ K.VIDEO_PALETTE_UNDEFINED_V4L1 ∧ drv.spict_ret = 0 := by
  have hl := list_cap_v4l1_no_swin K drv.list win
  unfold set_cap_param_v4l1 at h
  simp only [] at h
  split_ifs at h <;> simp_all [swin_arg] <;>
    exact ⟨(accept_palette_size K _ _ _).1, (accept_palette_size K _ _ _).2.1⟩

theorem set_cap_param_v4l1_ret (K : Headers) (c : capture_device) (src_palette palette : Nat)
    (drv : CapDriver) :
    (set_cap_param_v4l1 K c src_palette palette drv).ret = cap_ret K palette drv := by
  unfold set_cap_param_v4l1 cap_ret
  by_cases h1 : check_v4l1 drv.gcap_ret = false
  · simp [h1]
  by_cases h2 : drv.schan_ret = -1
  · simp [h1, h2]
  by_cases h3 : drv.gchan_ret = -1
  · simp [h1, h2, h3]
  by_cases h4 : drv.gpict_ret = -1
  · simp [h1, h2, h3, h4]
  by_cases h5 : palette = K.VIDEO_PALETTE_UNDEFINED_V4L1
  · simp [h1, h2, h3, h4, h5]
  by_cases h6 : drv.spict_ret ≠ 0
  · simp [h1, h2, h3, h4, h5, h6]
  by_cases h7 : drv.swin_ret = -1
  · simp [h1, h2, h3, h4, h5, h6, h7]
  by_cases h8 : drv.gwin_ret = -1
  · simp [h1, h2, h3, h4, h5, h6, h7, h8]
  · simp [h1, h2, h3, h4, h5, h6, h7, h8]

theorem adopt_window_fields (win : video_window) (c : capture_device) :
    (adopt_window win c).width = win.width ∧ (adopt_window win c).height = win.height ∧
    (adopt_window win c).palette = c.palette ∧
    (adopt_window win c).real_v4l1_palette = c.real_v4l1_palette ∧
    (adopt_window win c).imagesize = c.imagesize := by
  unfold adopt_window
  split_ifs with h
  · simp
  · have h1 : win.width = c.width := by tauto
    have h2 : win.height = c.height := by tauto
    simp [h1, h2]

theorem accept_palette_real (K : Headers) (palette depth : Nat) (c : capture_device) :
    (accept_palette K palette depth c).real_v4l1_palette = real_palette K palette := by
  unfold accept_palette real_palette
  split_ifs <;> rfl

theorem spict_of_mem_trace (K : Headers) (c : capture_device) (src_palette palette : Nat)
    (drv : CapDriver) (pict : video_picture) (hchan : drv.schan_ret ≠ -1)
    (h : Request.VIDIOCSPICT pict ∈ (set_cap_param_v4l1 K c src_palette palette drv).trace) :
    pict = spict_arg K palette drv.pict := by
  unfold set_cap_param_v4l1 at h
  simp only [] at h
  split_ifs at h <;> simp_all

theorem to_int_small (x : Nat) (h : x < 2 ^ 31) : to_int x = (x : Int) := by
  have h1 : x % 2 ^ 32 = x := Nat.mod_eq_of_lt (by omega)
  unfold to_int
  rw [h1, if_pos h]

theorem u16_small (x : Int) (h0 : 0 ≤ x) (h1 : x < 65536) : ((u16 x : Nat) : Int) = x := by
  unfold u16
  rw [Int.emod_eq_of_lt h0 h1]
  exact Int.toNat_of_nonneg h0

theorem set_cap_param_v4l1_success (K : Headers) (hK : K.cap_errors_nonzero)
    (c : capture_device) (src_palette palette : Nat) (drv : CapDriver)
    (h : (set_cap_param_v4l1 K c src_palette palette drv).ret = 0) :
    drv.accepts K palette ∧
    (set_cap_param_v4l1 K c src_palette palette drv).trace = full_trace K c palette drv ∧
    (set_cap_param_v4l1 K c src_palette palette drv).c.width = drv.win.width ∧
    (set_cap_param_v4l1 K c src_palette palette drv).c.height = drv.win.height ∧
    (set_cap_param_v4l1 K c src_palette palette drv).c.palette = palette ∧
    (set_cap_param_v4l1 K c src_palette palette drv).c.real_v4l1_palette =
      real_palette K palette ∧
    (set_cap_param_v4l1 K c src_palette palette drv).c.imagesize =
      image_bytes (clamp_size K drv.vc c).width (clamp_size K drv.vc c).height
        (spict_arg K palette drv.pict).depth := by
  have hacc := accepts_of_ret_zero K hK c src_palette palette drv h
  rw [set_cap_param_v4l1_of_accepts K c src_palette palette drv hacc]
  refine ⟨hacc, rfl, (adopt_window_fields _ _).1, (adopt_window_fields _ _).2.1, ?_, ?_, ?_⟩
  · exact (adopt_window_fields _ _).2.2.1.trans (accept_palette_size K _ _ _).2.2.1
  · exact (adopt_window_fields _ _).2.2.2.1.trans (accept_palette_real K _ _ _)
  · exact (adopt_window_fields _ _).2.2.2.2.trans (accept_palette_size K _ _ _).2.2.2

theorem init_capture_v4l1_of_ret_zero (K : Headers) (hK : K.init_errors_nonzero)
    (c : capture_device) (drv : InitDriver) (h : (init_capture_v4l1 K c drv).ret = 0) :
    drv.gmbuf_ret ≠ -1 ∧ ¬ drv.vm.frames < 2 ∧ K.MAP_FAILED ≠ drv.mmap_ret := by
  obtain ⟨k1, k2, k3⟩ := hK
  unfold init_capture_v4l1 at h
  simp only [] at h
  split_ifs at h with h1 h2 h3
  · exact absurd h k1
  · exact absurd h k2
  · exact absurd h k3
  · exact ⟨h1, by omega, h3⟩

theorem init_capture_v4l1_pool (K : Headers) (c : capture_device) (drv : InitDriver)
    (h1 : drv.gmbuf_ret ≠ -1) (h2 : ¬ drv.vm.frames < 2) (h3 : K.MAP_FAILED ≠ drv.mmap_ret) :
    (init_capture_v4l1 K c drv).c.mmap =
      { buffer_nr := 2,
        buffers := [⟨drv.mmap_ret, drv.vm.size - 1⟩,
                    ⟨drv.mmap_ret + drv.vm.offset 1, drv.vm.size - 1⟩],
        v4l1_mmap_size := drv.vm.size, tmp := 0 } := by
  simp [init_capture_v4l1, h1, h2, h3]

theorem xor_one_of_lt_two (t : Nat) (h : t < 2) : to_uint t ^^^ 1 = (t + 1) % 2 := by
  have h01 : t = 0 ∨ t = 1 := by omega
  rcases h01 with h0 | h0 <;> rw [h0] <;> decide

theorem dequeue_buffer_v4l1_of_succeeds (K : Headers) (c : capture_device)
    (want_time want_sequence : Bool) (drv : DequeueDriver) (h : drv.succeeds) :
    (dequeue_buffer_v4l1 K c want_time want_sequence drv).c =
      { c with mmap := { c.mmap with tmp := to_uint c.mmap.tmp ^^^ 1 } } ∧
    (dequeue_buffer_v4l1 K c want_time want_sequence drv).ret =
      (c.mmap.buffers[to_uint c.mmap.tmp]?).map mmap_buffer.start := by
  obtain ⟨h1, h2⟩ := h
  simp [dequeue_buffer_v4l1, h1, h2]

theorem dequeue_run_state (K : Headers) (want_time want_sequence : Bool) :
    ∀ (ds : List DequeueDriver) (c : capture_device), c.mmap.tmp < 2 →
      (∀ x ∈ ds, x.succeeds) →
      (dequeue_run K want_time want_sequence c ds).mmap.tmp = (c.mmap.tmp + ds.length) % 2 ∧
      (dequeue_run K want_time want_sequence c ds).mmap.buffers = c.mmap.buffers := by
  intro ds
  induction ds with
  | nil =>
    intro c hc _
    refine ⟨?_, rfl⟩
    show c.mmap.tmp = (c.mmap.tmp + 0) % 2
    rw [Nat.add_zero, Nat.mod_eq_of_lt hc]
  | cons d rest ih =>
    intro c hc hall
    have hd : d.succeeds := hall d (List.mem_cons_self _ _)
    have hrest : ∀ x ∈ rest, x.succeeds := fun x hx => hall x (List.mem_cons_of_mem _ hx)
    have hstep := (dequeue_buffer_v4l1_of_succeeds K c want_time want_sequence d hd).1
    have hx := xor_one_of_lt_two c.mmap.tmp hc
    have htmp : (dequeue_buffer_v4l1 K c want_time want_sequence d).c.mmap.tmp =
        (c.mmap.tmp + 1) % 2 := by rw [hstep]; exact hx
    have hbuf : (dequeue_buffer_v4l1 K c want_time want_sequence d).c.mmap.buffers =
        c.mmap.buffers := by rw [hstep]
    have hlt : (dequeue_buffer_v4l1 K c want_time want_sequence d).c.mmap.tmp < 2 := by
      rw [htmp]; exact Nat.mod_lt _ (by decide)
    have h := ih _ hlt hrest
    simp only [dequeue_run, List.length_cons]
    rw [h.1, h.2, htmp, hbuf]
    exact ⟨by omega, rfl⟩

theorem shiftRight_15 (x : Int) : x >>> (15 : Nat) = x / 32768 := by
  rw [Int.shiftRight_eq_div_pow]
  norm_num

theorem u8_of_byte (v : Int) (h0 : 0 ≤ v) (h1 : v ≤ 255) : ((u8 v : Nat) : Int) = v := by
  unfold u8
  omega

theorem conversion_quality_integer (defined : Option Int)
    (h : defined = some 0 ∨ defined = some 1 ∨ defined = some 2) :
    conversion_quality defined ≠ 3 := by
  rcases h with h | h | h <;> subst h <;> decide

theorem to_float_zero : to_float 0 = 0 := by simp [to_float]

theorem CLIP256_eq (x : Int) :
    ((CLIP256 x : Nat) : Int) = if x > 255 then 255 else if x < 0 then 0 else x := by
  unfold CLIP256 u8
  split_ifs <;> omega

theorem find_v4l2_palette_from_some (f : Int) :
    ∀ (table : List Int) (i k : Nat), find_v4l2_palette_from f table i = some k →
      i ≤ k ∧ table[k - i]? = some f ∧ ∀ j, j < k - i → table[j]? ≠ some f := by
  intro table
  induction table with
  | nil => intro i k h; simp [find_v4l2_palette_from] at h
  | cons e rest ih =>
    intro i k h
    unfold find_v4l2_palette_from at h
    split_ifs at h with he
    · have hk : i = k := by simpa using h
      subst hk
      refine ⟨le_refl _, by simp [he], ?_⟩
      intro j hj
      omega
    · obtain ⟨h1, h2, h3⟩ := ih (i + 1) k h
      have hki : k - i = (k - (i + 1)) + 1 := by omega
      refine ⟨by omega, ?_, ?_⟩
      · rw [hki, List.getElem?_cons_succ]
        exact h2
      · intro j hj
        cases j with
        | zero =>
          simp only [List.getElem?_cons_zero]
          intro hc
          exact he (Option.some.inj hc)
        | succ j =>
          rw [List.getElem?_cons_succ]
          exact h3 j (by omega)

theorem find_v4l2_palette_from_none (f : Int) :
    ∀ (table : List Int) (i : Nat), find_v4l2_palette_from f table i = none ↔ f ∉ table := by
  intro table
  induction table with
  | nil => intro i; simp [find_v4l2_palette_from]
  | cons e rest ih =>
    intro i
    unfold find_v4l2_palette_from
    split_ifs with he
    · simp [he]
    · rw [ih (i + 1)]
      simp [Ne.symm he]

theorem dequeue_buffer_v4l1_device (K : Headers) (c : capture_device)
    (want_time want_sequence : Bool) (drv : DequeueDriver) :
    (dequeue_buffer_v4l1 K c want_time want_sequence drv).c = c ∨
    (dequeue_buffer_v4l1 K c want_time want_sequence drv).c =
      { c with mmap := { c.mmap with tmp := to_uint c.mmap.tmp ^^^ 1 } } := by
  unfold dequeue_buffer_v4l1
  by_cases h1 : drv.mcapture_ret = -1
  · left; simp [h1]
  · by_cases h2 : drv.sync_ret = -1
    · left; simp [h1, h2]
    · right; simp [h1, h2]

theorem call_keeps_index_in_pool (K : Headers) (c : capture_device) (call : Call)
    (h : c.mmap.tmp < 2 ∧ c.mmap.buffers.length = 2) :
    (call.apply K c).mmap.tmp < 2 ∧ (call.apply K c).mmap.buffers.length = 2 := by
  cases call with
  | start drv =>
    show (start_capture_v4l1 K c drv).c.mmap.tmp < 2 ∧
      (start_capture_v4l1 K c drv).c.mmap.buffers.length = 2
    unfold start_capture_v4l1
    by_cases h1 : drv.mcapture_ret = -1
    · simp [h1, h]
    · simp [h1, h]
  | dequeue want_time want_sequence drv =>
    show (dequeue_buffer_v4l1 K c want_time want_sequence drv).c.mmap.tmp < 2 ∧
      (dequeue_buffer_v4l1 K c want_time want_sequence drv).c.mmap.buffers.length = 2
    rcases dequeue_buffer_v4l1_device K c want_time want_sequence drv with e | e
    · rw [e]; exact h
    · rw [e]
      refine ⟨?_, h.2⟩
      show to_uint c.mmap.tmp ^^^ 1 < 2
      rw [xor_one_of_lt_two _ h.1]
      exact Nat.mod_lt _ (by decide)
  | enqueue i => exact h
  | stop => exact h

theorem run_calls_keeps_index_in_pool (K : Headers) (calls : List Call) :
    ∀ c : capture_device, c.mmap.tmp < 2 ∧ c.mmap.buffers.length = 2 →
      (run_calls K c calls).mmap.tmp < 2 ∧ (run_calls K c calls).mmap.buffers.length = 2 := by
  induction calls with
  | nil => intro c h; exact h
  | cons call rest ih =>
    intro c h
    exact ih (call.apply K c) (call_keeps_index_in_pool K c call h)

theorem doInit_cases (K : Headers) (J : Common) (d : v4l4j_device)
    (set_cap_param : capture_device → Int → Int → Outcome)
    (init_capture : capture_device → Outcome)
    (free_capture : capture_device → capture_device × List Request)
    (env : InitEnv) (num_buffers w h ch std in_fmt fg_out_fmt : Int) :
    ((Java_au_edu_jcu_v4l4j_AbstractGrabber_doInit K J d set_cap_param init_capture free_capture
        env num_buffers w h ch std in_fmt fg_out_fmt).ret = 0 ∧
      (Java_au_edu_jcu_v4l4j_AbstractGrabber_doInit K J d set_cap_param init_capture free_capture
        env num_buffers w h ch std in_fmt fg_out_fmt).raised ≠ none ∧
      ¬ init_steps_pass K J d set_cap_param init_capture env num_buffers w h ch std in_fmt
        fg_out_fmt) ∨
    (init_steps_pass K J d set_cap_param init_capture env num_buffers w h ch std in_fmt
        fg_out_fmt ∧
      (Java_au_edu_jcu_v4l4j_AbstractGrabber_doInit K J d set_cap_param init_capture free_capture
        env num_buffers w h ch std in_fmt fg_out_fmt).ret =
        to_int (Java_au_edu_jcu_v4l4j_AbstractGrabber_doInit K J d set_cap_param init_capture
          free_capture env num_buffers w h ch std in_fmt fg_out_fmt).d.vdev.mmap.buffer_nr ∧
      (Java_au_edu_jcu_v4l4j_AbstractGrabber_doInit K J d set_cap_param init_capture free_capture
        env num_buffers w h ch std in_fmt fg_out_fmt).freed = false) := by
  unfold init_steps_pass doInit_set_cap_param doInit_format
    Java_au_edu_jcu_v4l4j_AbstractGrabber_doInit
  by_cases h1 : env.field_ids_known = false ∧ env.field_ids_found = false
  · left
    simp [h1]
  have h1b : env.field_ids_known = true ∨ env.field_ids_found = true := by
    cases hk : env.field_ids_known <;> cases hf : env.field_ids_found <;> simp_all
  cases hc : env.init_capture_device w h ch std num_buffers with
  | none => left; simp [h1]
  | some c =>
    by_cases h2 : (init_capture_format K J { d with vdev := c, output_fmt := fg_out_fmt }
        fg_out_fmt in_fmt env.dest_fmt).ret = -1
    · left; simp [h1, h2]
    by_cases h3 : (set_cap_param
        (init_capture_format K J { d with vdev := c, output_fmt := fg_out_fmt }
          fg_out_fmt in_fmt env.dest_fmt).d.vdev
        (init_capture_format K J { d with vdev := c, output_fmt := fg_out_fmt }
          fg_out_fmt in_fmt env.dest_fmt).src_fmt
        (init_capture_format K J { d with vdev := c, output_fmt := fg_out_fmt }
          fg_out_fmt in_fmt env.dest_fmt).dest_fmt).ret = 0
    swap
    · left; simp [h1, h2, h3]
    by_cases h4 : (init_capture (set_cap_param
        (init_capture_format K J { d with vdev := c, output_fmt := fg_out_fmt }
          fg_out_fmt in_fmt env.dest_fmt).d.vdev
        (init_capture_format K J { d with vdev := c, output_fmt := fg_out_fmt }
          fg_out_fmt in_fmt env.dest_fmt).src_fmt
        (init_capture_format K J { d with vdev := c, output_fmt := fg_out_fmt }
          fg_out_fmt in_fmt env.dest_fmt).dest_fmt).c).ret < 0
    · left; simp [h1, h2, h3, h4]
    by_cases h5 : (init_format_converter J
        { (init_capture_format K J { d with vdev := c, output_fmt := fg_out_fmt }
            fg_out_fmt in_fmt env.dest_fmt).d with
          vdev := (init_capture (set_cap_param
            (init_capture_format K J { d with vdev := c, output_fmt := fg_out_fmt }
              fg_out_fmt in_fmt env.dest_fmt).d.vdev
            (init_capture_format K J { d with vdev := c, output_fmt := fg_out_fmt }
              fg_out_fmt in_fmt env.dest_fmt).src_fmt
            (init_capture_format K J { d with vdev := c, output_fmt := fg_out_fmt }
              fg_out_fmt in_fmt env.dest_fmt).dest_fmt).c).c }
        env.init_jpeg_compressor).1 = 0
    swap
    · left; simp [h1, h2, h3, h4, h5]
    · right
      have h4b := not_lt.1 h4
      simp [h1, h1b, h2, h3, h4, h4b, h5]

/-! ## Negotiation of the capture size -/

/-- C1: for a capability report with minwidth ≤ maxwidth and minheight ≤ maxheight, every
set-window request that `set_cap_param_v4l1` issues carries the requested width (height)
replaced by the maximum when it is the sentinel or exceeds the maximum, by the minimum when
it is below the minimum, and unchanged otherwise; that size lies between the minimum and the
maximum; against a driver that accepts every request the call succeeds and issues the
set-window request whatever size was requested; and the returned code never depends on the
requested size. -/
theorem set_cap_param_v4l1_clamps (K : Headers) (c : capture_device)
    (src_palette palette : Nat) (drv : CapDriver)
    (hw : drv.vc.minwidth ≤ drv.vc.maxwidth) (hh : drv.vc.minheight ≤ drv.vc.maxheight) :
    (∀ win, Request.VIDIOCSWIN win ∈ (set_cap_param_v4l1 K c src_palette palette drv).trace →
      win.width = clamped K.MAX_WIDTH drv.vc.minwidth drv.vc.maxwidth c.width ∧
      win.height = clamped K.MAX_HEIGHT drv.vc.minheight drv.vc.maxheight c.height) ∧
    (drv.accepts K palette →
      (set_cap_param_v4l1 K c src_palette palette drv).ret = 0 ∧
      ∃ win, Request.VIDIOCSWIN win ∈ (set_cap_param_v4l1 K c src_palette palette drv).trace) ∧
    (drv.vc.minwidth ≤ clamped K.MAX_WIDTH drv.vc.minwidth drv.vc.maxwidth c.width ∧
      clamped K.MAX_WIDTH drv.vc.minwidth drv.vc.maxwidth c.width ≤ drv.vc.maxwidth) ∧
    (drv.vc.minheight ≤ clamped K.MAX_HEIGHT drv.vc.minheight drv.vc.maxheight c.height ∧
      clamped K.MAX_HEIGHT drv.vc.minheight drv.vc.maxheight c.height ≤ drv.vc.maxheight) ∧
    (∀ w h, (set_cap_param_v4l1 K { c with width := w, height := h } src_palette palette drv).ret =
      (set_cap_param_v4l1 K c src_palette palette drv).ret) := by
  refine ⟨?_, ?_, ?_, ?_, ?_⟩
  · intro win hwin
    have hs := swin_of_mem_trace K c src_palette palette drv win hwin
    rw [← clamp_size_width K drv.vc c hw, ← clamp_size_height K drv.vc c hh]
    exact ⟨hs.1, hs.2.1⟩
  · intro hacc
    rw [set_cap_param_v4l1_of_accepts K c src_palette palette drv hacc]
    exact ⟨rfl, { x := 0, y := 0, width := (clamp_size K drv.vc c).width,
                  height := (clamp_size K drv.vc c).height, chromakey := 0, flags := 0,
                  clips := 0, clipcount := 0 }, by simp [full_trace]⟩
  · unfold clamped
    split_ifs <;> omega
  · unfold clamped
    split_ifs <;> omega
  · intro w h
    rw [set_cap_param_v4l1_ret, set_cap_param_v4l1_ret]

/-- C1 at a request of 5000 x 10 against limits 160..1024 and 120..768: the set-window
request carries 1024 x 120. -/
theorem set_cap_param_v4l1_clamps_witness :
    Request.VIDIOCSWIN ⟨0, 0, 1024, 120, 0, 0, 0, 0⟩ ∈
        (set_cap_param_v4l1 demo_headers demo_device_out_of_range 0 4 (demo_driver 320 240)).trace ∧
      (1024 = clamped 0 160 1024 5000 ∧ 120 = clamped 0 120 768 10) :=
  ⟨by decide,
   (set_cap_param_v4l1_clamps demo_headers demo_device_out_of_range 0 4 (demo_driver 320 240)
      (by decide) (by decide)).1 ⟨0, 0, 1024, 120, 0, 0, 0, 0⟩ (by decide)⟩

/-! ## Buffer initialisation -/

/-- C2: when the driver's buffer report is obtained, announces at least two frames (for
instance three) and the memory mapping succeeds, `init_capture_v4l1` returns 0 and leaves a
pool of exactly two buffers, whatever the announced number of frames. -/
theorem init_capture_v4l1_two_buffers (K : Headers) (c : capture_device) (drv : InitDriver)
    (hreport : drv.gmbuf_ret ≠ -1) (hframes : 2 ≤ drv.vm.frames)
    (hmap : drv.mmap_ret ≠ K.MAP_FAILED) :
    (init_capture_v4l1 K c drv).ret = 0 ∧
    (init_capture_v4l1 K c drv).c.mmap.buffer_nr = 2 ∧
    (init_capture_v4l1 K c drv).c.mmap.buffers.length = 2 := by
  have h2 : ¬ drv.vm.frames < 2 := by omega
  have h3 : ¬ K.MAP_FAILED = drv.mmap_ret := fun h => hmap h.symm
  simp [init_capture_v4l1, hreport, h2, h3]

/-- C2 at a report of three frames. -/
theorem init_capture_v4l1_two_buffers_witness :
    (init_capture_v4l1 demo_headers demo_device ⟨0, ⟨1000, 3, [0, 500, 700]⟩, 4096⟩).ret = 0 ∧
    (init_capture_v4l1 demo_headers demo_device ⟨0, ⟨1000, 3, [0, 500, 700]⟩, 4096⟩).c.mmap.buffer_nr = 2 ∧
    (init_capture_v4l1 demo_headers demo_device ⟨0, ⟨1000, 3, [0, 500, 700]⟩, 4096⟩).c.mmap.buffers.length = 2 :=
  init_capture_v4l1_two_buffers demo_headers demo_device ⟨0, ⟨1000, 3, [0, 500, 700]⟩, 4096⟩
    (by decide) (by decide) (by decide)

/-- C3: when the driver's buffer report announces fewer than two frames (for instance one),
`init_capture_v4l1` returns LIBVIDEO_ERR_INVALID_BUF_NB, has issued the report request only
(no memory mapping), and leaves the device, hence the buffer count, the buffers and the
mapped size of its pool, unchanged. -/
theorem init_capture_v4l1_too_few (K : Headers) (c : capture_device) (drv : InitDriver)
    (hreport : drv.gmbuf_ret ≠ -1) (hframes : drv.vm.frames < 2) :
    (init_capture_v4l1 K c drv).ret = K.LIBVIDEO_ERR_INVALID_BUF_NB ∧
    (init_capture_v4l1 K c drv).trace = [Request.VIDIOCGMBUF] ∧
    (∀ size, Request.MMAP size ∉ (init_capture_v4l1 K c drv).trace) ∧
    (init_capture_v4l1 K c drv).c = c ∧
    (init_capture_v4l1 K c drv).c.mmap.buffer_nr = c.mmap.buffer_nr ∧
    (init_capture_v4l1 K c drv).c.mmap.buffers = c.mmap.buffers ∧
    (init_capture_v4l1 K c drv).c.mmap.v4l1_mmap_size = c.mmap.v4l1_mmap_size := by
  have h2 : drv.vm.frames ≤ 2 := by omega
  simp [init_capture_v4l1, hreport, h2, hframes]

/-- C3 at a report of one frame. -/
theorem init_capture_v4l1_too_few_witness :
    (init_capture_v4l1 demo_headers demo_device ⟨0, ⟨1000, 1, [0]⟩, 4096⟩).ret = 7 ∧
    (init_capture_v4l1 demo_headers demo_device ⟨0, ⟨1000, 1, [0]⟩, 4096⟩).trace =
      [Request.VIDIOCGMBUF] ∧
    (init_capture_v4l1 demo_headers demo_device ⟨0, ⟨1000, 1, [0]⟩, 4096⟩).c = demo_device :=
  have h := init_capture_v4l1_too_few demo_headers demo_device ⟨0, ⟨1000, 1, [0]⟩, 4096⟩
    (by decide) (by decide)
  ⟨h.1, h.2.1, h.2.2.2.1⟩

/-! ## Frame acquisition -/

/-- C4: in every device state, when the capture request for the next frame or the wait for
the current frame fails, `dequeue_buffer_v4l1` returns the null address and reports length
0; when both succeed it reports the negotiated image size as length and returns the start
address of the current buffer, which is not the null address whenever that buffer belongs
to the pool and is mapped at a non-null address. -/
theorem dequeue_buffer_v4l1_result (K : Headers) (c : capture_device)
    (want_time want_sequence : Bool) (drv : DequeueDriver) :
    ((drv.mcapture_ret = -1 ∨ drv.sync_ret = -1) →
      (dequeue_buffer_v4l1 K c want_time want_sequence drv).ret = some 0 ∧
      (dequeue_buffer_v4l1 K c want_time want_sequence drv).len = 0) ∧
    ((drv.mcapture_ret ≠ -1 ∧ drv.sync_ret ≠ -1) →
      (dequeue_buffer_v4l1 K c want_time want_sequence drv).len = c.imagesize ∧
      (dequeue_buffer_v4l1 K c want_time want_sequence drv).ret =
        (c.mmap.buffers[to_uint c.mmap.tmp]?).map mmap_buffer.start ∧
      ∀ b, c.mmap.buffers[to_uint c.mmap.tmp]? = some b → b.start ≠ 0 →
        (dequeue_buffer_v4l1 K c want_time want_sequence drv).ret = some b.start ∧
        (dequeue_buffer_v4l1 K c want_time want_sequence drv).ret ≠ some 0) := by
  constructor
  · intro h
    unfold dequeue_buffer_v4l1
    by_cases h1 : drv.mcapture_ret = -1
    · simp [h1]
    · have h2 : drv.sync_ret = -1 := by tauto
      simp [h1, h2]
  · rintro ⟨h1, h2⟩
    have hret : (dequeue_buffer_v4l1 K c want_time want_sequence drv).ret =
        (c.mmap.buffers[to_uint c.mmap.tmp]?).map mmap_buffer.start := by
      simp [dequeue_buffer_v4l1, h1, h2]
    refine ⟨by simp [dequeue_buffer_v4l1, h1, h2], hret, ?_⟩
    intro b hb hstart
    rw [hret, hb]
    simpa using hstart

/-- C4 on a streaming device: a failing wait gives the null address with length 0, and a
dequeue whose two requests succeed gives the first buffer with the image size. -/
theorem dequeue_buffer_v4l1_result_witness :
    ((dequeue_buffer_v4l1 demo_headers (demo_streaming 0) true true ⟨0, -1, ⟨10, 20⟩⟩).ret = some 0 ∧
      (dequeue_buffer_v4l1 demo_headers (demo_streaming 0) true true ⟨0, -1, ⟨10, 20⟩⟩).len = 0) ∧
    ((dequeue_buffer_v4l1 demo_headers (demo_streaming 0) true true ⟨0, 0, ⟨10, 20⟩⟩).len = 614400 ∧
      (dequeue_buffer_v4l1 demo_headers (demo_streaming 0) true true ⟨0, 0, ⟨10, 20⟩⟩).ret = some 4096) :=
  ⟨(dequeue_buffer_v4l1_result demo_headers (demo_streaming 0) true true ⟨0, -1, ⟨10, 20⟩⟩).1
      (Or.inr (by decide)),
   ((dequeue_buffer_v4l1_result demo_headers (demo_streaming 0) true true ⟨0, 0, ⟨10, 20⟩⟩).2
      ⟨by decide, by decide⟩).1,
   (((dequeue_buffer_v4l1_result demo_headers (demo_streaming 0) true true ⟨0, 0, ⟨10, 20⟩⟩).2
      ⟨by decide, by decide⟩).2.2 ⟨4096, 999⟩ (by decide) (by decide)).1⟩

/-- C5: a call of `dequeue_buffer_v4l1` with current frame index c first issues the capture
request, for frame c XOR 1 at the negotiated size and real legacy palette, and then, only
when that request did not fail, the wait for frame c; nothing else is issued.  When c is 0
or 1, c XOR 1 is the other of the two. -/
theorem dequeue_buffer_v4l1_requests (K : Headers) (c : capture_device)
    (want_time want_sequence : Bool) (drv : DequeueDriver) :
    (dequeue_buffer_v4l1 K c want_time want_sequence drv).trace =
      Request.VIDIOCMCAPTURE
          { frame := to_uint c.mmap.tmp ^^^ 1, width := c.width, height := c.height,
            format := (K.libvideo_palettes c.real_v4l1_palette).v4l1_palette } ::
        (if drv.mcapture_ret = -1 then [] else [Request.VIDIOCSYNC (to_uint c.mmap.tmp)]) ∧
    (c.mmap.tmp < 2 → to_uint c.mmap.tmp ^^^ 1 = 1 - c.mmap.tmp) := by
  constructor
  · unfold dequeue_buffer_v4l1
    by_cases h1 : drv.mcapture_ret = -1
    · simp [h1]
    · by_cases h2 : drv.sync_ret = -1 <;> simp [h1, h2]
  · intro h
    have h01 : c.mmap.tmp = 0 ∨ c.mmap.tmp = 1 := by omega
    rcases h01 with h0 | h0 <;> rw [h0] <;> decide

/-- C5 with current frame 1: the capture request is for frame 0 and precedes the wait for
frame 1. -/
theorem dequeue_buffer_v4l1_requests_witness :
    (dequeue_buffer_v4l1 demo_headers (demo_streaming 1) true true ⟨0, 0, ⟨10, 20⟩⟩).trace =
      [Request.VIDIOCMCAPTURE ⟨0, 640, 480, 7⟩, Request.VIDIOCSYNC 1] ∧
    to_uint (demo_streaming 1).mmap.tmp ^^^ 1 = 1 - (demo_streaming 1).mmap.tmp :=
  ⟨(dequeue_buffer_v4l1_requests demo_headers (demo_streaming 1) true true ⟨0, 0, ⟨10, 20⟩⟩).1,
   (dequeue_buffer_v4l1_requests demo_headers (demo_streaming 1) true true ⟨0, 0, ⟨10, 20⟩⟩).2
     (by decide)⟩

/-! ## Negotiation of channel, palette and window -/

/-- The failure paths of the channel and palette steps as the code has them: when the
driver rejects the channel/standard selection the result is LIBVIDEO_ERR_CHAN_SETUP, and
when the palette step is reached with a palette id equal to VIDEO_PALETTE_UNDEFINED_V4L1
(the test of line 150) or the driver rejects the palette-setting request the result is
LIBVIDEO_ERR_FORMAT; in both cases no set-window request is issued, also not by
`list_cap_v4l1`, which runs after a rejected channel selection. -/
theorem set_cap_param_v4l1_error_paths (K : Headers) (c : capture_device)
    (src_palette palette : Nat) (drv : CapDriver) :
    (check_v4l1 drv.gcap_ret = true → drv.schan_ret = -1 →
      (set_cap_param_v4l1 K c src_palette palette drv).ret = K.LIBVIDEO_ERR_CHAN_SETUP ∧
      ∀ win, Request.VIDIOCSWIN win ∉ (set_cap_param_v4l1 K c src_palette palette drv).trace) ∧
    (check_v4l1 drv.gcap_ret = true → drv.schan_ret ≠ -1 → drv.gchan_ret ≠ -1 →
      drv.gpict_ret ≠ -1 → (palette = K.VIDEO_PALETTE_UNDEFINED_V4L1 ∨ drv.spict_ret ≠ 0) →
      (set_cap_param_v4l1 K c src_palette palette drv).ret = K.LIBVIDEO_ERR_FORMAT ∧
      ∀ win, Request.VIDIOCSWIN win ∉ (set_cap_param_v4l1 K c src_palette palette drv).trace) := by
  constructor
  · intro h1 h2
    refine ⟨by simp [set_cap_param_v4l1_ret, cap_ret, h1, h2], ?_⟩
    intro win hwin
    exact (swin_of_mem_trace K c src_palette palette drv win hwin).2.2.2.1 h2
  · intro h1 h2 h3 h4 h5
    constructor
    · rw [set_cap_param_v4l1_ret]
      unfold cap_ret
      rcases h5 with h5 | h5 <;> simp [h1, h2, h3, h4, h5]
    · intro win hwin
      have hs := swin_of_mem_trace K c src_palette palette drv win hwin
      rcases h5 with h5 | h5
      · exact hs.2.2.2.2.2.2.1 h5
      · exact h5 hs.2.2.2.2.2.2.2

/-- A rejected channel selection on the sample driver with two inputs: the call returns
LIBVIDEO_ERR_CHAN_SETUP after the 23 requests of `list_cap_v4l1`, sixteen of which are
palette-setting requests. -/
theorem set_cap_param_v4l1_rejected_channel_lists :
    set_cap_param_v4l1 demo_headers demo_device 0 4
        { demo_driver 320 240 with schan_ret := -1 } =
      ⟨2, demo_device,
        [Request.VIDIOCGCAP, Request.VIDIOCSCHAN ⟨0, 0, 3⟩] ++
          list_cap_v4l1 demo_headers demo_list_driver⟩ ∧
    (list_cap_v4l1 demo_headers demo_list_driver).length = 23 ∧
    (list_cap_v4l1 demo_headers demo_list_driver).take 5 =
      [Request.VIDIOCGCAP, Request.VIDIOCGCAP, Request.VIDIOCGCHAN ⟨0, 0, 0⟩,
       Request.VIDIOCGCHAN ⟨1, 0, 0⟩, Request.VIDIOCGPICT] ∧
    (list_cap_v4l1 demo_headers demo_list_driver).drop 21 =
      [Request.VIDIOCGWIN, Request.VIDIOCGCAP] := by
  decide

/-- C6, as the code has it for palette 9 of the sample table, whose entry holds
VIDEO_PALETTE_UNDEFINED_V4L1 as its legacy code (the palette has no legacy equivalent),
against a driver that accepts every request: the test of line 150 compares the palette id,
not the legacy code of its entry, with VIDEO_PALETTE_UNDEFINED_V4L1, so the negotiation
goes on, submits the undefined code to the driver, issues the set-window request and
returns 0 instead of LIBVIDEO_ERR_FORMAT. -/
theorem set_cap_param_v4l1_undefined_palette_accepted :
    (demo_headers.libvideo_palettes 9).v4l1_palette =
      (demo_headers.VIDEO_PALETTE_UNDEFINED_V4L1 : Int) ∧
    (9 : Nat) ≠ demo_headers.VIDEO_PALETTE_UNDEFINED_V4L1 ∧
    (set_cap_param_v4l1 demo_headers demo_device 0 9 (demo_driver 640 480)).ret = 0 ∧
    (set_cap_param_v4l1 demo_headers demo_device 0 9 (demo_driver 640 480)).ret ≠
      demo_headers.LIBVIDEO_ERR_FORMAT ∧
    (set_cap_param_v4l1 demo_headers demo_device 0 9 (demo_driver 640 480)).trace =
      [Request.VIDIOCGCAP, Request.VIDIOCSCHAN ⟨0, 0, 3⟩, Request.VIDIOCGCHAN ⟨0, 0, 3⟩,
       Request.VIDIOCGPICT,
       Request.VIDIOCSPICT (palette_probe demo_headers.VIDEO_PALETTE_UNDEFINED_V4L1),
       Request.VIDIOCSWIN ⟨0, 0, 640, 480, 0, 0, 0, 0⟩, Request.VIDIOCGWIN] := by
  decide

/-- C7: whenever `set_cap_param_v4l1` returns 0, the width and height it leaves in the
device are those of the window the driver reported in answer to the get-window request,
which is the last request of the call and directly follows the set-window request. -/
theorem set_cap_param_v4l1_adopts_window (K : Headers) (hK : K.cap_errors_nonzero)
    (c : capture_device) (src_palette palette : Nat) (drv : CapDriver)
    (h : (set_cap_param_v4l1 K c src_palette palette drv).ret = 0) :
    (set_cap_param_v4l1 K c src_palette palette drv).c.width = drv.win.width ∧
    (set_cap_param_v4l1 K c src_palette palette drv).c.height = drv.win.height ∧
    ∃ pre win, (set_cap_param_v4l1 K c src_palette palette drv).trace =
      pre ++ [Request.VIDIOCSWIN win, Request.VIDIOCGWIN] := by
  have hacc := accepts_of_ret_zero K hK c src_palette palette drv h
  rw [set_cap_param_v4l1_of_accepts K c src_palette palette drv hacc]
  refine ⟨(adopt_window_fields _ _).1, (adopt_window_fields _ _).2.1, ?_⟩
  exact ⟨[Request.VIDIOCGCAP,
     Request.VIDIOCSCHAN { channel := c.channel, tuners := 0, norm := chan_norm K c.std },
     Request.VIDIOCGCHAN { channel := c.channel, tuners := 0, norm := chan_norm K c.std },
     Request.VIDIOCGPICT, Request.VIDIOCSPICT (spict_arg K palette drv.pict)], _, rfl⟩

/-- C7 at a request of 640 x 480 that the driver resizes to 320 x 240. -/
theorem set_cap_param_v4l1_adopts_window_witness :
    (set_cap_param_v4l1 demo_headers demo_device 0 4 (demo_driver 320 240)).ret = 0 ∧
    (set_cap_param_v4l1 demo_headers demo_device 0 4 (demo_driver 320 240)).c.width = 320 ∧
    (set_cap_param_v4l1 demo_headers demo_device 0 4 (demo_driver 320 240)).c.height = 240 :=
  have h := set_cap_param_v4l1_adopts_window demo_headers
    ⟨by decide, by decide, by decide, by decide, by decide⟩ demo_device 0 4
    (demo_driver 320 240) (by decide)
  ⟨by decide, h.1, h.2.1⟩

/-- C8: if `set_cap_param_v4l1` returned 0, calling it again with the same palette on the
device as the first call left it (holding the accepted width, height and palette), against
a driver that gives the same answers, returns 0 again and leaves the same width, height,
palette and real legacy palette. -/
theorem set_cap_param_v4l1_idempotent (K : Headers) (hK : K.cap_errors_nonzero)
    (c : capture_device) (src_palette palette : Nat) (drv : CapDriver)
    (h : (set_cap_param_v4l1 K c src_palette palette drv).ret = 0) :
    (set_cap_param_v4l1 K (set_cap_param_v4l1 K c src_palette palette drv).c
        src_palette palette drv).ret = 0 ∧
    (set_cap_param_v4l1 K (set_cap_param_v4l1 K c src_palette palette drv).c
        src_palette palette drv).c.width =
      (set_cap_param_v4l1 K c src_palette palette drv).c.width ∧
    (set_cap_param_v4l1 K (set_cap_param_v4l1 K c src_palette palette drv).c
        src_palette palette drv).c.height =
      (set_cap_param_v4l1 K c src_palette palette drv).c.height ∧
    (set_cap_param_v4l1 K (set_cap_param_v4l1 K c src_palette palette drv).c
        src_palette palette drv).c.palette =
      (set_cap_param_v4l1 K c src_palette palette drv).c.palette ∧
    (set_cap_param_v4l1 K (set_cap_param_v4l1 K c src_palette palette drv).c
        src_palette palette drv).c.real_v4l1_palette =
      (set_cap_param_v4l1 K c src_palette palette drv).c.real_v4l1_palette := by
  have h2 : (set_cap_param_v4l1 K (set_cap_param_v4l1 K c src_palette palette drv).c
      src_palette palette drv).ret = 0 := by
    rw [set_cap_param_v4l1_ret]
    rw [set_cap_param_v4l1_ret] at h
    exact h
  have s1 := set_cap_param_v4l1_success K hK c src_palette palette drv h
  have s2 := set_cap_param_v4l1_success K hK _ src_palette palette drv h2
  refine ⟨h2, ?_, ?_, ?_, ?_⟩
  · rw [s2.2.2.1, s1.2.2.1]
  · rw [s2.2.2.2.1, s1.2.2.2.1]
  · rw [s2.2.2.2.2.1, s1.2.2.2.2.1]
  · rw [s2.2.2.2.2.2.1, s1.2.2.2.2.2.1]

/-- C8 at a request of 640 x 480 that the driver resizes to 320 x 240: the second call
accepts 320 x 240 with palette 4 and real legacy palette 14 again. -/
theorem set_cap_param_v4l1_idempotent_witness :
    (set_cap_param_v4l1 demo_headers demo_device 0 4 (demo_driver 320 240)).ret = 0 ∧
    (set_cap_param_v4l1 demo_headers
        (set_cap_param_v4l1 demo_headers demo_device 0 4 (demo_driver 320 240)).c
        0 4 (demo_driver 320 240)).ret = 0 ∧
    (set_cap_param_v4l1 demo_headers
        (set_cap_param_v4l1 demo_headers demo_device 0 4 (demo_driver 320 240)).c
        0 4 (demo_driver 320 240)).c.width =
      (set_cap_param_v4l1 demo_headers demo_device 0 4 (demo_driver 320 240)).c.width :=
  have h := set_cap_param_v4l1_idempotent demo_headers
    ⟨by decide, by decide, by decide, by decide, by decide⟩ demo_device 0 4
    (demo_driver 320 240) (by decide)
  ⟨by decide, h.1, h.2.1⟩

/-- C9: whenever `set_cap_param_v4l1` returns 0 for a palette id below 2^31 whose legacy
code fits the 16-bit palette field, the palette left in the device is the requested one;
a palette-setting request was issued and the palette such a request carries is
VIDEO_PALETTE_YUV420P for a YUV420 request, VIDEO_PALETTE_YUV422 for YUYV,
VIDEO_PALETTE_YUV411P for YUV411 and the legacy code of the requested palette for every
other one; and `real_v4l1_palette` is YUV420P, YUV422, YUV411P in the three cases and the
requested palette otherwise. -/
theorem set_cap_param_v4l1_palette_substitution (K : Headers) (hK : K.cap_errors_nonzero)
    (hdist : K.YUV420 ≠ K.YUYV ∧ K.YUV420 ≠ K.YUV411 ∧ K.YUYV ≠ K.YUV411)
    (c : capture_device) (src_palette palette : Nat) (drv : CapDriver)
    (hid : palette < 2 ^ 31)
    (hcode : 0 ≤ (K.libvideo_palettes palette).v4l1_palette ∧
      (K.libvideo_palettes palette).v4l1_palette < 65536)
    (h : (set_cap_param_v4l1 K c src_palette palette drv).ret = 0) :
    (set_cap_param_v4l1 K c src_palette palette drv).c.palette = palette ∧
    (∃ pict, Request.VIDIOCSPICT pict ∈ (set_cap_param_v4l1 K c src_palette palette drv).trace) ∧
    (∀ pict, Request.VIDIOCSPICT pict ∈ (set_cap_param_v4l1 K c src_palette palette drv).trace →
      (palette = K.YUV420 → pict.palette = K.VIDEO_PALETTE_YUV420P) ∧
      (palette = K.YUYV → pict.palette = K.VIDEO_PALETTE_YUV422) ∧
      (palette = K.YUV411 → pict.palette = K.VIDEO_PALETTE_YUV411P) ∧
      (palette ≠ K.YUV420 → palette ≠ K.YUYV → palette ≠ K.YUV411 →
        (pict.palette : Int) = (K.libvideo_palettes palette).v4l1_palette)) ∧
    (palette = K.YUV420 →
      (set_cap_param_v4l1 K c src_palette palette drv).c.real_v4l1_palette = K.YUV420P) ∧
    (palette = K.YUYV →
      (set_cap_param_v4l1 K c src_palette palette drv).c.real_v4l1_palette = K.YUV422) ∧
    (palette = K.YUV411 →
      (set_cap_param_v4l1 K c src_palette palette drv).c.real_v4l1_palette = K.YUV411P) ∧
    (palette ≠ K.YUV420 → palette ≠ K.YUYV → palette ≠ K.YUV411 →
      (set_cap_param_v4l1 K c src_palette palette drv).c.real_v4l1_palette = palette) := by
  obtain ⟨d1, d2, d3⟩ := hdist
  have s1 := set_cap_param_v4l1_success K hK c src_palette palette drv h
  refine ⟨s1.2.2.2.2.1, ⟨spict_arg K palette drv.pict, ?_⟩, ?_, ?_, ?_, ?_, ?_⟩
  · rw [s1.2.1]; simp [full_trace]
  · intro pict hp
    rw [spict_of_mem_trace K c src_palette palette drv pict s1.1.2.1 hp]
    refine ⟨?_, ?_, ?_, ?_⟩
    · intro e; simp [spict_arg, ← e]
    · intro e; subst e; simp [spict_arg, Ne.symm d1]
    · intro e; subst e; simp [spict_arg, Ne.symm d2, Ne.symm d3]
    · intro e1 e2 e3
      simp only [spict_arg, if_neg e1, if_neg e2, if_neg e3]
      exact u16_small _ hcode.1 hcode.2
  · intro e; rw [s1.2.2.2.2.2.1]; simp [real_palette, ← e]
  · intro e; subst e; rw [s1.2.2.2.2.2.1]; simp [real_palette, Ne.symm d1]
  · intro e; subst e; rw [s1.2.2.2.2.2.1]; simp [real_palette, Ne.symm d2, Ne.symm d3]
  · intro e1 e2 e3
    rw [s1.2.2.2.2.2.1]
    simp only [real_palette, if_neg e1, if_neg e2, if_neg e3]
    exact to_int_small palette hid

/-- C9 at a YUYV request (palette 4) and at a request for palette 6: the first is submitted
as legacy code 7 (YUV422) with real legacy palette 14, the second under its own legacy
code 4 with itself as real legacy palette. -/
theorem set_cap_param_v4l1_palette_substitution_witness :
    ((set_cap_param_v4l1 demo_headers demo_device 0 4 (demo_driver 320 240)).c.palette = 4 ∧
      (set_cap_param_v4l1 demo_headers demo_device 0 4 (demo_driver 320 240)).c.real_v4l1_palette
        = 14) ∧
    ((set_cap_param_v4l1 demo_headers demo_device 0 6 (demo_driver 320 240)).c.palette = 6 ∧
      (set_cap_param_v4l1 demo_headers demo_device 0 6 (demo_driver 320 240)).c.real_v4l1_palette
        = 6) :=
  have h4 := set_cap_param_v4l1_palette_substitution demo_headers
    ⟨by decide, by decide, by decide, by decide, by decide⟩ ⟨by decide, by decide, by decide⟩
    demo_device 0 4 (demo_driver 320 240) (by decide) ⟨by decide, by decide⟩ (by decide)
  have h6 := set_cap_param_v4l1_palette_substitution demo_headers
    ⟨by decide, by decide, by decide, by decide, by decide⟩ ⟨by decide, by decide, by decide⟩
    demo_device 0 6 (demo_driver 320 240) (by decide) ⟨by decide, by decide⟩ (by decide)
  ⟨⟨h4.1, h4.2.2.2.2.1 rfl⟩, ⟨h6.1, h6.2.2.2.2.2.2 (by decide) (by decide) (by decide)⟩⟩

/-- C10, at a 640 x 480 request with the 16-bit palette 4 that the driver resizes to
320 x 240: `set_cap_param_v4l1` returns 0 and leaves 320 x 240 in the device, but the image
size it leaves is 614400 = 640 * 480 * 16 / 8, computed before the window was negotiated,
and not 153600 = 320 * 240 * 16 / 8. -/
theorem set_cap_param_v4l1_stale_imagesize :
    (set_cap_param_v4l1 demo_headers demo_device 0 4 (demo_driver 320 240)).ret = 0 ∧
    (set_cap_param_v4l1 demo_headers demo_device 0 4 (demo_driver 320 240)).c.width = 320 ∧
    (set_cap_param_v4l1 demo_headers demo_device 0 4 (demo_driver 320 240)).c.height = 240 ∧
    (set_cap_param_v4l1 demo_headers demo_device 0 4 (demo_driver 320 240)).c.palette = 4 ∧
    (demo_headers.libvideo_palettes 4).depth = 16 ∧
    (set_cap_param_v4l1 demo_headers demo_device 0 4 (demo_driver 320 240)).c.imagesize =
      614400 ∧
    (set_cap_param_v4l1 demo_headers demo_device 0 4 (demo_driver 320 240)).c.imagesize ≠
      320 * 240 * 16 / 8 := by
  decide

/-! ## Buffer sizes of the binding layer -/

/-- C11, as the code has it where a value does not fit: at 32768 x 32768 with RGB24 output
the product 32768 * 32768 * 3 does not fit the `int` that `get_buffer_length` returns, and
the value returned is -1073741824; at 65536 x 32768 with YUV420 output the product
65536 * 32768 * 3 does not fit the `unsigned int` it is computed in, and the value returned
is 1073741824, not 3221225472; and with raw output and a device image size of 2^31 the
value returned is -2^31. -/
theorem get_buffer_length_overflow :
    (get_buffer_length demo_common (demo_v4l4j 32768 32768 demo_common.OUTPUT_RGB24) =
        -1073741824 ∧
      get_buffer_length demo_common (demo_v4l4j 32768 32768 demo_common.OUTPUT_RGB24) ≠
        ((32768 * 32768 * 3 : Nat) : Int)) ∧
    (get_buffer_length demo_common (demo_v4l4j 65536 32768 demo_common.OUTPUT_YUV420) =
        1073741824 ∧
      get_buffer_length demo_common (demo_v4l4j 65536 32768 demo_common.OUTPUT_YUV420) ≠
        ((65536 * 32768 * 3 / 2 : Nat) : Int)) ∧
    (get_buffer_length demo_common
        { demo_v4l4j 640 480 demo_common.OUTPUT_RAW with
          vdev := { demo_device with imagesize := 2147483648 } } = -2147483648 ∧
      get_buffer_length demo_common
        { demo_v4l4j 640 480 demo_common.OUTPUT_RAW with
          vdev := { demo_device with imagesize := 2147483648 } } ≠ ((2147483648 : Nat) : Int)) := by
  decide

/-- C11, amended: for every width w and height h, `get_buffer_length` returns
floor(w * h * 3 / 2) for YUV420 and YVU420 output when w * h * 3 < 2^32, w * h * 3 for RGB24
and BGR24 output when w * h * 3 < 2^31, the device image size for raw and JPEG output when
that is below 2^31, and 0 for any other output format. -/
theorem get_buffer_length_fits (J : Common) (hJ : J.outputs_distinct) (d : v4l4j_device) :
    ((d.output_fmt = J.OUTPUT_YUV420 ∨ d.output_fmt = J.OUTPUT_YVU420) →
      d.vdev.width * d.vdev.height * 3 < 2 ^ 32 →
      get_buffer_length J d = ((d.vdev.width * d.vdev.height * 3 / 2 : Nat) : Int)) ∧
    ((d.output_fmt = J.OUTPUT_RGB24 ∨ d.output_fmt = J.OUTPUT_BGR24) →
      d.vdev.width * d.vdev.height * 3 < 2 ^ 31 →
      get_buffer_length J d = ((d.vdev.width * d.vdev.height * 3 : Nat) : Int)) ∧
    ((d.output_fmt = J.OUTPUT_RAW ∨ d.output_fmt = J.OUTPUT_JPG) →
      d.vdev.imagesize < 2 ^ 31 →
      get_buffer_length J d = (d.vdev.imagesize : Int)) ∧
    (d.output_fmt ≠ J.OUTPUT_RAW → d.output_fmt ≠ J.OUTPUT_JPG →
      d.output_fmt ≠ J.OUTPUT_RGB24 → d.output_fmt ≠ J.OUTPUT_BGR24 →
      d.output_fmt ≠ J.OUTPUT_YUV420 → d.output_fmt ≠ J.OUTPUT_YVU420 →
      get_buffer_length J d = 0) := by
  simp only [Common.outputs_distinct, List.nodup_cons, List.mem_cons, List.mem_singleton,
    not_or, List.not_mem_nil, not_false_eq_true, List.nodup_nil, and_true] at hJ
  obtain ⟨⟨a1, a2, a3, a4, a5⟩, ⟨b1, b2, b3, b4⟩, ⟨c1, c2, c3⟩, ⟨d1, d2⟩, e1⟩ := hJ
  refine ⟨?_, ?_, ?_, ?_⟩
  · intro h hsize
    have hmod : d.vdev.width * d.vdev.height * 3 % 2 ^ 32 = d.vdev.width * d.vdev.height * 3 :=
      Nat.mod_eq_of_lt hsize
    have hhalf : d.vdev.width * d.vdev.height * 3 / 2 < 2 ^ 31 := by omega
    rcases h with h | h
    · unfold get_buffer_length
      rw [h, if_neg (by tauto), if_neg (Ne.symm c2), if_neg (Ne.symm d1), if_pos rfl, hmod]
      exact to_int_small _ hhalf
    · unfold get_buffer_length
      rw [h, if_neg (by tauto), if_neg (Ne.symm c3), if_neg (Ne.symm d2), if_neg (Ne.symm e1),
        if_pos rfl, hmod]
      exact to_int_small _ hhalf
  · intro h hsize
    rcases h with h | h
    · unfold get_buffer_length
      rw [h, if_neg (by tauto), if_pos rfl]
      exact to_int_small _ hsize
    · unfold get_buffer_length
      rw [h, if_neg (by tauto), if_neg (Ne.symm c1), if_pos rfl]
      exact to_int_small _ hsize
  · intro h himg
    unfold get_buffer_length
    rw [if_pos h]
    exact to_int_small _ himg
  · intro h1 h2 h3 h4 h5 h6
    unfold get_buffer_length
    rw [if_neg (by tauto), if_neg h3, if_neg h4, if_neg h5, if_neg h6]

/-- C11, amended, at 320 x 240 with YUV420 output: the length is exactly 115200; and at
32768 x 32768 with YUV420 output, where w * h * 3 lies between 2^31 and 2^32, the length is
still floor(w * h * 3 / 2) = 1610612736. -/
theorem get_buffer_length_fits_witness :
    get_buffer_length demo_common (demo_v4l4j 320 240 demo_common.OUTPUT_YUV420) = 115200 ∧
    get_buffer_length demo_common (demo_v4l4j 32768 32768 demo_common.OUTPUT_YUV420) =
      ((32768 * 32768 * 3 / 2 : Nat) : Int) :=
  ⟨(get_buffer_length_fits demo_common (by unfold Common.outputs_distinct; decide)
      (demo_v4l4j 320 240 demo_common.OUTPUT_YUV420)).1 (Or.inl rfl) (by decide),
   (get_buffer_length_fits demo_common (by unfold Common.outputs_distinct; decide)
      (demo_v4l4j 32768 32768 demo_common.OUTPUT_YUV420)).1 (Or.inl rfl) (by decide)⟩

/-! ## Operations the legacy backend does not implement -/

/-- C13, as the code has it for the getter of input and standard on the legacy backend:
the native methods `doGetVideoInput` and `doGetVideoStandard` report nothing and return
the contents their local variables happened to have (here 7 and 9), while
`doGetFrameIntv` does report that the operation is not supported. -/
theorem get_video_input_std_v4l1_silent :
    ¬ (Java_au_edu_jcu_v4l4j_AbstractGrabber_doGetVideoInput get_video_input_std_v4l1
        demo_device 7 9).not_supported ∧
    (Java_au_edu_jcu_v4l4j_AbstractGrabber_doGetVideoInput get_video_input_std_v4l1
        demo_device 7 9) = { ret := some 7, raised := none, c := demo_device, trace := [] } ∧
    ¬ (Java_au_edu_jcu_v4l4j_AbstractGrabber_doGetVideoStandard get_video_input_std_v4l1
        demo_device 7 9).not_supported ∧
    (Java_au_edu_jcu_v4l4j_AbstractGrabber_doGetVideoStandard get_video_input_std_v4l1
        demo_device 7 9) = { ret := some 9, raised := none, c := demo_device, trace := [] } ∧
    (Java_au_edu_jcu_v4l4j_AbstractGrabber_doGetFrameIntv (get_frame_intv_v4l1 demo_headers)
        demo_device 0 7 9).not_supported := by
  unfold Native.not_supported
  decide

/-- C13, amended: on the legacy backend `set_frame_intv_v4l1`, `get_frame_intv_v4l1` and
`set_video_input_std_v4l1` return LIBVIDEO_ERR_IOCTL for every argument, the code that the
frame-interval methods of the binding layer turn into the not-supported exception whenever
it differs from 0 and from LIBVIDEO_ERR_FORMAT; `get_video_input_std_v4l1` returns no
status; none of the four writes an output parameter, issues a driver request or changes
the device. -/
theorem legacy_unimplemented_operations (K : Headers) (c : capture_device)
    (num denom input_num std : Nat) :
    set_frame_intv_v4l1 K c num denom = ⟨K.LIBVIDEO_ERR_IOCTL, c, []⟩ ∧
    get_frame_intv_v4l1 K c =
      { ret := K.LIBVIDEO_ERR_IOCTL, out1 := none, out2 := none, c := c, trace := [] } ∧
    set_video_input_std_v4l1 K c input_num std = ⟨K.LIBVIDEO_ERR_IOCTL, c, []⟩ ∧
    get_video_input_std_v4l1 c = { out1 := none, out2 := none, c := c, trace := [] } ∧
    (K.LIBVIDEO_ERR_IOCTL ≠ K.LIBVIDEO_ERR_FORMAT → ∀ n m : Int,
      (Java_au_edu_jcu_v4l4j_AbstractGrabber_doSetFrameIntv K (set_frame_intv_v4l1 K) c n m)
        = { ret := none, raised := some Excp.UNSUPPORTED_METH_EXCP, c := c, trace := [] }) ∧
    (K.LIBVIDEO_ERR_IOCTL ≠ 0 → ∀ (what : Int) (u v : Nat),
      (Java_au_edu_jcu_v4l4j_AbstractGrabber_doGetFrameIntv (get_frame_intv_v4l1 K) c what u v)
        = { ret := some 0, raised := some Excp.UNSUPPORTED_METH_EXCP, c := c, trace := [] }) := by
  refine ⟨rfl, rfl, rfl, rfl, ?_, ?_⟩
  · intro h n m
    simp [Java_au_edu_jcu_v4l4j_AbstractGrabber_doSetFrameIntv, set_frame_intv_v4l1, h]
  · intro h what u v
    simp [Java_au_edu_jcu_v4l4j_AbstractGrabber_doGetFrameIntv, get_frame_intv_v4l1, h]

/-- C13, amended, at the sample codes: both frame-interval methods raise the not-supported
exception on the legacy backend. -/
theorem legacy_unimplemented_operations_witness :
    (Java_au_edu_jcu_v4l4j_AbstractGrabber_doSetFrameIntv demo_headers
        (set_frame_intv_v4l1 demo_headers) demo_device 1 25).raised =
      some Excp.UNSUPPORTED_METH_EXCP ∧
    (Java_au_edu_jcu_v4l4j_AbstractGrabber_doGetFrameIntv (get_frame_intv_v4l1 demo_headers)
        demo_device 0 7 9).raised = some Excp.UNSUPPORTED_METH_EXCP :=
  have h := legacy_unimplemented_operations demo_headers demo_device 0 0 0 0
  ⟨by rw [h.2.2.2.2.1 (by decide) 1 25], by rw [h.2.2.2.2.2 (by decide) 0 7 9]⟩

/-! ## Result codes of the buffer initialisation -/

/-- C14, as the code has it when the request for the driver's buffer report fails: the
code returned is LIBVIDEO_ERR_REQ_MMAP, which with the sample codes is neither 0 nor
LIBVIDEO_ERR_INVALID_BUF_NB nor LIBVIDEO_ERR_MMAP_BUF. -/
theorem init_capture_v4l1_req_mmap :
    (init_capture_v4l1 demo_headers demo_device ⟨-1, ⟨0, 0, []⟩, 0⟩).ret =
      demo_headers.LIBVIDEO_ERR_REQ_MMAP ∧
    ¬ ((init_capture_v4l1 demo_headers demo_device ⟨-1, ⟨0, 0, []⟩, 0⟩).ret = 0 ∨
       (init_capture_v4l1 demo_headers demo_device ⟨-1, ⟨0, 0, []⟩, 0⟩).ret =
          demo_headers.LIBVIDEO_ERR_INVALID_BUF_NB ∨
       (init_capture_v4l1 demo_headers demo_device ⟨-1, ⟨0, 0, []⟩, 0⟩).ret =
          demo_headers.LIBVIDEO_ERR_MMAP_BUF) := by
  decide

/-- C14, amended: for all driver answers the code `init_capture_v4l1` returns is 0,
LIBVIDEO_ERR_REQ_MMAP, LIBVIDEO_ERR_INVALID_BUF_NB or LIBVIDEO_ERR_MMAP_BUF; it is
LIBVIDEO_ERR_REQ_MMAP when the request for the driver's buffer report fails, and 0 or one
of the other two when the report is obtained. -/
theorem init_capture_v4l1_codes (K : Headers) (c : capture_device) (drv : InitDriver) :
    ((init_capture_v4l1 K c drv).ret = 0 ∨
      (init_capture_v4l1 K c drv).ret = K.LIBVIDEO_ERR_REQ_MMAP ∨
      (init_capture_v4l1 K c drv).ret = K.LIBVIDEO_ERR_INVALID_BUF_NB ∨
      (init_capture_v4l1 K c drv).ret = K.LIBVIDEO_ERR_MMAP_BUF) ∧
    (drv.gmbuf_ret = -1 → (init_capture_v4l1 K c drv).ret = K.LIBVIDEO_ERR_REQ_MMAP) ∧
    (drv.gmbuf_ret ≠ -1 →
      (init_capture_v4l1 K c drv).ret = 0 ∨
      (init_capture_v4l1 K c drv).ret = K.LIBVIDEO_ERR_INVALID_BUF_NB ∨
      (init_capture_v4l1 K c drv).ret = K.LIBVIDEO_ERR_MMAP_BUF) := by
  have key : (drv.gmbuf_ret = -1 → (init_capture_v4l1 K c drv).ret = K.LIBVIDEO_ERR_REQ_MMAP) ∧
      (drv.gmbuf_ret ≠ -1 →
        (init_capture_v4l1 K c drv).ret = 0 ∨
        (init_capture_v4l1 K c drv).ret = K.LIBVIDEO_ERR_INVALID_BUF_NB ∨
        (init_capture_v4l1 K c drv).ret = K.LIBVIDEO_ERR_MMAP_BUF) := by
    constructor
    · intro h
      simp [init_capture_v4l1, h]
    · intro h
      unfold init_capture_v4l1
      simp only [if_neg h]
      split_ifs <;> simp
  refine ⟨?_, key.1, key.2⟩
  by_cases h : drv.gmbuf_ret = -1
  · exact Or.inr (Or.inl (key.1 h))
  · rcases key.2 h with h0 | h1 | h2
    · exact Or.inl h0
    · exact Or.inr (Or.inr (Or.inl h1))
    · exact Or.inr (Or.inr (Or.inr h2))

/-- C14, amended, at a failing request for the report and at a failing memory mapping. -/
theorem init_capture_v4l1_codes_witness :
    (init_capture_v4l1 demo_headers demo_device ⟨-1, ⟨0, 0, []⟩, 0⟩).ret = 6 ∧
    ((init_capture_v4l1 demo_headers demo_device ⟨0, ⟨1000, 2, [0, 500]⟩, -1⟩).ret = 0 ∨
      (init_capture_v4l1 demo_headers demo_device ⟨0, ⟨1000, 2, [0, 500]⟩, -1⟩).ret = 7 ∨
      (init_capture_v4l1 demo_headers demo_device ⟨0, ⟨1000, 2, [0, 500]⟩, -1⟩).ret = 8) :=
  ⟨(init_capture_v4l1_codes demo_headers demo_device ⟨-1, ⟨0, 0, []⟩, 0⟩).2.1 (by decide),
   (init_capture_v4l1_codes demo_headers demo_device ⟨0, ⟨1000, 2, [0, 500]⟩, -1⟩).2.2
     (by decide)⟩

/-! ## Buffer bookkeeping and the alternation of the two buffers -/

/-- C15: after every call of `init_capture_v4l1` that returns 0, for a driver report of
total size S, both buffers have length S - 1, the remembered mapping size is S and is the
size `free_capture_v4l1` unmaps at the mapping base, buffer 0 starts at the mapping base
and buffer 1 at the base plus `offsets[1]`; with any other offsets in the report the two
lengths are the same. -/
theorem init_capture_v4l1_bookkeeping (K : Headers) (hK : K.init_errors_nonzero)
    (c : capture_device) (drv : InitDriver) (h : (init_capture_v4l1 K c drv).ret = 0) :
    (init_capture_v4l1 K c drv).c.mmap.buffers =
      [⟨drv.mmap_ret, drv.vm.size - 1⟩, ⟨drv.mmap_ret + drv.vm.offset 1, drv.vm.size - 1⟩] ∧
    (init_capture_v4l1 K c drv).c.mmap.v4l1_mmap_size = drv.vm.size ∧
    (∀ munmap_ret, (free_capture_v4l1 (init_capture_v4l1 K c drv).c munmap_ret).map Prod.snd =
      some [Request.MUNMAP drv.mmap_ret drv.vm.size]) ∧
    (∀ offsets, ((init_capture_v4l1 K c
        { drv with vm := { drv.vm with offsets := offsets } }).c.mmap.buffers.map
          mmap_buffer.length) = [drv.vm.size - 1, drv.vm.size - 1]) := by
  obtain ⟨h1, h2, h3⟩ := init_capture_v4l1_of_ret_zero K hK c drv h
  have hp := init_capture_v4l1_pool K c drv h1 h2 h3
  refine ⟨by rw [hp], by rw [hp], ?_, ?_⟩
  · intro munmap_ret
    simp [free_capture_v4l1, hp]
  · intro offsets
    rw [init_capture_v4l1_pool K c { drv with vm := { drv.vm with offsets := offsets } } h1 h2 h3]
    rfl

/-- C15 at a report of size 1000 with offsets 0 and 500, mapped at 4096: both lengths are
999, buffer 1 starts at 4596 and the size to unmap is 1000. -/
theorem init_capture_v4l1_bookkeeping_witness :
    (init_capture_v4l1 demo_headers demo_device ⟨0, ⟨1000, 2, [0, 500]⟩, 4096⟩).ret = 0 ∧
    (init_capture_v4l1 demo_headers demo_device ⟨0, ⟨1000, 2, [0, 500]⟩, 4096⟩).c.mmap.buffers =
      [⟨4096, 999⟩, ⟨4596, 999⟩] ∧
    (init_capture_v4l1 demo_headers demo_device ⟨0, ⟨1000, 2, [0, 500]⟩, 4096⟩).c.mmap.v4l1_mmap_size
      = 1000 :=
  have h := init_capture_v4l1_bookkeeping demo_headers ⟨by decide, by decide, by decide⟩
    demo_device ⟨0, ⟨1000, 2, [0, 500]⟩, 4096⟩ (by decide)
  ⟨by decide, h.1, h.2.1⟩

/-- C16: for every device state and every buffer index, `stop_capture_v4l1` returns 0 and
`enqueue_buffer_v4l1` returns, both without issuing a driver request and leaving the
device, the current-frame index included, as it was. -/
theorem stop_and_enqueue_v4l1_do_nothing (c : capture_device) (i : Nat) :
    (stop_capture_v4l1 c).ret = 0 ∧ (stop_capture_v4l1 c).trace = [] ∧
    (stop_capture_v4l1 c).c = c ∧ (stop_capture_v4l1 c).c.mmap.tmp = c.mmap.tmp ∧
    (enqueue_buffer_v4l1 c i).2 = [] ∧ (enqueue_buffer_v4l1 c i).1 = c ∧
    (enqueue_buffer_v4l1 c i).1.mmap.tmp = c.mmap.tmp := by
  unfold stop_capture_v4l1 enqueue_buffer_v4l1
  exact ⟨rfl, rfl, rfl, rfl, rfl, rfl, rfl⟩

/-- C17: in every device state, a call of `dequeue_buffer_v4l1` in which the capture
request or the wait fails leaves the device, the current-frame index included, as it was;
hence a following call issues the same requests as it would have before, and when its
capture request succeeds it waits for the same frame. -/
theorem dequeue_buffer_v4l1_failure_keeps_device (K : Headers) (c : capture_device)
    (want_time want_sequence : Bool) (drv : DequeueDriver)
    (h : drv.mcapture_ret = -1 ∨ drv.sync_ret = -1) :
    (dequeue_buffer_v4l1 K c want_time want_sequence drv).c = c ∧
    (dequeue_buffer_v4l1 K c want_time want_sequence drv).c.mmap.tmp = c.mmap.tmp ∧
    (∀ (wt ws : Bool) (next : DequeueDriver),
      (dequeue_buffer_v4l1 K (dequeue_buffer_v4l1 K c want_time want_sequence drv).c
          wt ws next).trace = (dequeue_buffer_v4l1 K c wt ws next).trace ∧
      (next.mcapture_ret ≠ -1 →
        Request.VIDIOCSYNC (to_uint c.mmap.tmp) ∈
          (dequeue_buffer_v4l1 K (dequeue_buffer_v4l1 K c want_time want_sequence drv).c
            wt ws next).trace)) := by
  have hc : (dequeue_buffer_v4l1 K c want_time want_sequence drv).c = c := by
    unfold dequeue_buffer_v4l1
    by_cases h1 : drv.mcapture_ret = -1
    · simp [h1]
    · have h2 : drv.sync_ret = -1 := by tauto
      simp [h1, h2]
  refine ⟨hc, by rw [hc], ?_⟩
  intro wt ws next
  rw [hc]
  refine ⟨rfl, ?_⟩
  intro hn
  unfold dequeue_buffer_v4l1
  by_cases h2 : next.sync_ret = -1 <;> simp [hn, h2]

/-- C17 at a failing wait with current frame 1: the index stays 1. -/
theorem dequeue_buffer_v4l1_failure_keeps_device_witness :
    (dequeue_buffer_v4l1 demo_headers (demo_streaming 1) true true ⟨0, -1, ⟨10, 20⟩⟩).c =
      demo_streaming 1 ∧
    (dequeue_buffer_v4l1 demo_headers (demo_streaming 1) true true ⟨0, -1, ⟨10, 20⟩⟩).c.mmap.tmp
      = (demo_streaming 1).mmap.tmp :=
  have h := dequeue_buffer_v4l1_failure_keeps_device demo_headers (demo_streaming 1) true true
    ⟨0, -1, ⟨10, 20⟩⟩ (Or.inr (by decide))
  ⟨h.1, h.2.1⟩

/-- C18: a call of `start_capture_v4l1` whose capture request succeeds issues that request
for frame 0, returns LIBVIDEO_ERR_SUCCESS and sets the current-frame index to 0; after it
and k consecutive successful calls of `dequeue_buffer_v4l1`, the next successful call
(the k-th, counting from 0) returns the start of buffer k mod 2 and leaves the index at
(k + 1) mod 2; a successful start after that sets the index to 0 again, so that the next
successful dequeue returns the start of buffer 0. -/
theorem start_then_dequeue_alternates (K : Headers) (c : capture_device)
    (want_time want_sequence : Bool) (s : StartDriver) (ds : List DequeueDriver)
    (d : DequeueDriver) (hs : s.mcapture_ret ≠ -1) (hds : ∀ x ∈ ds, x.succeeds)
    (hd : d.succeeds) :
    (start_capture_v4l1 K c s).ret = K.LIBVIDEO_ERR_SUCCESS ∧
    (start_capture_v4l1 K c s).trace =
      [Request.VIDIOCMCAPTURE
        { frame := 0, width := c.width, height := c.height,
          format := (K.libvideo_palettes c.real_v4l1_palette).v4l1_palette }] ∧
    (start_capture_v4l1 K c s).c.mmap.tmp = 0 ∧
    (dequeue_buffer_v4l1 K
        (dequeue_run K want_time want_sequence (start_capture_v4l1 K c s).c ds)
        want_time want_sequence d).ret =
      (c.mmap.buffers[ds.length % 2]?).map mmap_buffer.start ∧
    (dequeue_buffer_v4l1 K
        (dequeue_run K want_time want_sequence (start_capture_v4l1 K c s).c ds)
        want_time want_sequence d).c.mmap.tmp = (ds.length + 1) % 2 ∧
    (∀ (s2 : StartDriver) (d2 : DequeueDriver), s2.mcapture_ret ≠ -1 → d2.succeeds →
      (start_capture_v4l1 K
          (dequeue_buffer_v4l1 K
            (dequeue_run K want_time want_sequence (start_capture_v4l1 K c s).c ds)
            want_time want_sequence d).c s2).c.mmap.tmp = 0 ∧
      (dequeue_buffer_v4l1 K
          (start_capture_v4l1 K
            (dequeue_buffer_v4l1 K
              (dequeue_run K want_time want_sequence (start_capture_v4l1 K c s).c ds)
              want_time want_sequence d).c s2).c
          want_time want_sequence d2).ret = (c.mmap.buffers[0]?).map mmap_buffer.start) := by
  have hstart : ∀ (x : capture_device) (t : StartDriver), t.mcapture_ret ≠ -1 →
      start_capture_v4l1 K x t =
        ⟨K.LIBVIDEO_ERR_SUCCESS, { x with mmap := { x.mmap with tmp := 0 } },
         [Request.VIDIOCMCAPTURE
           { frame := 0, width := x.width, height := x.height,
             format := (K.libvideo_palettes x.real_v4l1_palette).v4l1_palette }]⟩ := by
    intro x t ht
    simp [start_capture_v4l1, ht]
  have h0 : (start_capture_v4l1 K c s).c.mmap.tmp = 0 := by rw [hstart c s hs]
  have hb0 : (start_capture_v4l1 K c s).c.mmap.buffers = c.mmap.buffers := by rw [hstart c s hs]
  have hrun := dequeue_run_state K want_time want_sequence ds (start_capture_v4l1 K c s).c
    (by rw [h0]; decide) hds
  rw [h0, Nat.zero_add, hb0] at hrun
  have hlt : (dequeue_run K want_time want_sequence (start_capture_v4l1 K c s).c ds).mmap.tmp < 2 := by
    rw [hrun.1]; exact Nat.mod_lt _ (by decide)
  have hk := dequeue_buffer_v4l1_of_succeeds K
    (dequeue_run K want_time want_sequence (start_capture_v4l1 K c s).c ds)
    want_time want_sequence d hd
  have hu : to_uint (dequeue_run K want_time want_sequence (start_capture_v4l1 K c s).c ds).mmap.tmp
      = ds.length % 2 := by
    rw [hrun.1]
    unfold to_uint
    exact Nat.mod_eq_of_lt (by omega)
  refine ⟨by rw [hstart c s hs], by rw [hstart c s hs], h0, ?_, ?_, ?_⟩
  · rw [hk.2, hu, hrun.2]
  · rw [hk.1]
    show to_uint _ ^^^ 1 = _
    rw [xor_one_of_lt_two _ hlt, hrun.1]
    omega
  · intro s2 d2 hs2 hd2
    have hbk : (dequeue_buffer_v4l1 K
        (dequeue_run K want_time want_sequence (start_capture_v4l1 K c s).c ds)
        want_time want_sequence d).c.mmap.buffers = c.mmap.buffers := by
      rw [hk.1]; exact hrun.2
    have hd2r := dequeue_buffer_v4l1_of_succeeds K
      (start_capture_v4l1 K
        (dequeue_buffer_v4l1 K
          (dequeue_run K want_time want_sequence (start_capture_v4l1 K c s).c ds)
          want_time want_sequence d).c s2).c want_time want_sequence d2 hd2
    refine ⟨by rw [hstart _ s2 hs2], ?_⟩
    rw [hd2r.2, hstart _ s2 hs2]
    dsimp only []
    rw [hbk]
    rfl

/-- C18 after a start on a device whose index was 1 and three successful dequeues: the
next successful dequeue (k = 3) returns the start of buffer 1 and leaves the index at 0. -/
theorem start_then_dequeue_alternates_witness :
    (dequeue_buffer_v4l1 demo_headers
        (dequeue_run demo_headers true true
          (start_capture_v4l1 demo_headers (demo_streaming 1) ⟨0⟩).c
          [⟨0, 0, ⟨1, 0⟩⟩, ⟨0, 0, ⟨2, 0⟩⟩, ⟨0, 0, ⟨3, 0⟩⟩])
        true true ⟨0, 0, ⟨4, 0⟩⟩).ret = some 4596 ∧
    (dequeue_buffer_v4l1 demo_headers
        (dequeue_run demo_headers true true
          (start_capture_v4l1 demo_headers (demo_streaming 1) ⟨0⟩).c
          [⟨0, 0, ⟨1, 0⟩⟩, ⟨0, 0, ⟨2, 0⟩⟩, ⟨0, 0, ⟨3, 0⟩⟩])
        true true ⟨0, 0, ⟨4, 0⟩⟩).c.mmap.tmp = 0 :=
  have h := start_then_dequeue_alternates demo_headers (demo_streaming 1) true true ⟨0⟩
    [⟨0, 0, ⟨1, 0⟩⟩, ⟨0, 0, ⟨2, 0⟩⟩, ⟨0, 0, ⟨3, 0⟩⟩] ⟨0, 0, ⟨4, 0⟩⟩ (by decide)
    (by simp [DequeueDriver.succeeds]) ⟨by decide, by decide⟩
  ⟨h.2.2.2.1, h.2.2.2.2.1⟩

/-! ## The native methods -/

/-- C19: whatever the backend's `stop_capture` does and whatever code it returns, negative
codes included, the native method `stop` raises no exception; it hands back the device and
the requests of the backend. -/
theorem stop_raises_nothing (stop_capture : capture_device → Outcome) (c : capture_device) :
    (Java_au_edu_jcu_v4l4j_AbstractGrabber_stop stop_capture c).raised = none ∧
    (Java_au_edu_jcu_v4l4j_AbstractGrabber_stop stop_capture c).ret = none ∧
    (Java_au_edu_jcu_v4l4j_AbstractGrabber_stop stop_capture c).c = (stop_capture c).c ∧
    (Java_au_edu_jcu_v4l4j_AbstractGrabber_stop stop_capture c).trace = (stop_capture c).trace ∧
    (∀ code : Int,
      (Java_au_edu_jcu_v4l4j_AbstractGrabber_stop (fun x => ⟨code, x, []⟩) c).raised = none) := by
  have key : ∀ f : capture_device → Outcome,
      Java_au_edu_jcu_v4l4j_AbstractGrabber_stop f c =
        { ret := none, raised := none, c := (f c).c, trace := (f c).trace } := by
    intro f
    unfold Java_au_edu_jcu_v4l4j_AbstractGrabber_stop
    dsimp only []
    split_ifs <;> rfl
  refine ⟨by rw [key], by rw [key], by rw [key], by rw [key], ?_⟩
  intro code
  rw [key]

/-- C20: in `fillBuffer`, when the dequeue returned a frame but the destination byte array
cannot be obtained, the backend's `enqueue_buffer` is called exactly once, with the
variable that receives the dequeued buffer index (the index itself whenever the dequeue
reports one), GENERIC_EXCP is raised and 0 is returned; when the dequeue returns the null
address, `enqueue_buffer` is not called, GENERIC_EXCP is raised and 0 is returned. -/
theorem fillBuffer_failures (d : v4l4j_device) (dequeue_buffer : capture_device → Dequeued)
    (enqueue_buffer : capture_device → Nat → capture_device × List Request) (env : FillEnv) :
    (∀ frame : Int, (dequeue_buffer d.vdev).ret = some frame → frame ≠ 0 → env.array = none →
      ∃ r, Java_au_edu_jcu_v4l4j_AbstractGrabber_fillBuffer d dequeue_buffer enqueue_buffer env
          = some r ∧
        r.raised = some Excp.GENERIC_EXCP ∧ r.ret = 0 ∧
        r.enqueued = [(dequeue_buffer d.vdev).index.getD env.buffer_index] ∧
        (∀ i, (dequeue_buffer d.vdev).index = some i → r.enqueued = [i]) ∧
        r.trace = (dequeue_buffer d.vdev).trace ++
          (enqueue_buffer (dequeue_buffer d.vdev).c
            ((dequeue_buffer d.vdev).index.getD env.buffer_index)).2) ∧
    ((dequeue_buffer d.vdev).ret = some 0 →
      ∃ r, Java_au_edu_jcu_v4l4j_AbstractGrabber_fillBuffer d dequeue_buffer enqueue_buffer env
          = some r ∧
        r.raised = some Excp.GENERIC_EXCP ∧ r.ret = 0 ∧ r.enqueued = [] ∧
        r.trace = (dequeue_buffer d.vdev).trace) := by
  constructor
  · intro frame hdq hframe harr
    simp only [Java_au_edu_jcu_v4l4j_AbstractGrabber_fillBuffer, hdq, harr, if_neg hframe]
    refine ⟨_, rfl, rfl, rfl, rfl, ?_, rfl⟩
    intro i hi
    simp [hi]
  · intro hdq
    simp only [Java_au_edu_jcu_v4l4j_AbstractGrabber_fillBuffer, hdq, if_pos]
    exact ⟨_, rfl, rfl, rfl, rfl, rfl⟩

/-- C20 with a backend that dequeued buffer 1 and a destination that cannot be obtained
(one enqueue, of index 1), and with the legacy backend when the wait fails (no enqueue). -/
theorem fillBuffer_failures_witness :
    (∃ r, Java_au_edu_jcu_v4l4j_AbstractGrabber_fillBuffer (demo_v4l4j 640 480 0) demo_dequeue
          enqueue_buffer_v4l1 (demo_env none) = some r ∧
        r.raised = some Excp.GENERIC_EXCP ∧ r.ret = 0 ∧ r.enqueued = [1]) ∧
    (∃ r, Java_au_edu_jcu_v4l4j_AbstractGrabber_fillBuffer (demo_v4l4j 640 480 0)
          (fun c => dequeue_buffer_v4l1 demo_headers c true true ⟨0, -1, ⟨10, 20⟩⟩)
          enqueue_buffer_v4l1 (demo_env none) = some r ∧
        r.raised = some Excp.GENERIC_EXCP ∧ r.ret = 0 ∧ r.enqueued = []) :=
  ⟨(((fillBuffer_failures (demo_v4l4j 640 480 0) demo_dequeue enqueue_buffer_v4l1
        (demo_env none)).1 4596 rfl (by decide) rfl).imp
      fun _ h => ⟨h.1, h.2.1, h.2.2.1, h.2.2.2.2.1 1 rfl⟩),
   (((fillBuffer_failures (demo_v4l4j 640 480 0)
        (fun c => dequeue_buffer_v4l1 demo_headers c true true ⟨0, -1, ⟨10, 20⟩⟩)
        enqueue_buffer_v4l1 (demo_env none)).2 (by decide)).imp
      fun _ h => ⟨h.1, h.2.1, h.2.2.1, h.2.2.2.1⟩)⟩

/-- C12: when the capture is native and no conversion is needed, a call of `fillBuffer`
in which the dequeue returns a frame of capture_len bytes and the destination is obtained
and holds at least capture_len bytes (a Java array, of fewer than 2^31 bytes) raises
nothing, returns capture_len and leaves in the destination the first capture_len bytes of
the frame, followed by what the destination held beyond them. -/
theorem fillBuffer_native_copy (d : v4l4j_device) (dequeue_buffer : capture_device → Dequeued)
    (enqueue_buffer : capture_device → Nat → capture_device × List Request) (env : FillEnv)
    (frame : Int) (array : List Nat)
    (hdq : (dequeue_buffer d.vdev).ret = some frame) (hframe : frame ≠ 0)
    (harr : env.array = some array)
    (hnative : (dequeue_buffer d.vdev).c.is_native = true) (hconv : d.need_conv = false)
    (hsrc : (dequeue_buffer d.vdev).len ≤ env.frame.length)
    (hdst : (dequeue_buffer d.vdev).len ≤ array.length) (hjava : array.length < 2 ^ 31) :
    ∃ r out, Java_au_edu_jcu_v4l4j_AbstractGrabber_fillBuffer d dequeue_buffer enqueue_buffer env
        = some r ∧
      r.raised = none ∧ r.d.capture_len = (dequeue_buffer d.vdev).len ∧
      r.ret = ((dequeue_buffer d.vdev).len : Int) ∧
      r.array = some out ∧ out.length = array.length ∧
      out.take (dequeue_buffer d.vdev).len = env.frame.take (dequeue_buffer d.vdev).len ∧
      out.drop (dequeue_buffer d.vdev).len = array.drop (dequeue_buffer d.vdev).len ∧
      r.enqueued = [] := by
  have hlen : (env.frame.take (dequeue_buffer d.vdev).len).length = (dequeue_buffer d.vdev).len :=
    List.length_take_of_le hsrc
  have e : Java_au_edu_jcu_v4l4j_AbstractGrabber_fillBuffer d dequeue_buffer enqueue_buffer env =
      some { ret := to_int (dequeue_buffer d.vdev).len, raised := none,
             array := some (env.frame.take (dequeue_buffer d.vdev).len ++
               array.drop (dequeue_buffer d.vdev).len),
             enqueued := [],
             lastCapturedFrameSequence :=
               some (to_int64 ((dequeue_buffer d.vdev).sequence.getD env.sequence)),
             lastCapturedFrameTimeuSec :=
               some (capture_usec ((dequeue_buffer d.vdev).capture_time.getD env.captureTime)),
             lastCapturedFrameBufferIndex :=
               some (to_int ((dequeue_buffer d.vdev).index.getD env.buffer_index)),
             d := { d with vdev := (dequeue_buffer d.vdev).c,
                           capture_len := (dequeue_buffer d.vdev).len },
             trace := (dequeue_buffer d.vdev).trace } := by
    simp [Java_au_edu_jcu_v4l4j_AbstractGrabber_fillBuffer, hdq, hframe, harr, fill_convert,
      hnative, hconv, memcpy, hsrc, hdst]
  refine ⟨_, _, e, rfl, rfl, to_int_small (dequeue_buffer d.vdev).len (by omega), rfl,
    ?_, ?_, ?_, rfl⟩
  · rw [List.length_append, hlen, List.length_drop]
    omega
  · rw [List.take_append_of_le_length (by omega), List.take_of_length_le (by omega)]
  · rw [List.drop_append_of_le_length (by omega), List.drop_of_length_le (by omega),
      List.nil_append]

/-- C12 with a frame of four bytes and a destination of six: the destination receives the
four bytes, keeps its last two, and 4 is returned. -/
theorem fillBuffer_native_copy_witness :
    ∃ r out, Java_au_edu_jcu_v4l4j_AbstractGrabber_fillBuffer (demo_v4l4j 640 480 0)
        demo_dequeue enqueue_buffer_v4l1 (demo_env (some [9, 9, 9, 9, 9, 9])) = some r ∧
      r.raised = none ∧ r.d.capture_len = 4 ∧ r.ret = 4 ∧ r.array = some out ∧
      out.length = 6 ∧ out.take 4 = [1, 2, 3, 4] ∧ out.drop 4 = [9, 9] ∧ r.enqueued = [] :=
  fillBuffer_native_copy (demo_v4l4j 640 480 0) demo_dequeue enqueue_buffer_v4l1
    (demo_env (some [9, 9, 9, 9, 9, 9])) 4596 [9, 9, 9, 9, 9, 9] rfl (by decide) rfl rfl rfl
    (by decide) (by decide) (by decide)

/-! ## Clipping and the conversion from RGB to YUV -/

/-- C27: for every integer x, `CLIP256` gives 0 when x < 0, 255 when x > 255 and x itself
otherwise; hence it is monotone, idempotent and the identity on 0..255. -/
theorem CLIP256_clips (x : Int) :
    (x < 0 → CLIP256 x = 0) ∧ (x > 255 → CLIP256 x = 255) ∧
    (0 ≤ x → x ≤ 255 → ((CLIP256 x : Nat) : Int) = x) ∧
    (∀ y : Int, x ≤ y → CLIP256 x ≤ CLIP256 y) ∧
    CLIP256 ((CLIP256 x : Nat) : Int) = CLIP256 x ∧ CLIP256 x ≤ 255 := by
  have hx := CLIP256_eq x
  refine ⟨?_, ?_, ?_, ?_, ?_, ?_⟩
  · intro h
    split_ifs at hx <;> omega
  · intro h
    rw [if_pos h] at hx
    omega
  · intro h0 h1
    split_ifs at hx <;> omega
  · intro y hy
    have hy2 := CLIP256_eq y
    split_ifs at hx <;> split_ifs at hy2 <;> omega
  · have h2 := CLIP256_eq ((CLIP256 x : Nat) : Int)
    split_ifs at hx <;> split_ifs at h2 <;> omega
  · split_ifs at hx <;> omega

/-- C27 at -5, 300 and 77. -/
theorem CLIP256_clips_witness : CLIP256 (-5) = 0 ∧ CLIP256 300 = 255 ∧
    ((CLIP256 77 : Nat) : Int) = 77 ∧ CLIP256 (-5) ≤ CLIP256 300 :=
  ⟨(CLIP256_clips (-5)).1 (by decide), (CLIP256_clips 300).2.1 (by decide),
   (CLIP256_clips 77).2.2.1 (by decide) (by decide),
   (CLIP256_clips (-5)).2.2.2.1 300 (by decide)⟩

/-- In a build that does not define `CONVERSION_QUALITY`, or defines it as 3, the macros in
effect are the `float` expressions of lines 94-96, which add no offset: black gives
Y = U = V = 0. -/
theorem RGB2YUV_full_float_black :
    conversion_quality none = 3 ∧ conversion_quality (some 3) = 3 ∧
    RGB2Y none 0 0 0 = 0 ∧ RGB2U none 0 0 0 = 0 ∧ RGB2V none 0 0 0 = 0 := by
  simp [RGB2Y, RGB2U, RGB2V, conversion_quality, RGB2Y_float, RGB2U_float, RGB2V_float,
    to_float_zero, float_to_int]

/-- C30: in a build that defines `CONVERSION_QUALITY` as 0, 1 or 2, where the integer
macros of lines 46-48 (67-69) are the ones in effect, for all r, g, b in 0..255 the value
that each macro shifts right by 15 already lies in the range of a byte, so that the cast to
`u8` leaves it as it is: `RGB2Y` is that value and lies in 16..235, `RGB2U` and `RGB2V` are
that value and lie in 16..240; for r = g = b both `RGB2U` and `RGB2V` are 128. -/
theorem RGB2YUV_fit_a_byte (defined : Option Int)
    (hq : defined = some 0 ∨ defined = some 1 ∨ defined = some 2)
    (r g b : Int) (hr : 0 ≤ r ∧ r ≤ 255) (hg : 0 ≤ g ∧ g ≤ 255) (hb : 0 ≤ b ∧ b ≤ 255) :
    (RGB2Y defined r g b = (8453 * r + 16594 * g + 3223 * b + 524288) / 32768 ∧
      16 ≤ RGB2Y defined r g b ∧ RGB2Y defined r g b ≤ 235) ∧
    (RGB2U defined r g b = (-4878 * r - 9578 * g + 14456 * b + 4210688) / 32768 ∧
      16 ≤ RGB2U defined r g b ∧ RGB2U defined r g b ≤ 240) ∧
    (RGB2V defined r g b = (14456 * r - 12105 * g - 2351 * b + 4210688) / 32768 ∧
      16 ≤ RGB2V defined r g b ∧ RGB2V defined r g b ≤ 240) ∧
    (r = g → g = b → RGB2U defined r g b = 128 ∧ RGB2V defined r g b = 128) := by
  have hq3 := conversion_quality_integer defined hq
  have hy : 16 ≤ (8453 * r + 16594 * g + 3223 * b + 524288) / 32768 ∧
      (8453 * r + 16594 * g + 3223 * b + 524288) / 32768 ≤ 235 := by omega
  have hu : 16 ≤ (-4878 * r - 9578 * g + 14456 * b + 4210688) / 32768 ∧
      (-4878 * r - 9578 * g + 14456 * b + 4210688) / 32768 ≤ 240 := by omega
  have hv : 16 ≤ (14456 * r - 12105 * g - 2351 * b + 4210688) / 32768 ∧
      (14456 * r - 12105 * g - 2351 * b + 4210688) / 32768 ≤ 240 := by omega
  have ey : RGB2Y defined r g b = (8453 * r + 16594 * g + 3223 * b + 524288) / 32768 := by
    unfold RGB2Y RGB2Y_integer
    rw [if_neg hq3, shiftRight_15]
    exact u8_of_byte _ (by omega) (by omega)
  have eu : RGB2U defined r g b = (-4878 * r - 9578 * g + 14456 * b + 4210688) / 32768 := by
    unfold RGB2U RGB2U_integer
    rw [if_neg hq3, shiftRight_15]
    exact u8_of_byte _ (by omega) (by omega)
  have ev : RGB2V defined r g b = (14456 * r - 12105 * g - 2351 * b + 4210688) / 32768 := by
    unfold RGB2V RGB2V_integer
    rw [if_neg hq3, shiftRight_15]
    exact u8_of_byte _ (by omega) (by omega)
  refine ⟨⟨ey, by omega, by omega⟩, ⟨eu, by omega, by omega⟩, ⟨ev, by omega, by omega⟩, ?_⟩
  intro h1 h2
  subst h1
  subst h2
  constructor <;> omega

/-- C30 in a build of quality 1, at white, at pure blue and at a grey: Y is at most 235 for
white, U at most 240 for blue, and U = V = 128 for the grey (90, 90, 90). -/
theorem RGB2YUV_fit_a_byte_witness :
    RGB2Y (some 1) 255 255 255 ≤ 235 ∧ RGB2U (some 1) 0 0 255 ≤ 240 ∧
    RGB2U (some 1) 90 90 90 = 128 ∧ RGB2V (some 1) 90 90 90 = 128 :=
  ⟨(RGB2YUV_fit_a_byte (some 1) (Or.inr (Or.inl rfl)) 255 255 255 (by decide) (by decide)
      (by decide)).1.2.2,
   (RGB2YUV_fit_a_byte (some 1) (Or.inr (Or.inl rfl)) 0 0 255 (by decide) (by decide)
      (by decide)).2.1.2.2,
   ((RGB2YUV_fit_a_byte (some 1) (Or.inr (Or.inl rfl)) 90 90 90 (by decide) (by decide)
      (by decide)).2.2.2 rfl rfl).1,
   ((RGB2YUV_fit_a_byte (some 1) (Or.inr (Or.inl rfl)) 90 90 90 (by decide) (by decide)
      (by decide)).2.2.2 rfl rfl).2⟩

/-! ## The palette table -/

/-- C24: for every pixel-format code f, when some entry of the palette table has code f,
`find_v4l2_palette` returns the least index whose entry has code f; when no entry has
code f it returns UNSUPPORTED_PALETTE; and, UNSUPPORTED_PALETTE being no index of the
table, it returns UNSUPPORTED_PALETTE exactly when no entry has code f.  The function is
defined for every table. -/
theorem find_v4l2_palette_least (Q : QueryHeaders) (f : Int) :
    (f ∈ Q.libv4l_palettes →
      ∃ i : Nat, find_v4l2_palette Q f = (i : Int) ∧ Q.libv4l_palettes[i]? = some f ∧
        ∀ j, j < i → Q.libv4l_palettes[j]? ≠ some f) ∧
    (f ∉ Q.libv4l_palettes → find_v4l2_palette Q f = Q.UNSUPPORTED_PALETTE) ∧
    ((Q.UNSUPPORTED_PALETTE < 0 ∨ (Q.libv4l_palettes.length : Int) ≤ Q.UNSUPPORTED_PALETTE) →
      (find_v4l2_palette Q f = Q.UNSUPPORTED_PALETTE ↔ f ∉ Q.libv4l_palettes)) := by
  have hin : f ∈ Q.libv4l_palettes →
      ∃ i : Nat, find_v4l2_palette Q f = (i : Int) ∧ Q.libv4l_palettes[i]? = some f ∧
        ∀ j, j < i → Q.libv4l_palettes[j]? ≠ some f := by
    intro hmem
    cases hfind : find_v4l2_palette_from f Q.libv4l_palettes 0 with
    | none => exact absurd hmem ((find_v4l2_palette_from_none f _ 0).1 hfind)
    | some k =>
      obtain ⟨_, h2, h3⟩ := find_v4l2_palette_from_some f _ 0 k hfind
      exact ⟨k, by simp [find_v4l2_palette, hfind], h2, h3⟩
  have hout : f ∉ Q.libv4l_palettes → find_v4l2_palette Q f = Q.UNSUPPORTED_PALETTE := by
    intro hmem
    have hfind := (find_v4l2_palette_from_none f Q.libv4l_palettes 0).2 hmem
    simp [find_v4l2_palette, hfind]
  refine ⟨hin, hout, ?_⟩
  intro hU
  constructor
  · intro hret hmem
    obtain ⟨i, hi, hget, _⟩ := hin hmem
    have hlt : i < Q.libv4l_palettes.length := by
      by_contra hge
      rw [List.getElem?_eq_none (by omega)] at hget
      exact absurd hget (by simp)
    rw [hret] at hi
    omega
  · exact hout

/-- C24 on the sample table with codes 100, 200, 300: code 200 is found at index 1 and code
999 gives UNSUPPORTED_PALETTE. -/
theorem find_v4l2_palette_least_witness :
    (∃ i : Nat, find_v4l2_palette demo_query 200 = (i : Int) ∧
      demo_query.libv4l_palettes[i]? = some 200 ∧
      ∀ j, j < i → demo_query.libv4l_palettes[j]? ≠ some 200) ∧
    find_v4l2_palette demo_query 200 = 1 ∧
    find_v4l2_palette demo_query 999 = -1 ∧
    (find_v4l2_palette demo_query 999 = demo_query.UNSUPPORTED_PALETTE ↔
      (999 : Int) ∉ demo_query.libv4l_palettes) :=
  ⟨(find_v4l2_palette_least demo_query 200).1 (by decide), by decide,
   (find_v4l2_palette_least demo_query 999).2.1 (by decide),
   (find_v4l2_palette_least demo_query 999).2.2 (Or.inl (by decide))⟩

/-! ## The choice of formats and the controls -/

/-- C23: for every input palette p, `init_capture_format` returns 0 and sets the
destination palette to RGB24, BGR24, YUV420 or YVU420 for the output format of that name,
leaving the source palette p, and sets the destination to p and the source to -1 for raw
and JPEG output; it sets `need_conv` for JPEG output and clears it for the other five; for
every other output format it returns -1 and leaves source, destination and device as they
were. -/
theorem init_capture_format_choice (K : Headers) (J : Common) (hJ : J.outputs_distinct)
    (d : v4l4j_device) (fg_out_fmt p dest_fmt : Int) :
    (fg_out_fmt = J.OUTPUT_RGB24 → init_capture_format K J d fg_out_fmt p dest_fmt =
      ⟨0, { d with need_conv := false }, p, K.RGB24⟩) ∧
    (fg_out_fmt = J.OUTPUT_BGR24 → init_capture_format K J d fg_out_fmt p dest_fmt =
      ⟨0, { d with need_conv := false }, p, K.BGR24⟩) ∧
    (fg_out_fmt = J.OUTPUT_YUV420 → init_capture_format K J d fg_out_fmt p dest_fmt =
      ⟨0, { d with need_conv := false }, p, K.YUV420⟩) ∧
    (fg_out_fmt = J.OUTPUT_YVU420 → init_capture_format K J d fg_out_fmt p dest_fmt =
      ⟨0, { d with need_conv := false }, p, K.YVU420⟩) ∧
    (fg_out_fmt = J.OUTPUT_RAW → init_capture_format K J d fg_out_fmt p dest_fmt =
      ⟨0, { d with need_conv := false }, -1, p⟩) ∧
    (fg_out_fmt = J.OUTPUT_JPG → init_capture_format K J d fg_out_fmt p dest_fmt =
      ⟨0, { d with need_conv := true }, -1, p⟩) ∧
    (fg_out_fmt ≠ J.OUTPUT_RAW → fg_out_fmt ≠ J.OUTPUT_JPG → fg_out_fmt ≠ J.OUTPUT_RGB24 →
      fg_out_fmt ≠ J.OUTPUT_BGR24 → fg_out_fmt ≠ J.OUTPUT_YUV420 →
      fg_out_fmt ≠ J.OUTPUT_YVU420 →
      init_capture_format K J d fg_out_fmt p dest_fmt = ⟨-1, d, p, dest_fmt⟩) := by
  simp only [Common.outputs_distinct, List.nodup_cons, List.mem_cons, List.mem_singleton,
    not_or, List.not_mem_nil, not_false_eq_true, List.nodup_nil, and_true] at hJ
  obtain ⟨⟨a1, a2, a3, a4, a5⟩, ⟨b1, b2, b3, b4⟩, ⟨c1, c2, c3⟩, ⟨d1, d2⟩, e1⟩ := hJ
  have a1s := Ne.symm a1
  have a2s := Ne.symm a2
  have a3s := Ne.symm a3
  have a4s := Ne.symm a4
  have a5s := Ne.symm a5
  have b1s := Ne.symm b1
  have b2s := Ne.symm b2
  have b3s := Ne.symm b3
  have b4s := Ne.symm b4
  have c1s := Ne.symm c1
  have c2s := Ne.symm c2
  have c3s := Ne.symm c3
  have d1s := Ne.symm d1
  have d2s := Ne.symm d2
  have e1s := Ne.symm e1
  refine ⟨?_, ?_, ?_, ?_, ?_, ?_, ?_⟩
  · intro h
    simp [init_capture_format, h, b1s]
  · intro h
    simp [init_capture_format, h, b2s, c1s, a3s]
  · intro h
    simp [init_capture_format, h, b3s, c2s, a4s, d1s]
  · intro h
    simp [init_capture_format, h, b4s, c3s, a5s, d2s, e1s]
  · intro h
    simp [init_capture_format, h, a1, a2]
  · intro h
    simp [init_capture_format, h]
  · intro h1 h2 h3 h4 h5 h6
    simp [init_capture_format, h1, h2, h3, h4, h5, h6]

/-- C23 with input palette 4: RGB24 output keeps source 4 and sets destination RGB24;
JPEG output gives destination 4, source -1 and sets `need_conv`; output format 99 is
refused. -/
theorem init_capture_format_choice_witness :
    init_capture_format demo_headers demo_common (demo_v4l4j 640 480 0)
        demo_common.OUTPUT_RGB24 4 0 = ⟨0, demo_v4l4j 640 480 0, 4, 6⟩ ∧
    init_capture_format demo_headers demo_common (demo_v4l4j 640 480 0)
        demo_common.OUTPUT_JPG 4 0 =
      ⟨0, { demo_v4l4j 640 480 0 with need_conv := true }, -1, 4⟩ ∧
    init_capture_format demo_headers demo_common (demo_v4l4j 640 480 0) 99 4 0 =
      ⟨-1, demo_v4l4j 640 480 0, 4, 0⟩ :=
  have h := fun fmt => init_capture_format_choice demo_headers demo_common
    (by unfold Common.outputs_distinct; decide) (demo_v4l4j 640 480 0) fmt 4 0
  ⟨(h demo_common.OUTPUT_RGB24).1 rfl, (h demo_common.OUTPUT_JPG).2.2.2.2.2.1 rfl,
   (h 99).2.2.2.2.2.2 (by decide) (by decide) (by decide) (by decide) (by decide) (by decide)⟩

/-- C26: for every capacity max of the array of controls, `create_v4l1_controls` returns
min(max, 4), which never exceeds `count_v4l1_controls` = 4; it leaves every entry from
index min(max, 4) on as it was and writes into the entries below, in this order,
Brightness, Hue, Saturation and Contrast, each an integer control with minimum 0, maximum
65535, step 1, default 32768 and flags 0. -/
theorem create_v4l1_controls_count (V : ControlHeaders) (controls : List v4l2_queryctrl)
    (max : Nat) (hcap : max ≤ controls.length) :
    ∃ out, create_v4l1_controls V controls max = some (min max 4, out) ∧
      min max 4 ≤ count_v4l1_controls ∧ count_v4l1_controls = 4 ∧
      out.length = controls.length ∧
      (∀ i, min max 4 ≤ i → out[i]? = controls[i]?) ∧
      (0 < max → out[0]? = some (fake_control V V.V4L2_CID_BRIGHTNESS "Brightness")) ∧
      (1 < max → out[1]? = some (fake_control V V.V4L2_CID_HUE "Hue")) ∧
      (2 < max → out[2]? = some (fake_control V V.V4L2_CID_SATURATION "Saturation")) ∧
      (3 < max → out[3]? = some (fake_control V V.V4L2_CID_CONTRAST "Contrast")) ∧
      (∀ id name, fake_control V id name =
        { id := id, type := V.V4L2_CTRL_TYPE_INTEGER, name := name, minimum := 0,
          maximum := 65535, step := 1, default_value := 32768, flags := 0 }) := by
  have hcount : count_v4l1_controls = 4 := rfl
  by_cases h0 : max ≤ 0
  · have hm : min max 4 = 0 := by omega
    refine ⟨controls, by simp [create_v4l1_controls, h0, hm], by omega, hcount, rfl,
      fun _ _ => rfl, by omega, by omega, by omega, by omega, fun _ _ => rfl⟩
  by_cases h1 : max ≤ 1
  · have hm : min max 4 = 1 := by omega
    have l0 : 0 < controls.length := by omega
    refine ⟨_, by simp [create_v4l1_controls, write_control, h0, h1, l0, hm]; rfl, by omega,
      hcount, ?_, ?_, ?_, by omega, by omega, by omega, fun _ _ => rfl⟩
    · simp
    · intro i hi
      rw [List.getElem?_set_ne (by omega)]
    · intro _
      simp [l0]
  by_cases h2 : max ≤ 2
  · have hm : min max 4 = 2 := by omega
    have l0 : 0 < controls.length := by omega
    have l1 : 1 < controls.length := by omega
    refine ⟨_, by simp [create_v4l1_controls, write_control, h0, h1, h2, l0, l1, hm]; rfl,
      by omega, hcount, ?_, ?_, ?_, ?_, by omega, by omega, fun _ _ => rfl⟩
    · simp
    · intro i hi
      rw [List.getElem?_set_ne (by omega), List.getElem?_set_ne (by omega)]
    · intro _
      simp [l0]
    · intro _
      simp [l1]
  by_cases h3 : max ≤ 3
  · have hm : min max 4 = 3 := by omega
    have l0 : 0 < controls.length := by omega
    have l1 : 1 < controls.length := by omega
    have l2 : 2 < controls.length := by omega
    refine ⟨_, by simp [create_v4l1_controls, write_control, h0, h1, h2, h3, l0, l1, l2, hm]; rfl,
      by omega, hcount, ?_, ?_, ?_, ?_, ?_, by omega, fun _ _ => rfl⟩
    · simp
    · intro i hi
      rw [List.getElem?_set_ne (by omega), List.getElem?_set_ne (by omega),
        List.getElem?_set_ne (by omega)]
    · intro _
      simp [l0]
    · intro _
      simp [l1]
    · intro _
      simp [l2]
  · have hm : min max 4 = 4 := by omega
    have l0 : 0 < controls.length := by omega
    have l1 : 1 < controls.length := by omega
    have l2 : 2 < controls.length := by omega
    have l3 : 3 < controls.length := by omega
    refine ⟨_, by simp [create_v4l1_controls, write_control, h0, h1, h2, h3, l0, l1, l2, l3, hm]; rfl,
      by omega, hcount, ?_, ?_, ?_, ?_, ?_, ?_, fun _ _ => rfl⟩
    · simp
    · intro i hi
      rw [List.getElem?_set_ne (by omega), List.getElem?_set_ne (by omega),
        List.getElem?_set_ne (by omega), List.getElem?_set_ne (by omega)]
    · intro _
      simp [l0]
    · intro _
      simp [l1]
    · intro _
      simp [l2]
    · intro _
      simp [l3]

/-- C26 with capacity 2 and with capacity 6: two controls, Brightness and Hue, are created
in the first case, and four in the second, whose last two entries stay as they were. -/
theorem create_v4l1_controls_count_witness :
    (∃ out, create_v4l1_controls demo_control_headers [demo_blank_control, demo_blank_control]
        2 = some (2, out) ∧
      out[1]? = some (fake_control demo_control_headers 9963779 "Hue")) ∧
    (∃ out, create_v4l1_controls demo_control_headers (List.replicate 6 demo_blank_control)
        6 = some (4, out) ∧ out[5]? = some demo_blank_control) :=
  ⟨(create_v4l1_controls_count demo_control_headers [demo_blank_control, demo_blank_control] 2
      (by decide)).imp fun _ h => ⟨h.1, h.2.2.2.2.2.2.1 (by decide)⟩,
   (create_v4l1_controls_count demo_control_headers (List.replicate 6 demo_blank_control) 6
      (by decide)).imp fun _ h => ⟨h.1, h.2.2.2.2.1 5 (by decide)⟩⟩

/-! ## The current-frame index stays in the pool -/

/-- C28: after a call of `init_capture_v4l1` that returns 0, and then any sequence of
start, dequeue, enqueue and stop calls on the legacy backend, whatever the driver answers
in each of them, the current-frame index is 0 or 1 and the pool holds two buffers, so that
the buffer a further dequeue indexes is one of the pool. -/
theorem current_frame_stays_in_pool (K : Headers) (hK : K.init_errors_nonzero)
    (c : capture_device) (drv : InitDriver) (h : (init_capture_v4l1 K c drv).ret = 0)
    (calls : List Call) :
    ((run_calls K (init_capture_v4l1 K c drv).c calls).mmap.tmp = 0 ∨
      (run_calls K (init_capture_v4l1 K c drv).c calls).mmap.tmp = 1) ∧
    (run_calls K (init_capture_v4l1 K c drv).c calls).mmap.buffers.length = 2 ∧
    ∃ b, (run_calls K (init_capture_v4l1 K c drv).c calls).mmap.buffers[
      to_uint (run_calls K (init_capture_v4l1 K c drv).c calls).mmap.tmp]? = some b := by
  obtain ⟨h1, h2, h3⟩ := init_capture_v4l1_of_ret_zero K hK c drv h
  have hp := init_capture_v4l1_pool K c drv h1 h2 h3
  have hinv := run_calls_keeps_index_in_pool K calls (init_capture_v4l1 K c drv).c
    (by rw [hp]; exact ⟨Nat.zero_lt_two, rfl⟩)
  refine ⟨by omega, hinv.2, ?_⟩
  have hu : to_uint (run_calls K (init_capture_v4l1 K c drv).c calls).mmap.tmp < 2 := by
    unfold to_uint
    omega
  have hlt : to_uint (run_calls K (init_capture_v4l1 K c drv).c calls).mmap.tmp <
      (run_calls K (init_capture_v4l1 K c drv).c calls).mmap.buffers.length := by
    rw [hinv.2]; exact hu
  exact ⟨_, List.getElem?_eq_getElem hlt⟩

/-- C28 after an initialisation and the calls start, a failing dequeue, a successful
dequeue, enqueue, stop and a failing start: the index is 0 or 1. -/
theorem current_frame_stays_in_pool_witness :
    (run_calls demo_headers
        (init_capture_v4l1 demo_headers demo_device ⟨0, ⟨1000, 2, [0, 500]⟩, 4096⟩).c
        [Call.start ⟨0⟩, Call.dequeue true true ⟨0, -1, ⟨1, 0⟩⟩,
         Call.dequeue true true ⟨0, 0, ⟨2, 0⟩⟩, Call.enqueue 0, Call.stop,
         Call.start ⟨-1⟩]).mmap.tmp = 0 ∨
    (run_calls demo_headers
        (init_capture_v4l1 demo_headers demo_device ⟨0, ⟨1000, 2, [0, 500]⟩, 4096⟩).c
        [Call.start ⟨0⟩, Call.dequeue true true ⟨0, -1, ⟨1, 0⟩⟩,
         Call.dequeue true true ⟨0, 0, ⟨2, 0⟩⟩, Call.enqueue 0, Call.stop,
         Call.start ⟨-1⟩]).mmap.tmp = 1 :=
  (current_frame_stays_in_pool demo_headers ⟨by decide, by decide, by decide⟩ demo_device
    ⟨0, ⟨1000, 2, [0, 500]⟩, 4096⟩ (by decide)
    [Call.start ⟨0⟩, Call.dequeue true true ⟨0, -1, ⟨1, 0⟩⟩,
     Call.dequeue true true ⟨0, 0, ⟨2, 0⟩⟩, Call.enqueue 0, Call.stop, Call.start ⟨-1⟩]).1

/-! ## What the native methods hand to the Java side -/

/-- C25, as the code has it for a driver that enumerates the pixel formats 100, 999 and
300, of which 999 is unknown to the palette table: `check_palettes_v4l2` returns 3 while
the palette list it leaves holds 2 entries, and `query_device_v4l2` succeeds and stores 3
as the palette count next to that list of 2. -/
theorem check_palettes_v4l2_counts_unknown_formats :
    check_palettes_v4l2 demo_query demo_query_env ⟨0, []⟩ [100, 999, 300] =
      some (3, ⟨2, [⟨0, -1⟩, ⟨2, -1⟩]⟩) ∧
    query_device_v4l2 demo_query demo_query_env ⟨0, []⟩ 0 0 [100, 999, 300] =
      some (0, ⟨3, [⟨0, -1⟩, ⟨2, -1⟩]⟩) ∧
    (3 : Int) ≠ (([⟨0, -1⟩, ⟨2, -1⟩] : List palette_info).length : Int) := by
  decide

/-- C29, as the code has it on the legacy backend: `set_video_input_std_v4l1` returns the
non-zero code LIBVIDEO_ERR_IOCTL, for which `doSetVideoInputNStandard` raises nothing,
while `doSetFrameIntv` raises the not-supported exception for the same code returned by
`set_frame_intv_v4l1`. -/
theorem doSetVideoInputNStandard_raises_nothing :
    (set_video_input_std_v4l1 demo_headers demo_device 1 2).ret =
      demo_headers.LIBVIDEO_ERR_IOCTL ∧
    demo_headers.LIBVIDEO_ERR_IOCTL ≠ 0 ∧
    (Java_au_edu_jcu_v4l4j_AbstractGrabber_doSetVideoInputNStandard demo_headers
        (set_video_input_std_v4l1 demo_headers) demo_device 1 2).raised = none ∧
    (Java_au_edu_jcu_v4l4j_AbstractGrabber_doSetFrameIntv demo_headers
        (set_frame_intv_v4l1 demo_headers) demo_device 1 25).raised =
      some Excp.UNSUPPORTED_METH_EXCP := by
  decide

/-! ## Initialisation through the binding layer -/

/-- C22: in `doInit`, once the capture device exists and the output format is known, a
non-zero code from the backend's `set_cap_param` and a negative code from its
`init_capture` each make the call raise an exception, return 0 and free the capture
device; for `set_cap_param` the exception is the one `cap_param_excp` gives, which is the
dimension, channel, format and standard exception for LIBVIDEO_ERR_DIMENSIONS,
LIBVIDEO_ERR_CHAN_SETUP, LIBVIDEO_ERR_FORMAT and LIBVIDEO_ERR_STD and the generic exception
for every other code, and for `init_capture` it is the generic exception. A call that
returns a non-zero value, or raises nothing, is one in which every step passed, and when
every step passed the value returned is the buffer count of the device. -/
theorem doInit_surfaces_failures (K : Headers) (J : Common) (d : v4l4j_device)
    (set_cap_param : capture_device → Int → Int → Outcome)
    (init_capture : capture_device → Outcome)
    (free_capture : capture_device → capture_device × List Request)
    (env : InitEnv) (num_buffers w h ch std in_fmt fg_out_fmt : Int) :
    (∀ c, (env.field_ids_known = true ∨ env.field_ids_found = true) →
      env.init_capture_device w h ch std num_buffers = some c →
      (doInit_format K J d env in_fmt fg_out_fmt c).ret ≠ -1 →
      ((doInit_set_cap_param K J d set_cap_param env in_fmt fg_out_fmt c).ret ≠ 0 →
        (Java_au_edu_jcu_v4l4j_AbstractGrabber_doInit K J d set_cap_param init_capture
          free_capture env num_buffers w h ch std in_fmt fg_out_fmt).raised =
          some (cap_param_excp K
            (doInit_set_cap_param K J d set_cap_param env in_fmt fg_out_fmt c).ret) ∧
        (Java_au_edu_jcu_v4l4j_AbstractGrabber_doInit K J d set_cap_param init_capture
          free_capture env num_buffers w h ch std in_fmt fg_out_fmt).ret = 0 ∧
        (Java_au_edu_jcu_v4l4j_AbstractGrabber_doInit K J d set_cap_param init_capture
          free_capture env num_buffers w h ch std in_fmt fg_out_fmt).freed = true) ∧
      ((doInit_set_cap_param K J d set_cap_param env in_fmt fg_out_fmt c).ret = 0 →
        (init_capture
          (doInit_set_cap_param K J d set_cap_param env in_fmt fg_out_fmt c).c).ret < 0 →
        (Java_au_edu_jcu_v4l4j_AbstractGrabber_doInit K J d set_cap_param init_capture
          free_capture env num_buffers w h ch std in_fmt fg_out_fmt).raised =
          some Excp.GENERIC_EXCP ∧
        (Java_au_edu_jcu_v4l4j_AbstractGrabber_doInit K J d set_cap_param init_capture
          free_capture env num_buffers w h ch std in_fmt fg_out_fmt).ret = 0 ∧
        (Java_au_edu_jcu_v4l4j_AbstractGrabber_doInit K J d set_cap_param init_capture
          free_capture env num_buffers w h ch std in_fmt fg_out_fmt).freed = true)) ∧
    ([K.LIBVIDEO_ERR_DIMENSIONS, K.LIBVIDEO_ERR_CHAN_SETUP, K.LIBVIDEO_ERR_FORMAT,
        K.LIBVIDEO_ERR_STD].Nodup →
      cap_param_excp K K.LIBVIDEO_ERR_DIMENSIONS = Excp.DIM_EXCP ∧
      cap_param_excp K K.LIBVIDEO_ERR_CHAN_SETUP = Excp.CHANNEL_EXCP ∧
      cap_param_excp K K.LIBVIDEO_ERR_FORMAT = Excp.FORMAT_EXCP ∧
      cap_param_excp K K.LIBVIDEO_ERR_STD = Excp.STD_EXCP) ∧
    (∀ i, i ∉ [K.LIBVIDEO_ERR_DIMENSIONS, K.LIBVIDEO_ERR_CHAN_SETUP, K.LIBVIDEO_ERR_FORMAT,
        K.LIBVIDEO_ERR_STD] → cap_param_excp K i = Excp.GENERIC_EXCP) ∧
    ((Java_au_edu_jcu_v4l4j_AbstractGrabber_doInit K J d set_cap_param init_capture
        free_capture env num_buffers w h ch std in_fmt fg_out_fmt).ret ≠ 0 →
      init_steps_pass K J d set_cap_param init_capture env num_buffers w h ch std in_fmt
        fg_out_fmt) ∧
    ((Java_au_edu_jcu_v4l4j_AbstractGrabber_doInit K J d set_cap_param init_capture
        free_capture env num_buffers w h ch std in_fmt fg_out_fmt).raised = none →
      init_steps_pass K J d set_cap_param init_capture env num_buffers w h ch std in_fmt
        fg_out_fmt) ∧
    (init_steps_pass K J d set_cap_param init_capture env num_buffers w h ch std in_fmt
        fg_out_fmt →
      (Java_au_edu_jcu_v4l4j_AbstractGrabber_doInit K J d set_cap_param init_capture
        free_capture env num_buffers w h ch std in_fmt fg_out_fmt).ret =
        to_int (Java_au_edu_jcu_v4l4j_AbstractGrabber_doInit K J d set_cap_param init_capture
          free_capture env num_buffers w h ch std in_fmt fg_out_fmt).d.vdev.mmap.buffer_nr ∧
      (Java_au_edu_jcu_v4l4j_AbstractGrabber_doInit K J d set_cap_param init_capture
        free_capture env num_buffers w h ch std in_fmt fg_out_fmt).freed = false) := by
  have hcases := doInit_cases K J d set_cap_param init_capture free_capture env num_buffers w h
    ch std in_fmt fg_out_fmt
  refine ⟨?_, ?_, ?_, ?_, ?_, ?_⟩
  · intro c hids hc hf
    have h1 : ¬ (env.field_ids_known = false ∧ env.field_ids_found = false) := by
      rcases hids with hk | hk <;> simp [hk]
    unfold doInit_set_cap_param
    unfold doInit_format at hf ⊢
    unfold Java_au_edu_jcu_v4l4j_AbstractGrabber_doInit
    constructor
    · intro h3
      simp [h1, hc, hf, h3]
    · intro h3 h4
      simp [h1, hc, hf, h3, h4]
  · intro hn
    simp only [List.nodup_cons, List.mem_cons, List.mem_singleton, not_or, List.not_mem_nil,
      List.nodup_nil, not_false_eq_true, and_true, or_false] at hn
    obtain ⟨⟨a1, a2, a3⟩, ⟨b1, b2⟩, c1⟩ := hn
    simp [cap_param_excp, Ne.symm a1, Ne.symm a2, Ne.symm a3, Ne.symm b1, Ne.symm b2,
      Ne.symm c1]
  · intro i hi
    simp only [List.mem_cons, List.mem_singleton, not_or] at hi
    simp [cap_param_excp, hi.1, hi.2.1, hi.2.2.1, hi.2.2.2]
  · intro hret
    rcases hcases with ⟨h0, _, _⟩ | ⟨hp, _, _⟩
    · exact absurd h0 hret
    · exact hp
  · intro hnone
    rcases hcases with ⟨_, hr, _⟩ | ⟨hp, _, _⟩
    · exact absurd hnone hr
    · exact hp
  · intro hp
    rcases hcases with ⟨_, _, hnp⟩ | ⟨_, hr, hfr⟩
    · exact absurd hp hnp
    · exact ⟨hr, hfr⟩

/-- C22 on the sample device: a `set_cap_param` that returns LIBVIDEO_ERR_DIMENSIONS makes
`doInit` raise the dimension exception, and an `init_capture` that returns -1 makes it
raise the generic exception; both calls return 0 and free the capture device. A call that
returns the buffer count 2 is one in which every step passed. -/
theorem doInit_surfaces_failures_witness :
    ((Java_au_edu_jcu_v4l4j_AbstractGrabber_doInit demo_headers demo_common
        (demo_v4l4j 640 480 0) (fun c _ _ => ⟨5, c, []⟩) (fun c => ⟨0, c, []⟩)
        (fun c => (c, [])) demo_init_env 2 640 480 0 0 0 0).raised =
        some (cap_param_excp demo_headers
          (doInit_set_cap_param demo_headers demo_common (demo_v4l4j 640 480 0)
            (fun c _ _ => ⟨5, c, []⟩) demo_init_env 0 0 demo_device).ret) ∧
      (Java_au_edu_jcu_v4l4j_AbstractGrabber_doInit demo_headers demo_common
        (demo_v4l4j 640 480 0) (fun c _ _ => ⟨5, c, []⟩) (fun c => ⟨0, c, []⟩)
        (fun c => (c, [])) demo_init_env 2 640 480 0 0 0 0).ret = 0 ∧
      (Java_au_edu_jcu_v4l4j_AbstractGrabber_doInit demo_headers demo_common
        (demo_v4l4j 640 480 0) (fun c _ _ => ⟨5, c, []⟩) (fun c => ⟨0, c, []⟩)
        (fun c => (c, [])) demo_init_env 2 640 480 0 0 0 0).freed = true) ∧
    cap_param_excp demo_headers 5 = Excp.DIM_EXCP ∧
    ((Java_au_edu_jcu_v4l4j_AbstractGrabber_doInit demo_headers demo_common
        (demo_v4l4j 640 480 0) (fun c _ _ => ⟨0, c, []⟩) (fun c => ⟨-1, c, []⟩)
        (fun c => (c, [])) demo_init_env 2 640 480 0 0 0 0).raised =
        some Excp.GENERIC_EXCP ∧
      (Java_au_edu_jcu_v4l4j_AbstractGrabber_doInit demo_headers demo_common
        (demo_v4l4j 640 480 0) (fun c _ _ => ⟨0, c, []⟩) (fun c => ⟨-1, c, []⟩)
        (fun c => (c, [])) demo_init_env 2 640 480 0 0 0 0).ret = 0 ∧
      (Java_au_edu_jcu_v4l4j_AbstractGrabber_doInit demo_headers demo_common
        (demo_v4l4j 640 480 0) (fun c _ _ => ⟨0, c, []⟩) (fun c => ⟨-1, c, []⟩)
        (fun c => (c, [])) demo_init_env 2 640 480 0 0 0 0).freed = true) ∧
    init_steps_pass demo_headers demo_common (demo_v4l4j 640 480 0)
      (fun c _ _ => ⟨0, c, []⟩) (fun _ => ⟨0, demo_streaming 0, []⟩) demo_init_env 2 640 480 0 0 0 0 ∧
    (Java_au_edu_jcu_v4l4j_AbstractGrabber_doInit demo_headers demo_common
      (demo_v4l4j 640 480 0) (fun c _ _ => ⟨0, c, []⟩) (fun _ => ⟨0, demo_streaming 0, []⟩)
      (fun c => (c, [])) demo_init_env 2 640 480 0 0 0 0).ret = 2 :=
  ⟨((doInit_surfaces_failures demo_headers demo_common (demo_v4l4j 640 480 0)
      (fun c _ _ => ⟨5, c, []⟩) (fun _ => ⟨0, demo_streaming 0, []⟩) (fun c => (c, [])) demo_init_env
      2 640 480 0 0 0 0).1 demo_device (by decide) rfl (by decide)).1 (by decide),
   ((doInit_surfaces_failures demo_headers demo_common (demo_v4l4j 640 480 0)
      (fun c _ _ => ⟨5, c, []⟩) (fun _ => ⟨0, demo_streaming 0, []⟩) (fun c => (c, [])) demo_init_env
      2 640 480 0 0 0 0).2.1 (by decide)).1,
   ((doInit_surfaces_failures demo_headers demo_common (demo_v4l4j 640 480 0)
      (fun c _ _ => ⟨0, c, []⟩) (fun c => ⟨-1, c, []⟩) (fun c => (c, [])) demo_init_env
      2 640 480 0 0 0 0).1 demo_device (by decide) rfl (by decide)).2 (by decide)
      (by decide),
   (doInit_surfaces_failures demo_headers demo_common (demo_v4l4j 640 480 0)
      (fun c _ _ => ⟨0, c, []⟩) (fun _ => ⟨0, demo_streaming 0, []⟩) (fun c => (c, [])) demo_init_env
      2 640 480 0 0 0 0).2.2.2.1 (by decide),
   by decide⟩

end V4l4j
